import Mathlib

/-!
SLPC host/firmware coordination layer (drivers/gpu/drm/i915/intel_slpc.c)

A shallow embedding of the shared parameter store, the command channel and the
lifecycle operations of `intel_slpc.c`, followed by theorems about them.

Conventions of the embedding:
* machine words are `Nat`; `u32` complement is written with an explicit
  32-bit mask;
* the two arrays of `struct slpc_shared_data` are lists; an index outside an
  array is outside the C semantics (the model then reads 0 and writes nothing),
  and every theorem about array cells is stated for indices inside the arrays;
* `dev_priv->guc.slpc` is the field `slpc` of `drm_i915_private`;
* a `NULL` dereference makes a function return `none`;
* the messages handed to the GuC transport are recorded, in order, in
  `guc_sent`; `WARN_ON` hits are counted in `warn_count`; `DRM_ERROR` reports
  of a failed event are recorded in `drm_error_log`.
-/

namespace Slpc

/-! ## Constants -/

/-- Modelled from the spec: `enum slpc_param_id` is declared in a header that is
not part of the sources. The ids are numbered in the order of `slpc_paramlist`
(an array of `SLPC_MAX_PARAM` entries that `slpc_param_ctl_show` indexes by
id), which has twenty entries. -/
def SLPC_PARAM_TASK_ENABLE_GTPERF : Nat := 0

/-- Modelled from the spec: second entry of `slpc_paramlist`. -/
def SLPC_PARAM_TASK_DISABLE_GTPERF : Nat := 1

/-- Modelled from the spec: third entry of `slpc_paramlist`. -/
def SLPC_PARAM_TASK_ENABLE_BALANCER : Nat := 2

/-- Modelled from the spec: fourth entry of `slpc_paramlist`. -/
def SLPC_PARAM_TASK_DISABLE_BALANCER : Nat := 3

/-- Modelled from the spec: fifth entry of `slpc_paramlist`. -/
def SLPC_PARAM_TASK_ENABLE_DCC : Nat := 4

/-- Modelled from the spec: sixth entry of `slpc_paramlist`. -/
def SLPC_PARAM_TASK_DISABLE_DCC : Nat := 5

/-- Modelled from the spec: seventh entry of `slpc_paramlist`. -/
def SLPC_PARAM_GLOBAL_MIN_GT_UNSLICE_FREQ_MHZ : Nat := 6

/-- Modelled from the spec: eighth entry of `slpc_paramlist`. -/
def SLPC_PARAM_GLOBAL_MAX_GT_UNSLICE_FREQ_MHZ : Nat := 7

/-- Modelled from the spec: ninth entry of `slpc_paramlist`. -/
def SLPC_PARAM_GLOBAL_MIN_GT_SLICE_FREQ_MHZ : Nat := 8

/-- Modelled from the spec: tenth entry of `slpc_paramlist`. -/
def SLPC_PARAM_GLOBAL_MAX_GT_SLICE_FREQ_MHZ : Nat := 9

/-- Modelled from the spec: eleventh entry of `slpc_paramlist`. -/
def SLPC_PARAM_GTPERF_THRESHOLD_MAX_FPS : Nat := 10

/-- Modelled from the spec: twelfth entry of `slpc_paramlist`. -/
def SLPC_PARAM_GLOBAL_DISABLE_GT_FREQ_MANAGEMENT : Nat := 11

/-- Modelled from the spec: thirteenth entry of `slpc_paramlist`. -/
def SLPC_PARAM_GTPERF_ENABLE_FRAMERATE_STALLING : Nat := 12

/-- Modelled from the spec: fourteenth entry of `slpc_paramlist`. -/
def SLPC_PARAM_GLOBAL_DISABLE_RC6_MODE_CHANGE : Nat := 13

/-- Modelled from the spec: fifteenth entry of `slpc_paramlist`. -/
def SLPC_PARAM_GLOBAL_OC_UNSLICE_FREQ_MHZ : Nat := 14

/-- Modelled from the spec: sixteenth entry of `slpc_paramlist`. -/
def SLPC_PARAM_GLOBAL_OC_SLICE_FREQ_MHZ : Nat := 15

/-- Modelled from the spec: seventeenth entry of `slpc_paramlist`. -/
def SLPC_PARAM_GLOBAL_ENABLE_IA_GT_BALANCING : Nat := 16

/-- Modelled from the spec: eighteenth entry of `slpc_paramlist`. -/
def SLPC_PARAM_GLOBAL_ENABLE_ADAPTIVE_BURST_TURBO : Nat := 17

/-- Modelled from the spec: nineteenth entry of `slpc_paramlist`. -/
def SLPC_PARAM_GLOBAL_ENABLE_EVAL_MODE : Nat := 18

/-- Modelled from the spec: twentieth entry of `slpc_paramlist`. -/
def SLPC_PARAM_GLOBAL_ENABLE_BALANCER_IN_NON_GAMING_MODE : Nat := 19

/-- Modelled from the spec: the number of parameter ids, the length of
`slpc_paramlist`. -/
def SLPC_MAX_PARAM : Nat := 20

/-- Modelled from the spec: the tri-state values are macros of the missing
header; the numbering is the one of the comment in `intel_slpc_task_status`
(0 default, 1 enabled, 2 disabled, 3 unknown). -/
def SLPC_PARAM_TASK_DEFAULT : Nat := 0

/-- Modelled from the spec: tri-state value 1, see `SLPC_PARAM_TASK_DEFAULT`. -/
def SLPC_PARAM_TASK_ENABLED : Nat := 1

/-- Modelled from the spec: tri-state value 2, see `SLPC_PARAM_TASK_DEFAULT`. -/
def SLPC_PARAM_TASK_DISABLED : Nat := 2

/-- Modelled from the spec: tri-state value 3, see `SLPC_PARAM_TASK_DEFAULT`. -/
def SLPC_PARAM_TASK_UNKNOWN : Nat := 3

/-- Modelled from the spec: `enum slpc_global_state` is declared in the missing
header; the states are numbered in the order in which the spec lists them and
`intel_slpc_get_state_str` tests them. -/
def SLPC_GLOBAL_STATE_NOT_RUNNING : Nat := 0

/-- Modelled from the spec: second lifecycle state. -/
def SLPC_GLOBAL_STATE_INITIALIZING : Nat := 1

/-- Modelled from the spec: third lifecycle state. -/
def SLPC_GLOBAL_STATE_RESETTING : Nat := 2

/-- Modelled from the spec: fourth lifecycle state. -/
def SLPC_GLOBAL_STATE_RUNNING : Nat := 3

/-- Modelled from the spec: fifth lifecycle state. -/
def SLPC_GLOBAL_STATE_SHUTTING_DOWN : Nat := 4

/-- Modelled from the spec: sixth lifecycle state. -/
def SLPC_GLOBAL_STATE_ERROR : Nat := 5

/-- Modelled from the spec: `enum slpc_event_id` is declared in the missing
header; only the fact that the opcodes differ is used. -/
def SLPC_EVENT_RESET : Nat := 0

/-- Modelled from the spec: opcode of the shutdown event. -/
def SLPC_EVENT_SHUTDOWN : Nat := 1

/-- Modelled from the spec: opcode of the query-task-state event. -/
def SLPC_EVENT_QUERY_TASK_STATE : Nat := 5

/-- Modelled from the spec: opcode of the parameter-set event. -/
def SLPC_EVENT_PARAMETER_SET : Nat := 6

/-- Modelled from the spec: opcode of the parameter-unset event. -/
def SLPC_EVENT_PARAMETER_UNSET : Nat := 7

/-- Modelled from the spec: the transport action tag the host writes into word 0
of every request; a constant of the missing GuC interface header. -/
def INTEL_GUC_ACTION_SLPC_REQUEST : Nat := 0x3003

/-- Modelled from the spec: the macro `SLPC_EVENT(id, argc)` of the missing
header, "header = opcode packed with argument count": the opcode in the second
byte (the byte `host2guc_slpc` extracts with `& 0xFF00 >> 8`), the count in
the first. -/
def SLPC_EVENT (id argc : Nat) : Nat := ((id <<< 8) ||| argc) % 2 ^ 32

/-- Modelled from the spec: number of argument words of an event, "up to 14
argument words" (`BUILD_BUG_ON(SLPC_EVENT_MAX_INPUT_ARGS > 14)`). -/
def SLPC_EVENT_MAX_INPUT_ARGS : Nat := 14

/-- Modelled from the spec: "override values array sized to MAX_PARAM". -/
def SLPC_MAX_OVERRIDE_PARAMETERS : Nat := SLPC_MAX_PARAM

/-- Modelled from the spec: "override bitmap sized to cover all Parameter IDs",
in 32-bit words. -/
def SLPC_OVERRIDE_BITFIELD_SIZE : Nat := (SLPC_MAX_OVERRIDE_PARAMETERS + 31) / 32

/-- Linux errno `EINVAL`. -/
def EINVAL : Int := 22

/-- Linux errno `ENODEV`. -/
def ENODEV : Int := 19

/-- Linux errno `E2BIG`. -/
def E2BIG : Int := 7

/-! ## Shared parameter store -/

/-- The `platform_info` block of the shared data. -/
structure slpc_platform_info where
  platform_sku : Nat
  slice_count : Nat
  power_plan_source : Nat
  P0_freq : Nat
  P1_freq : Nat
  Pe_freq : Nat
  Pn_freq : Nat
deriving DecidableEq

/-- The firmware-reported `task_state_data` block; the two fields the host
reads. -/
structure slpc_task_state_data where
  max_unslice_freq : Nat
  min_unslice_freq : Nat
deriving DecidableEq

/-- The shared memory region, `struct slpc_shared_data`. -/
structure slpc_shared_data where
  shared_data_size : Nat
  global_state : Nat
  platform_info : slpc_platform_info
  task_state_data : slpc_task_state_data
  override_parameters_set_bits : List Nat
  override_parameters_values : List Nat
deriving DecidableEq

/-- The store has room for every parameter id: the bitmap has a bit and the
values array a cell for each id below `SLPC_MAX_PARAM`. -/
def slpc_shared_data.provisioned (data : slpc_shared_data) : Prop :=
  SLPC_MAX_PARAM ≤ 32 * data.override_parameters_set_bits.length ∧
  SLPC_MAX_PARAM ≤ data.override_parameters_values.length

instance (data : slpc_shared_data) : Decidable data.provisioned :=
  inferInstanceAs (Decidable (_ ∧ _))

/-- The C expression `~x` on a `u32`. -/
def u32_not (x : Nat) : Nat := 0xFFFFFFFF ^^^ (x % 2 ^ 32)

/-- Source `slpc_mem_set_param`: set the override bit of `id` and store
`value`. -/
def slpc_mem_set_param (data : slpc_shared_data) (id value : Nat) : slpc_shared_data :=
  { data with
    override_parameters_set_bits :=
      data.override_parameters_set_bits.set (id >>> 5)
        (data.override_parameters_set_bits.getD (id >>> 5) 0 ||| (1 <<< (id % 32)))
    override_parameters_values := data.override_parameters_values.set id value }

/-- Source `slpc_mem_unset_param`: clear the override bit of `id` and zero the
value. -/
def slpc_mem_unset_param (data : slpc_shared_data) (id : Nat) : slpc_shared_data :=
  { data with
    override_parameters_set_bits :=
      data.override_parameters_set_bits.set (id >>> 5)
        (data.override_parameters_set_bits.getD (id >>> 5) 0 &&& u32_not (1 <<< (id % 32)))
    override_parameters_values := data.override_parameters_values.set id 0 }

/-- The two reads of `intel_slpc_get_param` on the mapped store: the override
flag `0 != (bits & (1 << (id % 32)))` as a C int, and the stored value. -/
def slpc_mem_get_param (data : slpc_shared_data) (id : Nat) : Nat × Nat :=
  let bits := data.override_parameters_set_bits.getD (id >>> 5) 0
  (if bits &&& (1 <<< (id % 32)) ≠ 0 then 1 else 0,
   data.override_parameters_values.getD id 0)

/-- Source `slpc_mem_task_control`: the tri-state write on the store; returns
the store and the C return value. -/
def slpc_mem_task_control (data : slpc_shared_data) (val enable_id disable_id : Nat) :
    slpc_shared_data × Int :=
  if val = SLPC_PARAM_TASK_DEFAULT then
    (slpc_mem_unset_param (slpc_mem_unset_param data enable_id) disable_id, 0)
  else if val = SLPC_PARAM_TASK_ENABLED then
    (slpc_mem_unset_param (slpc_mem_set_param data enable_id 1) disable_id, 0)
  else if val = SLPC_PARAM_TASK_DISABLED then
    (slpc_mem_unset_param (slpc_mem_set_param data disable_id 1) enable_id, 0)
  else
    (data, -EINVAL)

/-! ## Device state and external collaborators -/

/-- The pinned buffer behind `dev_priv->guc.slpc.vma`: its GGTT offset
(`guc_ggtt_offset(vma)`) and the content of its first page, the shared data. -/
structure i915_vma where
  ggtt_offset : Nat
  page : slpc_shared_data
deriving DecidableEq

/-- The host-side SLPC fields, `struct intel_slpc`; `vma = none` is the `NULL`
pointer. -/
structure intel_slpc where
  active : Bool
  vma : Option i915_vma
  rp_control : Nat
  max_unslice_freq : Nat
  min_unslice_freq : Nat
  debug_param_id : Nat
  debug_param_override : Nat
  debug_param_value : Nat
deriving DecidableEq

/-- The `rps` fields of the device the SLPC code reads. -/
structure intel_rps where
  min_freq : Nat
  max_freq : Nat
  efficient_freq : Nat
deriving DecidableEq

/-- The device, `struct drm_i915_private`, with the observable effects of the
code made explicit: the hardware register `GEN6_RP_CONTROL`, the runtime-pm
reference count, the requests handed to the GuC transport (oldest first), the
`DRM_ERROR` reports of failed events and the number of `WARN_ON` hits. -/
structure drm_i915_private where
  slpc : intel_slpc
  rps : intel_rps
  GEN6_RP_CONTROL : Nat
  runtime_pm_count : Nat
  guc_sent : List (List Nat)
  drm_error_log : List (Nat × Int)
  warn_count : Nat
deriving DecidableEq

/-- What the firmware does with one request: the result code and output words
it returns through the transport, and the values of the two firmware-owned
parts of the shared data (`global_state`, `task_state_data`) when the call
returns. -/
structure guc_reply where
  ret : Int
  output : List Nat
  global_state : Nat
  task_state_data : slpc_task_state_data

/-- The collaborators that are not part of `intel_slpc.c`, taken as parameters:
the firmware behind the transport (a function of all requests received so far
and of the shared data it sees), the frequency conversion `intel_gpu_freq`,
the constant `GEN9_FREQ_SCALER`, `sizeof(struct slpc_shared_data)`, the
platform predicates and SKU codes, the slice mask, the value of
`SLPC_POWER_PLAN_SOURCE(SLPC_POWER_PLAN_PERFORMANCE, SLPC_POWER_SOURCE_AC)` and
the two model-specific registers read at initialisation. -/
structure slpc_platform where
  firmware : List (List Nat) → Option slpc_shared_data → guc_reply
  intel_gpu_freq : Nat → Nat
  GEN9_FREQ_SCALER : Nat
  sizeof_slpc_shared_data : Nat
  IS_SKL_ULX : Bool
  IS_KBL_ULX : Bool
  IS_SKL_ULT : Bool
  IS_KBL_ULT : Bool
  IS_SKYLAKE : Bool
  SLPC_PLATFORM_SKU_ULX : Nat
  SLPC_PLATFORM_SKU_ULT : Nat
  SLPC_PLATFORM_SKU_DT : Nat
  slice_mask : Nat
  power_plan_source : Nat
  MSR_TURBO_RATIO_LIMIT : Nat
  MSR_PLATFORM_INFO : Nat

/-- The macro `WARN_ON(cond)`: count a hit when `cond` holds, and go on. -/
def WARN_ON (cond : Bool) (dev : drm_i915_private) : drm_i915_private :=
  if cond then { dev with warn_count := dev.warn_count + 1 } else dev

/-- The call `intel_runtime_pm_get`. -/
def intel_runtime_pm_get (dev : drm_i915_private) : drm_i915_private :=
  { dev with runtime_pm_count := dev.runtime_pm_count + 1 }

/-- The call `intel_runtime_pm_put`. -/
def intel_runtime_pm_put (dev : drm_i915_private) : drm_i915_private :=
  { dev with runtime_pm_count := dev.runtime_pm_count - 1 }

/-- Replace the content of the mapped page, when there is a buffer. -/
def set_page (dev : drm_i915_private) (f : slpc_shared_data → slpc_shared_data) :
    drm_i915_private :=
  { dev with slpc := { dev.slpc with
      vma := dev.slpc.vma.map fun v => { v with page := f v.page } } }

/-! ## Command channel -/

/-- The request buffer, `struct slpc_event_input`: the word reserved for the
action tag, the header word and the argument words. -/
structure slpc_event_input where
  h2g_action_id : Nat
  header : Nat
  args : List Nat
deriving DecidableEq

/-- The initialiser `= {0}`. -/
def slpc_event_input.zero : slpc_event_input :=
  { h2g_action_id := 0, header := 0, args := List.replicate SLPC_EVENT_MAX_INPUT_ARGS 0 }

/-- The buffer seen as an array of words, `(u32 *) input`. -/
def slpc_event_input.words (input : slpc_event_input) : List Nat :=
  input.h2g_action_id :: input.header :: input.args

/-- Modelled from the spec: the transport `__intel_guc_send_mmio` is not in the
sources; "send request buffer, block until response buffer of fixed size is
filled or a timeout/error occurs". The first `len` words are handed over (and
recorded), the firmware writes the parts of the shared data it owns, and the
result code and output words come back. -/
def intel_guc_send_mmio (ext : slpc_platform) (dev : drm_i915_private) (data : List Nat)
    (len : Nat) : drm_i915_private × Int × List Nat :=
  let sent := dev.guc_sent ++ [data.take len]
  let r := ext.firmware sent (dev.slpc.vma.map fun v => v.page)
  (set_page { dev with guc_sent := sent } fun p =>
      { p with global_state := r.global_state, task_state_data := r.task_state_data },
   r.ret, r.output)

/-- Source `host2guc_slpc`: tag the buffer, send it, report a failure. -/
def host2guc_slpc (ext : slpc_platform) (dev : drm_i915_private) (input : slpc_event_input)
    (len : Nat) : drm_i915_private :=
  let data := { input with h2g_action_id := INTEL_GUC_ACTION_SLPC_REQUEST }.words
  let r := intel_guc_send_mmio ext dev data len
  if r.2.1 ≠ 0 then
    { r.1 with drm_error_log := r.1.drm_error_log ++ [((r.2.2.getD 0 0 &&& 0xFF00) >>> 8, r.2.1)] }
  else r.1

/-- Source `host2guc_slpc_set_param`. -/
def host2guc_slpc_set_param (ext : slpc_platform) (dev : drm_i915_private) (id value : Nat) :
    drm_i915_private :=
  host2guc_slpc ext dev
    { slpc_event_input.zero with
      header := SLPC_EVENT SLPC_EVENT_PARAMETER_SET 2
      args := (slpc_event_input.zero.args.set 0 id).set 1 value } 4

/-- Source `host2guc_slpc_unset_param`. -/
def host2guc_slpc_unset_param (ext : slpc_platform) (dev : drm_i915_private) (id : Nat) :
    drm_i915_private :=
  host2guc_slpc ext dev
    { slpc_event_input.zero with
      header := SLPC_EVENT SLPC_EVENT_PARAMETER_UNSET 1
      args := slpc_event_input.zero.args.set 0 id } 3

/-- The three events that carry the shared-data offset (`host2guc_slpc_reset`,
`host2guc_slpc_query_task_state`, `host2guc_slpc_shutdown` differ only in the
opcode); `guc_ggtt_offset` dereferences the buffer. -/
def host2guc_slpc_offset_event (ext : slpc_platform) (dev : drm_i915_private) (event : Nat) :
    Option drm_i915_private :=
  match dev.slpc.vma with
  | none => none
  | some vma =>
    some (host2guc_slpc ext dev
      { slpc_event_input.zero with
        header := SLPC_EVENT event 2
        args := (slpc_event_input.zero.args.set 0 vma.ggtt_offset).set 1 0 } 4)

/-- Source `host2guc_slpc_reset`. -/
def host2guc_slpc_reset (ext : slpc_platform) (dev : drm_i915_private) : Option drm_i915_private :=
  host2guc_slpc_offset_event ext dev SLPC_EVENT_RESET

/-- Source `host2guc_slpc_query_task_state`. -/
def host2guc_slpc_query_task_state (ext : slpc_platform) (dev : drm_i915_private) :
    Option drm_i915_private :=
  host2guc_slpc_offset_event ext dev SLPC_EVENT_QUERY_TASK_STATE

/-- Source `host2guc_slpc_shutdown`. -/
def host2guc_slpc_shutdown (ext : slpc_platform) (dev : drm_i915_private) :
    Option drm_i915_private :=
  host2guc_slpc_offset_event ext dev SLPC_EVENT_SHUTDOWN

/-! ## Parameter coordinator -/

/-- Source `intel_slpc_set_param`. -/
def intel_slpc_set_param (ext : slpc_platform) (dev : drm_i915_private) (id value : Nat) :
    drm_i915_private :=
  let dev := WARN_ON (decide (id ≥ SLPC_MAX_PARAM)) dev
  match dev.slpc.vma with
  | none => dev
  | some _ =>
    host2guc_slpc_set_param ext (set_page dev fun p => slpc_mem_set_param p id value) id value

/-- Source `intel_slpc_unset_param`. -/
def intel_slpc_unset_param (ext : slpc_platform) (dev : drm_i915_private) (id : Nat) :
    drm_i915_private :=
  let dev := WARN_ON (decide (id ≥ SLPC_MAX_PARAM)) dev
  match dev.slpc.vma with
  | none => dev
  | some _ =>
    host2guc_slpc_unset_param ext (set_page dev fun p => slpc_mem_unset_param p id) id

/-- Source `intel_slpc_get_param`, called with both output pointers (as every
caller does): the device (a `WARN_ON` may hit) and what is written through
`overriding` and `value`; `none` when nothing is written. -/
def intel_slpc_get_param (dev : drm_i915_private) (id : Nat) :
    drm_i915_private × Option (Nat × Nat) :=
  let dev := WARN_ON (decide (id ≥ SLPC_MAX_PARAM)) dev
  match dev.slpc.vma with
  | none => (dev, none)
  | some vma => (dev, some (slpc_mem_get_param vma.page id))

/-! ## Lifecycle -/

/-- Source `intel_slpc_restore_default_rps`. -/
def intel_slpc_restore_default_rps (dev : drm_i915_private) : drm_i915_private :=
  { dev with GEN6_RP_CONTROL := dev.slpc.rp_control }

/-- Source `intel_slpc_save_default_rps`. -/
def intel_slpc_save_default_rps (dev : drm_i915_private) : drm_i915_private :=
  { dev with slpc := { dev.slpc with rp_control := dev.GEN6_RP_CONTROL } }

/-- Source `intel_slpc_enable`. -/
def intel_slpc_enable (ext : slpc_platform) (dev : drm_i915_private) : Option drm_i915_private :=
  let dev := intel_slpc_restore_default_rps dev
  match dev.slpc.vma with
  | none => none
  | some _ =>
    let dev := set_page dev fun p => { p with global_state := SLPC_GLOBAL_STATE_NOT_RUNNING }
    match host2guc_slpc_reset ext dev with
    | none => none
    | some dev => some { dev with slpc := { dev.slpc with active := true } }

/-- Source `intel_slpc_disable`. -/
def intel_slpc_disable (ext : slpc_platform) (dev : drm_i915_private) : Option drm_i915_private :=
  match host2guc_slpc_shutdown ext dev with
  | none => none
  | some dev => some { dev with slpc := { dev.slpc with active := false } }

/-- Source `intel_slpc_query_task_state`. -/
def intel_slpc_query_task_state (ext : slpc_platform) (dev : drm_i915_private) :
    Option drm_i915_private :=
  if dev.slpc.active then host2guc_slpc_query_task_state ext dev else some dev

/-- Source `intel_slpc_read_shared_data`: the device afterwards and the copy of
the shared data. -/
def intel_slpc_read_shared_data (ext : slpc_platform) (dev : drm_i915_private) :
    Option (drm_i915_private × slpc_shared_data) :=
  match intel_slpc_query_task_state ext dev with
  | none => none
  | some dev =>
    match dev.slpc.vma with
    | none => none
    | some vma => some (dev, vma.page)

/-- Source `intel_slpc_get_status`. -/
def intel_slpc_get_status (ext : slpc_platform) (dev : drm_i915_private) :
    Option (drm_i915_private × Bool) :=
  match intel_slpc_read_shared_data ext dev with
  | none => none
  | some (dev, data) =>
    if data.global_state = SLPC_GLOBAL_STATE_RUNNING then
      some ({ dev with slpc := { dev.slpc with
                max_unslice_freq :=
                  (data.task_state_data.max_unslice_freq * ext.GEN9_FREQ_SCALER) % 2 ^ 32
                min_unslice_freq :=
                  (data.task_state_data.min_unslice_freq * ext.GEN9_FREQ_SCALER) % 2 ^ 32 } },
            true)
    else if data.global_state = SLPC_GLOBAL_STATE_ERROR then some (dev, false)
    else if data.global_state = SLPC_GLOBAL_STATE_RESETTING then some (dev, true)
    else some (dev, false)

/-! ## Task and frequency helpers -/

/-- Source `intel_slpc_task_control`: the device afterwards and the return
value. -/
def intel_slpc_task_control (ext : slpc_platform) (dev : drm_i915_private)
    (val enable_id disable_id : Nat) : Option (drm_i915_private × Int) :=
  if !dev.slpc.active then some (dev, -ENODEV)
  else
    let dev := intel_runtime_pm_get dev
    let r : drm_i915_private × Int :=
      if val = SLPC_PARAM_TASK_DEFAULT then
        (intel_slpc_unset_param ext (intel_slpc_unset_param ext dev enable_id) disable_id, 0)
      else if val = SLPC_PARAM_TASK_ENABLED then
        (intel_slpc_unset_param ext (intel_slpc_set_param ext dev enable_id 1) disable_id, 0)
      else if val = SLPC_PARAM_TASK_DISABLED then
        (intel_slpc_unset_param ext (intel_slpc_set_param ext dev disable_id 1) enable_id, 0)
      else (dev, -EINVAL)
    match intel_slpc_enable ext r.1 with
    | none => none
    | some dev => some (intel_runtime_pm_put dev, r.2)

/-- The classification at the end of `intel_slpc_task_status`, from the two
override flags (C ints) and the two values. -/
def task_status_value (override_enable value_enable override_disable value_disable : Nat) :
    Nat :=
  if override_disable ≠ 0 ∧ value_disable = 1 then SLPC_PARAM_TASK_DISABLED
  else if override_enable ≠ 0 ∧ value_enable = 1 then SLPC_PARAM_TASK_ENABLED
  else if override_enable = 0 ∧ override_disable = 0 then SLPC_PARAM_TASK_DEFAULT
  else SLPC_PARAM_TASK_UNKNOWN

/-- Source `intel_slpc_task_status`. The output pointer `val` is `none` when
`NULL` and otherwise holds the content of the location it points to; the
result is the device, the content of that location afterwards and the return
value. With no buffer `intel_slpc_get_param` writes nothing and the
classification would read uninitialised locals: `none`. -/
def intel_slpc_task_status (dev : drm_i915_private) (val : Option Nat)
    (enable_id disable_id : Nat) : Option (drm_i915_private × Option Nat × Int) :=
  if !dev.slpc.active then some (dev, val, -ENODEV)
  else
    match val with
    | some _ =>
      let e := intel_slpc_get_param dev enable_id
      let d := intel_slpc_get_param e.1 disable_id
      match e.2, d.2 with
      | some (override_enable, value_enable), some (override_disable, value_disable) =>
        some (d.1,
              some (task_status_value override_enable value_enable override_disable
                      value_disable), 0)
      | _, _ => none
    | none => some (dev, val, -EINVAL)

/-- Source `intel_slpc_max_freq_set`. -/
def intel_slpc_max_freq_set (ext : slpc_platform) (dev : drm_i915_private) (val : Nat) :
    Option (drm_i915_private × Int) :=
  if val < dev.rps.min_freq ∨ val > dev.rps.max_freq ∨ val < dev.slpc.min_unslice_freq then
    some (dev, -EINVAL)
  else
    let dev := intel_slpc_set_param ext dev SLPC_PARAM_GLOBAL_MAX_GT_UNSLICE_FREQ_MHZ
      (ext.intel_gpu_freq val)
    let dev := intel_slpc_set_param ext dev SLPC_PARAM_GLOBAL_MAX_GT_SLICE_FREQ_MHZ
      (ext.intel_gpu_freq val)
    match intel_slpc_enable ext dev with
    | none => none
    | some dev => some ({ dev with slpc := { dev.slpc with max_unslice_freq := val } }, 0)

/-- Source `intel_slpc_min_freq_set`. -/
def intel_slpc_min_freq_set (ext : slpc_platform) (dev : drm_i915_private) (val : Nat) :
    Option (drm_i915_private × Int) :=
  if val < dev.rps.min_freq ∨ val > dev.rps.max_freq ∨ val > dev.slpc.max_unslice_freq then
    some (dev, -EINVAL)
  else
    let dev := intel_slpc_set_param ext dev SLPC_PARAM_GLOBAL_MIN_GT_UNSLICE_FREQ_MHZ
      (ext.intel_gpu_freq val)
    let dev := intel_slpc_set_param ext dev SLPC_PARAM_GLOBAL_MIN_GT_SLICE_FREQ_MHZ
      (ext.intel_gpu_freq val)
    match intel_slpc_enable ext dev with
    | none => none
    | some dev => some ({ dev with slpc := { dev.slpc with min_unslice_freq := val } }, 0)

/-! ## Initialisation of the shared data -/

/-- Source `slpc_get_platform_sku`. -/
def slpc_get_platform_sku (ext : slpc_platform) (dev : drm_i915_private) :
    drm_i915_private × Nat :=
  let platform_sku :=
    if ext.IS_SKL_ULX || ext.IS_KBL_ULX then ext.SLPC_PLATFORM_SKU_ULX
    else if ext.IS_SKL_ULT || ext.IS_KBL_ULT then ext.SLPC_PLATFORM_SKU_ULT
    else ext.SLPC_PLATFORM_SKU_DT
  (WARN_ON (decide (platform_sku > 0xFF)) dev, platform_sku)

/-- The kernel helper `hweight8`: the number of bits set in the low byte. -/
def hweight8 (w : Nat) : Nat :=
  ((List.range 8).filter fun i => w.testBit i).length

/-- Source `slpc_get_slice_count`. -/
def slpc_get_slice_count (ext : slpc_platform) : Nat :=
  if ext.IS_SKYLAKE then hweight8 ext.slice_mask else 1

/-- The region after `memset(data, 0, sizeof(struct slpc_shared_data))`. -/
def slpc_shared_data.zeroed : slpc_shared_data :=
  { shared_data_size := 0
    global_state := 0
    platform_info :=
      { platform_sku := 0, slice_count := 0, power_plan_source := 0,
        P0_freq := 0, P1_freq := 0, Pe_freq := 0, Pn_freq := 0 }
    task_state_data := { max_unslice_freq := 0, min_unslice_freq := 0 }
    override_parameters_set_bits := List.replicate SLPC_OVERRIDE_BITFIELD_SIZE 0
    override_parameters_values := List.replicate SLPC_MAX_OVERRIDE_PARAMETERS 0 }

/-- The content `slpc_shared_data_init` writes into the mapped region, given
the platform SKU it queried. The fields of `platform_info` are one byte wide
(the shifts by 8, 40 and 48 and `WARN_ON(platform_sku > 0xFF)`). -/
def slpc_shared_data_init_page (ext : slpc_platform) (dev : drm_i915_private)
    (platform_sku : Nat) : slpc_shared_data :=
  let data := slpc_shared_data.zeroed
  let data := { data with shared_data_size := ext.sizeof_slpc_shared_data }
  let data := { data with global_state := SLPC_GLOBAL_STATE_NOT_RUNNING }
  let data := { data with platform_info :=
    { platform_sku := platform_sku % 2 ^ 8
      slice_count := slpc_get_slice_count ext % 2 ^ 8
      power_plan_source := ext.power_plan_source % 2 ^ 8
      P0_freq := ext.MSR_TURBO_RATIO_LIMIT % 2 ^ 8
      P1_freq := (ext.MSR_PLATFORM_INFO >>> 8) % 2 ^ 8
      Pe_freq := (ext.MSR_PLATFORM_INFO >>> 40) % 2 ^ 8
      Pn_freq := (ext.MSR_PLATFORM_INFO >>> 48) % 2 ^ 8 } }
  let data := (slpc_mem_task_control data SLPC_PARAM_TASK_ENABLED
    SLPC_PARAM_TASK_ENABLE_GTPERF SLPC_PARAM_TASK_DISABLE_GTPERF).1
  let data := (slpc_mem_task_control data SLPC_PARAM_TASK_ENABLED
    SLPC_PARAM_TASK_ENABLE_BALANCER SLPC_PARAM_TASK_DISABLE_BALANCER).1
  let data := (slpc_mem_task_control data SLPC_PARAM_TASK_DISABLED
    SLPC_PARAM_TASK_ENABLE_DCC SLPC_PARAM_TASK_DISABLE_DCC).1
  let data := slpc_mem_set_param data SLPC_PARAM_GTPERF_THRESHOLD_MAX_FPS 0
  let data := slpc_mem_set_param data SLPC_PARAM_GTPERF_ENABLE_FRAMERATE_STALLING 0
  let data := slpc_mem_set_param data SLPC_PARAM_GLOBAL_ENABLE_IA_GT_BALANCING 1
  let data := slpc_mem_set_param data SLPC_PARAM_GLOBAL_ENABLE_ADAPTIVE_BURST_TURBO 0
  let data := slpc_mem_set_param data SLPC_PARAM_GLOBAL_ENABLE_EVAL_MODE 0
  let data := slpc_mem_set_param data SLPC_PARAM_GLOBAL_ENABLE_BALANCER_IN_NON_GAMING_MODE 1
  let data := slpc_mem_set_param data SLPC_PARAM_GLOBAL_MIN_GT_UNSLICE_FREQ_MHZ
    (ext.intel_gpu_freq dev.rps.efficient_freq)
  slpc_mem_set_param data SLPC_PARAM_GLOBAL_MIN_GT_SLICE_FREQ_MHZ
    (ext.intel_gpu_freq dev.rps.efficient_freq)

/-- Source `slpc_shared_data_init`: map the buffer and fill it. -/
def slpc_shared_data_init (ext : slpc_platform) (dev : drm_i915_private) :
    Option drm_i915_private :=
  match dev.slpc.vma with
  | none => none
  | some _ =>
    let r := slpc_get_platform_sku ext dev
    some (set_page r.1 fun _ => slpc_shared_data_init_page ext dev r.2)

/-! ## Parameter control surface -/

/-- What `slpc_param_ctl_parse` leaves behind in `slpc_param_ctl_write`: its
return value and the content of the locals `op` (`none` is `NULL`), `id` and
`value` after the call. -/
structure slpc_param_ctl_parsed where
  ret : Int
  op : Option String
  id : Nat
  value : Nat
deriving DecidableEq

/-- Source `slpc_param_ctl_write`, from the call of `slpc_param_ctl_parse` on
(the allocation and the copy from user space are taken to succeed): the
device, the file offset and the return value. `strcmp` on a `NULL` `op`
gives `none`. -/
def slpc_param_ctl_write (ext : slpc_platform) (dev : drm_i915_private) (len : Nat)
    (parsed : slpc_param_ctl_parsed) (offp : Nat) : Option (drm_i915_private × Nat × Int) :=
  if len = 0 then some (dev, offp, 0)
  else if len > 40 then some (dev, offp, -E2BIG)
  else
    let out (dev : drm_i915_private) (ret : Int) : Option (drm_i915_private × Nat × Int) :=
      if ret < 0 then some (dev, offp, ret) else some (dev, offp + len, len)
    if parsed.id ≥ SLPC_MAX_PARAM then out dev (-EINVAL)
    else
      match parsed.op with
      | none => none
      | some op =>
        if op = "read" then
          let r := intel_slpc_get_param dev parsed.id
          let dev := r.1
          let dev :=
            match r.2 with
            | none => dev
            | some (o, v) =>
              { dev with slpc := { dev.slpc with debug_param_override := o
                                                 debug_param_value := v } }
          out { dev with slpc := { dev.slpc with debug_param_id := parsed.id } } parsed.ret
        else if op = "write" ∨ op = "revert" then
          if parsed.id ≥ SLPC_PARAM_TASK_ENABLE_GTPERF ∧
              parsed.id ≤ SLPC_PARAM_TASK_DISABLE_DCC then
            out dev (-EINVAL)
          else
            let dev := intel_runtime_pm_get dev
            let dev :=
              if op = "write" then intel_slpc_set_param ext dev parsed.id parsed.value
              else if op = "revert" then intel_slpc_unset_param ext dev parsed.id
              else dev
            match intel_slpc_enable ext dev with
            | none => none
            | some dev => out (intel_runtime_pm_put dev) parsed.ret
        else out dev parsed.ret

/-! ## Spec-side readings and sample inputs -/

/-- The spec's reading of "the override bit of `id` is set": bit `id mod 32` of
word `id div 32` of the bitmap. -/
def spec_override_set (data : slpc_shared_data) (id : Nat) : Bool :=
  (data.override_parameters_set_bits.getD (id / 32) 0).testBit (id % 32)

/-- The spec's reading of "the override value of `id`". -/
def spec_override_value (data : slpc_shared_data) (id : Nat) : Nat :=
  data.override_parameters_values.getD id 0

/-- The documented default set, in the spec's words: what reading parameter `id`
gives, as (overriding, value), after initialisation on a platform whose
efficient frequency is `efficient_mhz`. The GTPERF and BALANCER tasks are
enabled and the DCC task disabled (the set override of the pair is 1, the
other is clear); max-fps, framerate stalling, adaptive burst turbo and eval
mode are overridden with 0; IA/GT balancing and balancer in non-gaming mode
with 1; the two minimum frequencies with the efficient frequency; every other
parameter is not overridden and has value 0. -/
def spec_default_override (efficient_mhz id : Nat) : Nat × Nat :=
  if id = SLPC_PARAM_TASK_ENABLE_GTPERF ∨ id = SLPC_PARAM_TASK_ENABLE_BALANCER ∨
      id = SLPC_PARAM_TASK_DISABLE_DCC then (1, 1)
  else if id = SLPC_PARAM_GTPERF_THRESHOLD_MAX_FPS ∨
      id = SLPC_PARAM_GTPERF_ENABLE_FRAMERATE_STALLING ∨
      id = SLPC_PARAM_GLOBAL_ENABLE_ADAPTIVE_BURST_TURBO ∨
      id = SLPC_PARAM_GLOBAL_ENABLE_EVAL_MODE then (1, 0)
  else if id = SLPC_PARAM_GLOBAL_ENABLE_IA_GT_BALANCING ∨
      id = SLPC_PARAM_GLOBAL_ENABLE_BALANCER_IN_NON_GAMING_MODE then (1, 1)
  else if id = SLPC_PARAM_GLOBAL_MIN_GT_UNSLICE_FREQ_MHZ ∨
      id = SLPC_PARAM_GLOBAL_MIN_GT_SLICE_FREQ_MHZ then (1, efficient_mhz)
  else (0, 0)

/-- The classification of a task pair in the spec's words: Disabled if the
disable override is set and its value is 1; otherwise Enabled if the enable
override is set and its value is 1; otherwise Default if neither override is
set; otherwise Unknown. -/
def spec_task_status (data : slpc_shared_data) (enable_id disable_id : Nat) : Nat :=
  if spec_override_set data disable_id = true ∧ spec_override_value data disable_id = 1 then
    SLPC_PARAM_TASK_DISABLED
  else if spec_override_set data enable_id = true ∧ spec_override_value data enable_id = 1 then
    SLPC_PARAM_TASK_ENABLED
  else if spec_override_set data enable_id = false ∧ spec_override_set data disable_id = false then
    SLPC_PARAM_TASK_DEFAULT
  else SLPC_PARAM_TASK_UNKNOWN

/-- The store with the two parts the firmware writes (`global_state`,
`task_state_data`) blanked: what remains is written by the host alone. -/
def slpc_shared_data.host_part (data : slpc_shared_data) : slpc_shared_data :=
  { data with global_state := 0
              task_state_data := { max_unslice_freq := 0, min_unslice_freq := 0 } }

/-- The host-written part of the device's shared store, when it has one. -/
def page_view (dev : drm_i915_private) : Option slpc_shared_data :=
  dev.slpc.vma.map fun v => v.page.host_part

/-- A firmware that acknowledges every request and leaves the shared data as it
finds it. -/
def idle_firmware (_ : List (List Nat)) (data : Option slpc_shared_data) : guc_reply :=
  match data with
  | none => { ret := 0, output := [0], global_state := 0,
              task_state_data := { max_unslice_freq := 0, min_unslice_freq := 0 } }
  | some p => { ret := 0, output := [0], global_state := p.global_state,
                task_state_data := p.task_state_data }

/-- A sample platform: the idle firmware, frequencies converted as on gen9
(`DIV_ROUND_CLOSEST(val * 50, 3)`), a desktop SKU. -/
def sample_platform : slpc_platform :=
  { firmware := idle_firmware
    intel_gpu_freq := fun val => (val * 50 + 1) / 3
    GEN9_FREQ_SCALER := 3
    sizeof_slpc_shared_data := 128
    IS_SKL_ULX := false
    IS_KBL_ULX := false
    IS_SKL_ULT := false
    IS_KBL_ULT := false
    IS_SKYLAKE := true
    SLPC_PLATFORM_SKU_ULX := 1
    SLPC_PLATFORM_SKU_ULT := 2
    SLPC_PLATFORM_SKU_DT := 5
    slice_mask := 1
    power_plan_source := 66
    MSR_TURBO_RATIO_LIMIT := 0x22
    MSR_PLATFORM_INFO := 0x0804043DF1011A00 }

/-- A sample device before the shared data is initialised: a buffer with
arbitrary content, SLPC inactive. -/
def sample_raw_dev : drm_i915_private :=
  { slpc :=
      { active := false
        vma := some { ggtt_offset := 0x2000, page := { slpc_shared_data.zeroed with
                        global_state := 7
                        override_parameters_set_bits := [0xFFFFFFFF]
                        override_parameters_values := List.replicate 20 5 } }
        rp_control := 9
        max_unslice_freq := 33
        min_unslice_freq := 9
        debug_param_id := 0
        debug_param_override := 0
        debug_param_value := 0 }
    rps := { min_freq := 9, max_freq := 33, efficient_freq := 9 }
    GEN6_RP_CONTROL := 5
    runtime_pm_count := 0
    guc_sent := []
    drm_error_log := []
    warn_count := 0 }

/-- The sample device after `slpc_shared_data_init`. -/
def sample_dev : drm_i915_private :=
  (slpc_shared_data_init sample_platform sample_raw_dev).getD sample_raw_dev

/-- The buffer of the sample device: the initialised shared data. -/
def sample_vma : i915_vma :=
  { ggtt_offset := 0x2000
    page := slpc_shared_data_init_page sample_platform sample_raw_dev 5 }

/-- The sample device with SLPC active and the firmware reporting `Running`. -/
def sample_active_dev : drm_i915_private :=
  set_page { sample_dev with slpc := { sample_dev.slpc with active := true } }
    fun p => { p with global_state := SLPC_GLOBAL_STATE_RUNNING }

/-! ## Teardown, command parsing and runs of store operations -/

/-- Source `intel_slpc_cleanup`: read the shared data, warn when the state read
is not NotRunning, release the buffer (`i915_vma_unpin_and_release` leaves the
pointer `NULL`). -/
def intel_slpc_cleanup (ext : slpc_platform) (dev : drm_i915_private) :
    Option drm_i915_private :=
  match intel_slpc_read_shared_data ext dev with
  | none => none
  | some (dev, data) =>
    let dev := WARN_ON (decide (data.global_state ≠ SLPC_GLOBAL_STATE_NOT_RUNNING)) dev
    some { dev with slpc := { dev.slpc with vma := none } }

/-- Linux errno `ERANGE`. -/
def ERANGE : Int := 34

/-- Source `slpc_param_ctl_parse`, from the result of `buffer_tokenize` on: the
number of words it returned and the words. The conversion `kstrtou32` (not in
the sources) is a parameter: an error code, or the number it stores. `op`,
`id` and `value` are the contents of the caller's locals before the call;
the result holds them after the call. -/
def slpc_param_ctl_parse (kstrtou32 : String → Except Int Nat) (n_words : Int)
    (words : List String) (op : Option String) (id value : Nat) : slpc_param_ctl_parsed :=
  if ¬ (n_words = 3) ∧ ¬ (n_words = 2) then
    { ret := -EINVAL, op := op, id := id, value := value }
  else if words.getD 0 "" ≠ "read" ∧ words.getD 0 "" ≠ "write" ∧
      words.getD 0 "" ≠ "revert" then
    { ret := -EINVAL, op := op, id := id, value := value }
  else
    match kstrtou32 (words.getD 1 "") with
    | .error e => { ret := e, op := some (words.getD 0 ""), id := id, value := value }
    | .ok i =>
      if n_words = 3 then
        match kstrtou32 (words.getD 2 "") with
        | .error e => { ret := e, op := some (words.getD 0 ""), id := i, value := value }
        | .ok v => { ret := 0, op := some (words.getD 0 ""), id := i, value := v }
      else { ret := 0, op := some (words.getD 0 ""), id := i, value := value }

/-- The two steps of `slpc_param_ctl_write` together: parse the tokenised
command into the locals (`op` starts as `NULL`, `id` and `value` start with
whatever the stack holds), then act on them. -/
def slpc_param_ctl_write_words (ext : slpc_platform) (dev : drm_i915_private) (len : Nat)
    (kstrtou32 : String → Except Int Nat) (n_words : Int) (words : List String)
    (stack_id stack_value offp : Nat) : Option (drm_i915_private × Nat × Int) :=
  slpc_param_ctl_write ext dev len
    (slpc_param_ctl_parse kstrtou32 n_words words none stack_id stack_value) offp

/-- The value of a string of decimal digits, most significant first. -/
def decimal_value : List Char → Nat → Option Nat
  | [], acc => some acc
  | c :: cs, acc =>
    if 48 ≤ c.toNat ∧ c.toNat ≤ 57 then decimal_value cs (acc * 10 + (c.toNat - 48)) else none

/-- A conversion for the examples: `kstrtou32` on decimal digit strings;
`-EINVAL` for anything else, `-ERANGE` above 32 bits. -/
def decimal_kstrtou32 (s : String) : Except Int Nat :=
  match s.data with
  | [] => .error (-EINVAL)
  | cs =>
    match decimal_value cs 0 with
    | none => .error (-EINVAL)
    | some n => if n < 2 ^ 32 then .ok n else .error (-ERANGE)

/-- One call on the store: `slpc_mem_set_param`, `slpc_mem_unset_param` or
`slpc_mem_task_control`. -/
inductive slpc_mem_op where
  | set_param (id value : Nat)
  | unset_param (id : Nat)
  | task_control (val enable_id disable_id : Nat)
deriving DecidableEq

/-- The store after one call. -/
def slpc_mem_op.apply (data : slpc_shared_data) : slpc_mem_op → slpc_shared_data
  | .set_param id value => slpc_mem_set_param data id value
  | .unset_param id => slpc_mem_unset_param data id
  | .task_control val enable_id disable_id =>
    (slpc_mem_task_control data val enable_id disable_id).1

/-- The ids of the call are below `SLPC_MAX_PARAM`. -/
def slpc_mem_op.in_range : slpc_mem_op → Bool
  | .set_param id _ => decide (id < SLPC_MAX_PARAM)
  | .unset_param id => decide (id < SLPC_MAX_PARAM)
  | .task_control _ enable_id disable_id =>
    decide (enable_id < SLPC_MAX_PARAM) && decide (disable_id < SLPC_MAX_PARAM)

/-- The store after a finite sequence of calls, first call first. -/
def slpc_mem_run (data : slpc_shared_data) (ops : List slpc_mem_op) : slpc_shared_data :=
  ops.foldl slpc_mem_op.apply data

/-- No stale value: every id below `SLPC_MAX_PARAM` whose override bit is clear
has override value 0. -/
def no_stale_value (data : slpc_shared_data) : Prop :=
  ∀ id, id < SLPC_MAX_PARAM → spec_override_set data id = false →
    spec_override_value data id = 0

/-- The new content of `drm_error_log` after `host2guc_slpc`. -/
def host2guc_slpc_errors (ext : slpc_platform) (dev : drm_i915_private)
    (input : slpc_event_input) (len : Nat) : List (Nat × Int) :=
  (host2guc_slpc ext dev input len).drm_error_log

/-- The request a parameter-set event puts on the transport. -/
def parameter_set_request (id value : Nat) : List Nat :=
  [INTEL_GUC_ACTION_SLPC_REQUEST, SLPC_EVENT SLPC_EVENT_PARAMETER_SET 2, id, value]

/-- The request a parameter-unset event puts on the transport. -/
def parameter_unset_request (id : Nat) : List Nat :=
  [INTEL_GUC_ACTION_SLPC_REQUEST, SLPC_EVENT SLPC_EVENT_PARAMETER_UNSET 1, id]

/-- The request of an event that carries the shared-data offset. -/
def offset_request (event offset : Nat) : List Nat :=
  [INTEL_GUC_ACTION_SLPC_REQUEST, SLPC_EVENT event 2, offset, 0]

/-- A firmware that always reports `Running` with a maximum unslice frequency
of 900 and a minimum of 300. -/
def running_firmware (_ : List (List Nat)) (_ : Option slpc_shared_data) : guc_reply :=
  { ret := 0, output := [0], global_state := SLPC_GLOBAL_STATE_RUNNING,
    task_state_data := { max_unslice_freq := 900, min_unslice_freq := 300 } }

/-- The sample platform with the always-running firmware. -/
def sample_running_platform : slpc_platform :=
  { sample_platform with firmware := running_firmware }

/-- A firmware behind a failing transport: every request comes back with the
error -5 and status byte 7, the shared data untouched. -/
def failing_firmware (_ : List (List Nat)) (data : Option slpc_shared_data) : guc_reply :=
  { idle_firmware [] data with ret := -5, output := [0x700] }

/-- The sample platform with the failing transport. -/
def sample_failing_platform : slpc_platform :=
  { sample_platform with firmware := failing_firmware }

/-! ## Runs of task control calls -/

/-- The three task pairs, each as (enable id, disable id): GTPERF, BALANCER and
DCC. -/
def task_pairs : List (Nat × Nat) :=
  [(SLPC_PARAM_TASK_ENABLE_GTPERF, SLPC_PARAM_TASK_DISABLE_GTPERF),
   (SLPC_PARAM_TASK_ENABLE_BALANCER, SLPC_PARAM_TASK_DISABLE_BALANCER),
   (SLPC_PARAM_TASK_ENABLE_DCC, SLPC_PARAM_TASK_DISABLE_DCC)]

/-- A task pair is in a consistent state on the store: at most one of the two
overrides is set, and a set override has value 1. -/
def pair_consistent (data : slpc_shared_data) (enable_id disable_id : Nat) : Prop :=
  ¬ (spec_override_set data enable_id = true ∧ spec_override_set data disable_id = true) ∧
  (spec_override_set data enable_id = true → spec_override_value data enable_id = 1) ∧
  (spec_override_set data disable_id = true → spec_override_value data disable_id = 1)

instance (data : slpc_shared_data) (enable_id disable_id : Nat) :
    Decidable (pair_consistent data enable_id disable_id) :=
  inferInstanceAs (Decidable (_ ∧ _))

/-- A finite sequence of `intel_slpc_task_control` calls, first call first, each
given as (tri-state value, enable id, disable id); the return values are
dropped. -/
def task_control_run (ext : slpc_platform) (dev : drm_i915_private) :
    List (Nat × Nat × Nat) → Option drm_i915_private
  | [] => some dev
  | (val, enable_id, disable_id) :: calls =>
    match intel_slpc_task_control ext dev val enable_id disable_id with
    | none => none
    | some (dev1, _) => task_control_run ext dev1 calls

/-- The sample device before initialisation, with SLPC already active. -/
def sample_raw_active_dev : drm_i915_private :=
  { sample_raw_dev with slpc := { sample_raw_dev.slpc with active := true } }

/-- The active sample device after `slpc_shared_data_init`. -/
def sample_init_active_dev : drm_i915_private :=
  (slpc_shared_data_init sample_platform sample_raw_active_dev).getD sample_raw_dev

/-- A sample run of task control calls: an invalid value on the GTPERF pair,
then GTPERF disabled, then DCC enabled. -/
def sample_calls : List (Nat × Nat × Nat) :=
  [(3, SLPC_PARAM_TASK_ENABLE_GTPERF, SLPC_PARAM_TASK_DISABLE_GTPERF),
   (SLPC_PARAM_TASK_DISABLED, SLPC_PARAM_TASK_ENABLE_GTPERF, SLPC_PARAM_TASK_DISABLE_GTPERF),
   (SLPC_PARAM_TASK_ENABLED, SLPC_PARAM_TASK_ENABLE_DCC, SLPC_PARAM_TASK_DISABLE_DCC)]

/-- The active sample device after the sample run. -/
def sample_after_run_dev : drm_i915_private :=
  (task_control_run sample_platform sample_init_active_dev sample_calls).getD sample_raw_dev

/-! # Theorems -/

/-! ## Words and lists -/

theorem and_one_shiftLeft_ne_zero (w k : Nat) :
    (w &&& (1 <<< k) ≠ 0) ↔ w.testBit k = true := by
  rw [Nat.one_shiftLeft]
  constructor
  · intro h
    obtain ⟨i, hi⟩ := Nat.ne_zero_implies_bit_true h
    rw [Nat.testBit_and, Nat.testBit_two_pow] at hi
    simp only [Bool.and_eq_true, decide_eq_true_eq] at hi
    obtain ⟨h1, h2⟩ := hi
    subst h2
    exact h1
  · intro h hz
    have h2 : (w &&& 2 ^ k).testBit k = true := by
      rw [Nat.testBit_and, Nat.testBit_two_pow_self, h]; rfl
    rw [hz] at h2
    simp at h2

theorem testBit_u32_not_one_shiftLeft (k j : Nat) (hj : j < 32) :
    (u32_not (1 <<< k)).testBit j = decide (k ≠ j) := by
  unfold u32_not
  rw [Nat.one_shiftLeft, Nat.testBit_xor, Nat.testBit_mod_two_pow, Nat.testBit_two_pow]
  have h32 : (0xFFFFFFFF : Nat) = 2 ^ 32 - 1 := by norm_num
  rw [h32, Nat.testBit_two_pow_sub_one]
  by_cases h : k = j <;> simp [h, hj]

theorem testBit_one_shiftLeft (k j : Nat) : (1 <<< k).testBit j = decide (k = j) := by
  rw [Nat.one_shiftLeft, Nat.testBit_two_pow]

theorem shiftRight_five (id : Nat) : id >>> 5 = id / 32 := by
  rw [Nat.shiftRight_eq_div_pow]

theorem getD_set {α : Type} (l : List α) (i j : Nat) (a d : α) :
    (l.set i a).getD j d = if i = j ∧ i < l.length then a else l.getD j d := by
  by_cases h : i = j
  · subst h
    by_cases hl : i < l.length
    · simp [List.getD_eq_getElem?_getD, List.getElem?_set, hl]
    · have hl2 : l.length ≤ i := Nat.le_of_not_lt hl
      simp [List.getD_eq_getElem?_getD, List.getElem?_set, hl, List.getElem?_eq_none hl2]
  · simp [List.getD_eq_getElem?_getD, List.getElem?_set, h]

/-! ## The store operations, bit by bit -/

theorem mem_get_param_eq (data : slpc_shared_data) (id : Nat) :
    slpc_mem_get_param data id =
      (if spec_override_set data id then 1 else 0, spec_override_value data id) := by
  unfold slpc_mem_get_param spec_override_set spec_override_value
  simp only [shiftRight_five]
  by_cases h : (data.override_parameters_set_bits.getD (id / 32) 0).testBit (id % 32) = true
  · rw [if_pos h, if_pos ((and_one_shiftLeft_ne_zero _ _).mpr h)]
  · rw [if_neg h, if_neg (mt (and_one_shiftLeft_ne_zero _ _).mp h)]

theorem override_set_set_param (data : slpc_shared_data) (i j v : Nat) :
    spec_override_set (slpc_mem_set_param data i v) j =
      if i = j ∧ i / 32 < data.override_parameters_set_bits.length then true
      else spec_override_set data j := by
  unfold spec_override_set slpc_mem_set_param
  simp only [shiftRight_five, getD_set]
  by_cases hw : i / 32 = j / 32 ∧ i / 32 < data.override_parameters_set_bits.length
  · rw [if_pos hw, Nat.testBit_or, testBit_one_shiftLeft]
    by_cases hij : i = j
    · subst hij; simp [hw.2]
    · have : i % 32 ≠ j % 32 := by omega
      simp [hij, this, hw.1]
  · rw [if_neg hw]
    have : ¬ (i = j ∧ i / 32 < data.override_parameters_set_bits.length) := by
      rintro ⟨rfl, h⟩; exact hw ⟨rfl, h⟩
    rw [if_neg this]

theorem override_set_unset_param (data : slpc_shared_data) (i j : Nat) :
    spec_override_set (slpc_mem_unset_param data i) j =
      if i = j ∧ i / 32 < data.override_parameters_set_bits.length then false
      else spec_override_set data j := by
  unfold spec_override_set slpc_mem_unset_param
  simp only [shiftRight_five, getD_set]
  have hj : j % 32 < 32 := Nat.mod_lt _ (by norm_num)
  by_cases hw : i / 32 = j / 32 ∧ i / 32 < data.override_parameters_set_bits.length
  · rw [if_pos hw, Nat.testBit_and, testBit_u32_not_one_shiftLeft _ _ hj]
    by_cases hij : i = j
    · subst hij; simp [hw.2]
    · have : i % 32 ≠ j % 32 := by omega
      simp [hij, this, hw.1]
  · rw [if_neg hw]
    have : ¬ (i = j ∧ i / 32 < data.override_parameters_set_bits.length) := by
      rintro ⟨rfl, h⟩; exact hw ⟨rfl, h⟩
    rw [if_neg this]

theorem override_value_set_param (data : slpc_shared_data) (i j v : Nat) :
    spec_override_value (slpc_mem_set_param data i v) j =
      if i = j ∧ i < data.override_parameters_values.length then v
      else spec_override_value data j := by
  unfold spec_override_value slpc_mem_set_param
  simp only [getD_set]

theorem override_value_unset_param (data : slpc_shared_data) (i j : Nat) :
    spec_override_value (slpc_mem_unset_param data i) j =
      if i = j ∧ i < data.override_parameters_values.length then 0
      else spec_override_value data j := by
  unfold spec_override_value slpc_mem_unset_param
  simp only [getD_set]

theorem provisioned_bound (data : slpc_shared_data) (h : data.provisioned) (id : Nat)
    (hid : id < SLPC_MAX_PARAM) :
    id / 32 < data.override_parameters_set_bits.length ∧
      id < data.override_parameters_values.length := by
  obtain ⟨h1, h2⟩ := h
  constructor <;> omega


/-! ## The device operations seen from the store -/

theorem get_param_host_part (data : slpc_shared_data) (id : Nat) :
    slpc_mem_get_param data.host_part id = slpc_mem_get_param data id := rfl

theorem set_param_host_part (data : slpc_shared_data) (id v : Nat) :
    (slpc_mem_set_param data id v).host_part = slpc_mem_set_param data.host_part id v := rfl

theorem unset_param_host_part (data : slpc_shared_data) (id : Nat) :
    (slpc_mem_unset_param data id).host_part = slpc_mem_unset_param data.host_part id := rfl

theorem provisioned_host_part (data : slpc_shared_data) (h : data.provisioned) :
    data.host_part.provisioned := h

theorem WARN_ON_slpc (c : Bool) (dev : drm_i915_private) : (WARN_ON c dev).slpc = dev.slpc := by
  unfold WARN_ON; split <;> rfl

theorem WARN_ON_guc_sent (c : Bool) (dev : drm_i915_private) :
    (WARN_ON c dev).guc_sent = dev.guc_sent := by
  unfold WARN_ON; split <;> rfl

theorem WARN_ON_runtime_pm_count (c : Bool) (dev : drm_i915_private) :
    (WARN_ON c dev).runtime_pm_count = dev.runtime_pm_count := by
  unfold WARN_ON; split <;> rfl

theorem WARN_ON_warn_count (c : Bool) (dev : drm_i915_private) :
    (WARN_ON c dev).warn_count = dev.warn_count + if c then 1 else 0 := by
  unfold WARN_ON; split <;> simp_all

theorem page_view_WARN_ON (c : Bool) (dev : drm_i915_private) :
    page_view (WARN_ON c dev) = page_view dev := by
  unfold page_view; rw [WARN_ON_slpc]

theorem host2guc_slpc_slpc (ext : slpc_platform) (dev : drm_i915_private)
    (input : slpc_event_input) (len : Nat) :
    (host2guc_slpc ext dev input len).slpc =
      (intel_guc_send_mmio ext dev
        { input with h2g_action_id := INTEL_GUC_ACTION_SLPC_REQUEST }.words len).1.slpc := by
  unfold host2guc_slpc
  dsimp only
  split <;> rfl

theorem host2guc_slpc_guc_sent (ext : slpc_platform) (dev : drm_i915_private)
    (input : slpc_event_input) (len : Nat) :
    (host2guc_slpc ext dev input len).guc_sent =
      dev.guc_sent ++ [(INTEL_GUC_ACTION_SLPC_REQUEST :: input.header :: input.args).take len] := by
  unfold host2guc_slpc
  dsimp only
  split <;> rfl

theorem host2guc_slpc_warn_count (ext : slpc_platform) (dev : drm_i915_private)
    (input : slpc_event_input) (len : Nat) :
    (host2guc_slpc ext dev input len).warn_count = dev.warn_count := by
  unfold host2guc_slpc
  dsimp only
  split <;> rfl

theorem page_view_host2guc_slpc (ext : slpc_platform) (dev : drm_i915_private)
    (input : slpc_event_input) (len : Nat) :
    page_view (host2guc_slpc ext dev input len) = page_view dev := by
  unfold page_view
  rw [host2guc_slpc_slpc]
  simp only [intel_guc_send_mmio, set_page, Option.map_map]
  rfl

theorem active_host2guc_slpc (ext : slpc_platform) (dev : drm_i915_private)
    (input : slpc_event_input) (len : Nat) :
    (host2guc_slpc ext dev input len).slpc.active = dev.slpc.active := by
  rw [host2guc_slpc_slpc]; rfl

theorem vma_eq_none_iff (dev : drm_i915_private) :
    dev.slpc.vma = none ↔ page_view dev = none := by
  unfold page_view; simp

theorem page_view_set_param (ext : slpc_platform) (dev : drm_i915_private) (id v : Nat) :
    page_view (intel_slpc_set_param ext dev id v) =
      (page_view dev).map fun p => slpc_mem_set_param p id v := by
  unfold intel_slpc_set_param
  dsimp only
  cases h : (WARN_ON (decide (id ≥ SLPC_MAX_PARAM)) dev).slpc.vma with
  | none =>
    rw [WARN_ON_slpc] at h
    simp [page_view, h, WARN_ON_slpc]
  | some vma =>
    rw [WARN_ON_slpc] at h
    simp only [host2guc_slpc_set_param, page_view_host2guc_slpc]
    simp [page_view, set_page, h, WARN_ON_slpc, set_param_host_part]

theorem page_view_unset_param (ext : slpc_platform) (dev : drm_i915_private) (id : Nat) :
    page_view (intel_slpc_unset_param ext dev id) =
      (page_view dev).map fun p => slpc_mem_unset_param p id := by
  unfold intel_slpc_unset_param
  dsimp only
  cases h : (WARN_ON (decide (id ≥ SLPC_MAX_PARAM)) dev).slpc.vma with
  | none =>
    rw [WARN_ON_slpc] at h
    simp [page_view, h, WARN_ON_slpc]
  | some vma =>
    rw [WARN_ON_slpc] at h
    simp only [host2guc_slpc_unset_param, page_view_host2guc_slpc]
    simp [page_view, set_page, h, WARN_ON_slpc, unset_param_host_part]

theorem get_param_result (dev : drm_i915_private) (id : Nat) :
    (intel_slpc_get_param dev id).2 = (page_view dev).map fun p => slpc_mem_get_param p id := by
  unfold intel_slpc_get_param
  dsimp only
  cases h : (WARN_ON (decide (id ≥ SLPC_MAX_PARAM)) dev).slpc.vma with
  | none =>
    rw [WARN_ON_slpc] at h
    simp [page_view, h]
  | some vma =>
    rw [WARN_ON_slpc] at h
    simp [page_view, h, get_param_host_part]

theorem get_param_dev (dev : drm_i915_private) (id : Nat) :
    (intel_slpc_get_param dev id).1 = WARN_ON (decide (id ≥ SLPC_MAX_PARAM)) dev := by
  unfold intel_slpc_get_param
  dsimp only
  split <;> rfl

theorem enable_some (ext : slpc_platform) (dev : drm_i915_private) (p : slpc_shared_data)
    (hp : page_view dev = some p) :
    ∃ dev1, intel_slpc_enable ext dev = some dev1 ∧ dev1.slpc.active = true ∧
      page_view dev1 = some p := by
  obtain ⟨vma, hv⟩ : ∃ vma, dev.slpc.vma = some vma := by
    cases h : dev.slpc.vma with
    | none => rw [(vma_eq_none_iff dev).mp h] at hp; cases hp
    | some vma => exact ⟨vma, rfl⟩
  unfold intel_slpc_enable
  simp only [intel_slpc_restore_default_rps, hv, host2guc_slpc_reset, host2guc_slpc_offset_event,
    set_page, Option.map_some']
  refine ⟨_, rfl, rfl, ?_⟩
  rw [← hp]
  unfold page_view
  dsimp only
  rw [host2guc_slpc_slpc]
  simp [intel_guc_send_mmio, set_page, hv, slpc_shared_data.host_part]

theorem page_view_pm_get (dev : drm_i915_private) :
    page_view (intel_runtime_pm_get dev) = page_view dev := rfl

theorem page_view_pm_put (dev : drm_i915_private) :
    page_view (intel_runtime_pm_put dev) = page_view dev := rfl

/-- The device-level tri-state write refines the store-level one: same return
value, same host-written store, and SLPC is active afterwards. -/
theorem task_control_refines (ext : slpc_platform) (dev : drm_i915_private)
    (p : slpc_shared_data) (hact : dev.slpc.active = true) (hp : page_view dev = some p)
    (val enable_id disable_id : Nat) :
    ∃ dev1, intel_slpc_task_control ext dev val enable_id disable_id =
        some (dev1, (slpc_mem_task_control p val enable_id disable_id).2) ∧
      dev1.slpc.active = true ∧
      page_view dev1 = some (slpc_mem_task_control p val enable_id disable_id).1 := by
  unfold intel_slpc_task_control slpc_mem_task_control
  simp only [hact, Bool.not_true, Bool.false_eq_true, if_false]
  by_cases h0 : val = SLPC_PARAM_TASK_DEFAULT
  · simp only [h0, if_true]
    obtain ⟨dev1, h1, h2, h3⟩ := enable_some ext
      (intel_slpc_unset_param ext (intel_slpc_unset_param ext (intel_runtime_pm_get dev)
        enable_id) disable_id)
      (slpc_mem_unset_param (slpc_mem_unset_param p enable_id) disable_id)
      (by simp [page_view_unset_param, page_view_pm_get, hp])
    exact ⟨intel_runtime_pm_put dev1, by rw [h1], h2, h3⟩
  · by_cases h1 : val = SLPC_PARAM_TASK_ENABLED
    · simp only [h0, h1, if_true, if_false]
      have hne : ¬ SLPC_PARAM_TASK_ENABLED = SLPC_PARAM_TASK_DEFAULT := by decide
      simp only [hne, if_false]
      obtain ⟨dev1, h1, h2, h3⟩ := enable_some ext
        (intel_slpc_unset_param ext (intel_slpc_set_param ext (intel_runtime_pm_get dev)
          enable_id 1) disable_id)
        (slpc_mem_unset_param (slpc_mem_set_param p enable_id 1) disable_id)
        (by simp [page_view_unset_param, page_view_set_param, page_view_pm_get, hp])
      exact ⟨intel_runtime_pm_put dev1, by rw [h1], h2, h3⟩
    · by_cases h2 : val = SLPC_PARAM_TASK_DISABLED
      · have hne0 : ¬ SLPC_PARAM_TASK_DISABLED = SLPC_PARAM_TASK_DEFAULT := by decide
        have hne1 : ¬ SLPC_PARAM_TASK_DISABLED = SLPC_PARAM_TASK_ENABLED := by decide
        simp only [h2, hne0, hne1, if_true, if_false]
        obtain ⟨dev1, h1, h2, h3⟩ := enable_some ext
          (intel_slpc_unset_param ext (intel_slpc_set_param ext (intel_runtime_pm_get dev)
            disable_id 1) enable_id)
          (slpc_mem_unset_param (slpc_mem_set_param p disable_id 1) enable_id)
          (by simp [page_view_unset_param, page_view_set_param, page_view_pm_get, hp])
        exact ⟨intel_runtime_pm_put dev1, by rw [h1], h2, h3⟩
      · simp only [h0, h1, h2, if_false]
        obtain ⟨dev1, h1, h2, h3⟩ := enable_some ext (intel_runtime_pm_get dev) p
          (by simp [page_view_pm_get, hp])
        exact ⟨intel_runtime_pm_put dev1, by rw [h1], h2, h3⟩

/-- On an active device with a store, the status query returns 0 and the
classification of what `slpc_mem_get_param` reads for the two ids. -/
theorem task_status_active (dev : drm_i915_private) (p : slpc_shared_data)
    (hact : dev.slpc.active = true) (hp : page_view dev = some p)
    (out enable_id disable_id : Nat) :
    ∃ dev1, intel_slpc_task_status dev (some out) enable_id disable_id =
      some (dev1,
        some (task_status_value (slpc_mem_get_param p enable_id).1
          (slpc_mem_get_param p enable_id).2 (slpc_mem_get_param p disable_id).1
          (slpc_mem_get_param p disable_id).2), 0) := by
  unfold intel_slpc_task_status
  simp only [hact, Bool.not_true, Bool.false_eq_true, if_false]
  have he := get_param_result dev enable_id
  have hd := get_param_result (intel_slpc_get_param dev enable_id).1 disable_id
  have hpe : page_view (intel_slpc_get_param dev enable_id).1 = some p := by
    rw [get_param_dev, page_view_WARN_ON, hp]
  rw [hpe] at hd
  rw [hp] at he
  simp only [Option.map_some'] at he hd
  rw [he, hd]
  exact ⟨_, rfl⟩


/-! ## Store-level consequences -/

theorem mem_get_set_self (data : slpc_shared_data) (hp : data.provisioned) (id v : Nat)
    (hid : id < SLPC_MAX_PARAM) :
    slpc_mem_get_param (slpc_mem_set_param data id v) id = (1, v) := by
  obtain ⟨h1, h2⟩ := provisioned_bound data hp id hid
  rw [mem_get_param_eq, override_set_set_param, override_value_set_param]
  simp [h1, h2]

theorem mem_get_unset_self (data : slpc_shared_data) (hp : data.provisioned) (id : Nat)
    (hid : id < SLPC_MAX_PARAM) :
    slpc_mem_get_param (slpc_mem_unset_param data id) id = (0, 0) := by
  obtain ⟨h1, h2⟩ := provisioned_bound data hp id hid
  rw [mem_get_param_eq, override_set_unset_param, override_value_unset_param]
  simp [h1, h2]

theorem mem_unset_idempotent (data : slpc_shared_data) (id : Nat) :
    slpc_mem_unset_param (slpc_mem_unset_param data id) id = slpc_mem_unset_param data id := by
  unfold slpc_mem_unset_param
  simp only [getD_set, List.set_set, List.length_set]
  congr 1
  by_cases h : id >>> 5 < data.override_parameters_set_bits.length
  · simp only [h, and_self, if_true, Nat.and_assoc, Nat.and_self]
  · simp only [h, and_false, if_false]

theorem length_bits_set_param (data : slpc_shared_data) (i v : Nat) :
    (slpc_mem_set_param data i v).override_parameters_set_bits.length =
      data.override_parameters_set_bits.length := by
  simp [slpc_mem_set_param]

theorem length_bits_unset_param (data : slpc_shared_data) (i : Nat) :
    (slpc_mem_unset_param data i).override_parameters_set_bits.length =
      data.override_parameters_set_bits.length := by
  simp [slpc_mem_unset_param]

theorem length_values_set_param (data : slpc_shared_data) (i v : Nat) :
    (slpc_mem_set_param data i v).override_parameters_values.length =
      data.override_parameters_values.length := by
  simp [slpc_mem_set_param]

theorem length_values_unset_param (data : slpc_shared_data) (i : Nat) :
    (slpc_mem_unset_param data i).override_parameters_values.length =
      data.override_parameters_values.length := by
  simp [slpc_mem_unset_param]

theorem mem_task_control_status (data : slpc_shared_data) (hp : data.provisioned)
    (enable_id disable_id t : Nat) (he : enable_id < SLPC_MAX_PARAM)
    (hd : disable_id < SLPC_MAX_PARAM) (hne : enable_id ≠ disable_id)
    (ht : t = SLPC_PARAM_TASK_DEFAULT ∨ t = SLPC_PARAM_TASK_ENABLED ∨
      t = SLPC_PARAM_TASK_DISABLED) :
    (slpc_mem_task_control data t enable_id disable_id).2 = 0 ∧
    task_status_value
      (slpc_mem_get_param (slpc_mem_task_control data t enable_id disable_id).1 enable_id).1
      (slpc_mem_get_param (slpc_mem_task_control data t enable_id disable_id).1 enable_id).2
      (slpc_mem_get_param (slpc_mem_task_control data t enable_id disable_id).1 disable_id).1
      (slpc_mem_get_param (slpc_mem_task_control data t enable_id disable_id).1 disable_id).2
      = t := by
  obtain ⟨he1, he2⟩ := provisioned_bound data hp enable_id he
  obtain ⟨hd1, hd2⟩ := provisioned_bound data hp disable_id hd
  have hne2 : disable_id ≠ enable_id := fun h => hne h.symm
  rcases ht with rfl | rfl | rfl
  · simp [slpc_mem_task_control, mem_get_param_eq, override_set_unset_param,
      override_value_unset_param, override_set_set_param, override_value_set_param,
      task_status_value, he1, he2, hd1, hd2, hne, hne2, length_bits_set_param,
      length_bits_unset_param, length_values_set_param, length_values_unset_param,
      SLPC_PARAM_TASK_DEFAULT, SLPC_PARAM_TASK_ENABLED,
      SLPC_PARAM_TASK_DISABLED]
  · simp [slpc_mem_task_control, mem_get_param_eq, override_set_unset_param,
      override_value_unset_param, override_set_set_param, override_value_set_param,
      task_status_value, he1, he2, hd1, hd2, hne, hne2, length_bits_set_param,
      length_bits_unset_param, length_values_set_param, length_values_unset_param,
      SLPC_PARAM_TASK_DEFAULT, SLPC_PARAM_TASK_ENABLED,
      SLPC_PARAM_TASK_DISABLED]
  · simp [slpc_mem_task_control, mem_get_param_eq, override_set_unset_param,
      override_value_unset_param, override_set_set_param, override_value_set_param,
      task_status_value, he1, he2, hd1, hd2, hne, hne2, length_bits_set_param,
      length_bits_unset_param, length_values_set_param, length_values_unset_param,
      SLPC_PARAM_TASK_DEFAULT, SLPC_PARAM_TASK_ENABLED,
      SLPC_PARAM_TASK_DISABLED]

theorem page_view_of_vma (dev : drm_i915_private) (vma : i915_vma)
    (hv : dev.slpc.vma = some vma) : page_view dev = some vma.page.host_part := by
  unfold page_view; rw [hv]; rfl

/-! ## Claims -/

/-- Claim C1: on a device whose shared store is provisioned, whatever the store
holds, for every parameter id below `SLPC_MAX_PARAM` and every value `v`,
`intel_slpc_set_param(id, v)` followed by `intel_slpc_get_param(id)` yields
overriding = 1 (true) and value = `v`. -/
theorem C1_get_after_set (ext : slpc_platform) (dev : drm_i915_private) (vma : i915_vma)
    (id v : Nat) (hv : dev.slpc.vma = some vma) (hp : vma.page.provisioned)
    (hid : id < SLPC_MAX_PARAM) :
    (intel_slpc_get_param (intel_slpc_set_param ext dev id v) id).2 = some (1, v) := by
  rw [get_param_result, page_view_set_param, page_view_of_vma dev vma hv]
  simp only [Option.map_some']
  rw [mem_get_set_self _ (provisioned_host_part _ hp) id v hid]

theorem C1_get_after_set_witness :
    sample_dev.slpc.vma = some sample_vma ∧ sample_vma.page.provisioned ∧
    7 < SLPC_MAX_PARAM ∧
    (intel_slpc_get_param (intel_slpc_set_param sample_platform sample_dev 7 900) 7).2 =
      some (1, 900) :=
  ⟨rfl, by decide, by decide,
   C1_get_after_set sample_platform sample_dev sample_vma 7 900 rfl (by decide) (by decide)⟩

/-- Claim C2: on a device whose shared store is provisioned, in any prior state,
for every id below `SLPC_MAX_PARAM`, `intel_slpc_unset_param(id)` followed by
`intel_slpc_get_param(id)` yields overriding = 0 (false) and value = 0; and
unsetting twice leaves the store as unsetting once does: the store operation
`slpc_mem_unset_param` is idempotent and the host-written store of the device is
the same after two calls of `intel_slpc_unset_param` as after one. -/
theorem C2_get_after_unset (ext : slpc_platform) (dev : drm_i915_private) (vma : i915_vma)
    (id : Nat) (hv : dev.slpc.vma = some vma) (hp : vma.page.provisioned)
    (hid : id < SLPC_MAX_PARAM) :
    (intel_slpc_get_param (intel_slpc_unset_param ext dev id) id).2 = some (0, 0) ∧
    slpc_mem_unset_param (slpc_mem_unset_param vma.page id) id =
      slpc_mem_unset_param vma.page id ∧
    page_view (intel_slpc_unset_param ext (intel_slpc_unset_param ext dev id) id) =
      page_view (intel_slpc_unset_param ext dev id) := by
  refine ⟨?_, mem_unset_idempotent _ _, ?_⟩
  · rw [get_param_result, page_view_unset_param, page_view_of_vma dev vma hv]
    simp only [Option.map_some']
    rw [mem_get_unset_self _ (provisioned_host_part _ hp) id hid]
  · rw [page_view_unset_param, page_view_unset_param, page_view_of_vma dev vma hv]
    simp only [Option.map_some', mem_unset_idempotent]

theorem C2_get_after_unset_witness :
    sample_dev.slpc.vma = some sample_vma ∧ sample_vma.page.provisioned ∧
    6 < SLPC_MAX_PARAM ∧
    (intel_slpc_get_param (intel_slpc_unset_param sample_platform sample_dev 6) 6).2 =
      some (0, 0) :=
  ⟨rfl, by decide, by decide,
   (C2_get_after_unset sample_platform sample_dev sample_vma 6 rfl (by decide) (by decide)).1⟩

/-- Claim C3: with SLPC active and the store provisioned, for every task pair
with `enable_id ≠ disable_id`, both below `SLPC_MAX_PARAM`, for every prior
store content and every tri-state `t` among Default, Enabled, Disabled,
`intel_slpc_task_control(t, enable_id, disable_id)` returns 0 and a following
`intel_slpc_task_status(enable_id, disable_id)` returns 0 with the value `t`. -/
theorem C3_status_after_control (ext : slpc_platform) (dev : drm_i915_private) (vma : i915_vma)
    (enable_id disable_id t out : Nat) (hact : dev.slpc.active = true)
    (hv : dev.slpc.vma = some vma) (hp : vma.page.provisioned)
    (he : enable_id < SLPC_MAX_PARAM) (hd : disable_id < SLPC_MAX_PARAM)
    (hne : enable_id ≠ disable_id)
    (ht : t = SLPC_PARAM_TASK_DEFAULT ∨ t = SLPC_PARAM_TASK_ENABLED ∨
      t = SLPC_PARAM_TASK_DISABLED) :
    ∃ dev1 dev2,
      intel_slpc_task_control ext dev t enable_id disable_id = some (dev1, 0) ∧
      intel_slpc_task_status dev1 (some out) enable_id disable_id = some (dev2, some t, 0) := by
  obtain ⟨dev1, h1, hact1, hp1⟩ := task_control_refines ext dev vma.page.host_part hact
    (page_view_of_vma dev vma hv) t enable_id disable_id
  obtain ⟨hr, hs⟩ := mem_task_control_status vma.page.host_part (provisioned_host_part _ hp)
    enable_id disable_id t he hd hne ht
  obtain ⟨dev2, h2⟩ := task_status_active dev1 _ hact1 hp1 out enable_id disable_id
  rw [hr] at h1
  rw [hs] at h2
  exact ⟨dev1, dev2, h1, h2⟩

theorem C3_status_after_control_witness :
    sample_active_dev.slpc.active = true ∧ 4 ≠ 5 ∧
    ∃ dev1 dev2,
      intel_slpc_task_control sample_platform sample_active_dev SLPC_PARAM_TASK_ENABLED 4 5 =
        some (dev1, 0) ∧
      intel_slpc_task_status dev1 (some 77) 4 5 = some (dev2, some SLPC_PARAM_TASK_ENABLED, 0) :=
  ⟨rfl, by decide,
   C3_status_after_control sample_platform sample_active_dev
     { sample_vma with page := { sample_vma.page with global_state := SLPC_GLOBAL_STATE_RUNNING } }
     4 5 SLPC_PARAM_TASK_ENABLED 77 rfl rfl (by decide) (by decide) (by decide) (by decide)
     (Or.inr (Or.inl rfl))⟩


/-! ## The initialised store -/

theorem mem_task_control_default (data : slpc_shared_data) (e d : Nat) :
    slpc_mem_task_control data SLPC_PARAM_TASK_DEFAULT e d =
      (slpc_mem_unset_param (slpc_mem_unset_param data e) d, 0) := by
  simp [slpc_mem_task_control]

theorem mem_task_control_enabled (data : slpc_shared_data) (e d : Nat) :
    slpc_mem_task_control data SLPC_PARAM_TASK_ENABLED e d =
      (slpc_mem_unset_param (slpc_mem_set_param data e 1) d, 0) := by
  simp [slpc_mem_task_control, SLPC_PARAM_TASK_ENABLED, SLPC_PARAM_TASK_DEFAULT]

theorem mem_task_control_disabled (data : slpc_shared_data) (e d : Nat) :
    slpc_mem_task_control data SLPC_PARAM_TASK_DISABLED e d =
      (slpc_mem_unset_param (slpc_mem_set_param data d 1) e, 0) := by
  simp [slpc_mem_task_control, SLPC_PARAM_TASK_ENABLED, SLPC_PARAM_TASK_DEFAULT,
    SLPC_PARAM_TASK_DISABLED]

theorem init_page_bits (ext : slpc_platform) (dev : drm_i915_private) (sku : Nat) :
    (slpc_shared_data_init_page ext dev sku).override_parameters_set_bits = [988517] := by
  simp only [slpc_shared_data_init_page, mem_task_control_enabled, mem_task_control_disabled,
    slpc_mem_set_param, slpc_mem_unset_param]
  rfl

theorem init_page_values (ext : slpc_platform) (dev : drm_i915_private) (sku : Nat) :
    (slpc_shared_data_init_page ext dev sku).override_parameters_values =
      [1, 0, 1, 0, 0, 1, ext.intel_gpu_freq dev.rps.efficient_freq, 0,
       ext.intel_gpu_freq dev.rps.efficient_freq, 0, 0, 0, 0, 0, 0, 0, 1, 0, 0, 1] := by
  simp only [slpc_shared_data_init_page, mem_task_control_enabled, mem_task_control_disabled,
    slpc_mem_set_param, slpc_mem_unset_param]
  rfl

theorem init_page_get (ext : slpc_platform) (dev : drm_i915_private) (sku id : Nat)
    (hid : id < SLPC_MAX_PARAM) :
    slpc_mem_get_param (slpc_shared_data_init_page ext dev sku) id =
      spec_default_override (ext.intel_gpu_freq dev.rps.efficient_freq) id := by
  unfold slpc_mem_get_param
  rw [init_page_bits, init_page_values]
  unfold SLPC_MAX_PARAM at hid
  interval_cases id <;> rfl

theorem init_page_task_status (ext : slpc_platform) (dev : drm_i915_private) (sku : Nat) :
    spec_task_status (slpc_shared_data_init_page ext dev sku)
        SLPC_PARAM_TASK_ENABLE_GTPERF SLPC_PARAM_TASK_DISABLE_GTPERF = SLPC_PARAM_TASK_ENABLED ∧
    spec_task_status (slpc_shared_data_init_page ext dev sku)
        SLPC_PARAM_TASK_ENABLE_BALANCER SLPC_PARAM_TASK_DISABLE_BALANCER =
      SLPC_PARAM_TASK_ENABLED ∧
    spec_task_status (slpc_shared_data_init_page ext dev sku)
        SLPC_PARAM_TASK_ENABLE_DCC SLPC_PARAM_TASK_DISABLE_DCC = SLPC_PARAM_TASK_DISABLED := by
  unfold spec_task_status spec_override_set spec_override_value
  rw [init_page_bits, init_page_values]
  exact ⟨rfl, rfl, rfl⟩

/-- Claim C4: after `slpc_shared_data_init` (on a device with a buffer, whatever
it held) the store holds exactly the documented default set: reading any id
below `SLPC_MAX_PARAM` gives the (overriding, value) pair of
`spec_default_override` for the platform's efficient frequency, so that the
GTPERF and BALANCER pairs classify as Enabled and the DCC pair as Disabled, and
`global_state` is NotRunning. -/
theorem C4_init_defaults (ext : slpc_platform) (dev : drm_i915_private) (vma : i915_vma)
    (hv : dev.slpc.vma = some vma) :
    ∃ dev1 vma1, slpc_shared_data_init ext dev = some dev1 ∧ dev1.slpc.vma = some vma1 ∧
      vma1.page.global_state = SLPC_GLOBAL_STATE_NOT_RUNNING ∧
      (∀ id, id < SLPC_MAX_PARAM →
        slpc_mem_get_param vma1.page id =
          spec_default_override (ext.intel_gpu_freq dev.rps.efficient_freq) id) ∧
      spec_task_status vma1.page SLPC_PARAM_TASK_ENABLE_GTPERF SLPC_PARAM_TASK_DISABLE_GTPERF =
        SLPC_PARAM_TASK_ENABLED ∧
      spec_task_status vma1.page SLPC_PARAM_TASK_ENABLE_BALANCER
        SLPC_PARAM_TASK_DISABLE_BALANCER = SLPC_PARAM_TASK_ENABLED ∧
      spec_task_status vma1.page SLPC_PARAM_TASK_ENABLE_DCC SLPC_PARAM_TASK_DISABLE_DCC =
        SLPC_PARAM_TASK_DISABLED := by
  unfold slpc_shared_data_init
  rw [hv]
  refine ⟨_, ⟨vma.ggtt_offset,
    slpc_shared_data_init_page ext dev (slpc_get_platform_sku ext dev).2⟩, rfl, ?_, rfl, ?_,
    init_page_task_status ext dev _⟩
  · simp [set_page, slpc_get_platform_sku, WARN_ON_slpc, hv]
  · intro id hid
    exact init_page_get ext dev _ id hid

theorem C4_init_defaults_witness :
    sample_raw_dev.slpc.vma.isSome = true ∧
    ∃ dev1 vma1, slpc_shared_data_init sample_platform sample_raw_dev = some dev1 ∧
      dev1.slpc.vma = some vma1 ∧
      vma1.page.global_state = SLPC_GLOBAL_STATE_NOT_RUNNING ∧
      ∀ id, id < SLPC_MAX_PARAM →
        slpc_mem_get_param vma1.page id = spec_default_override 150 id := by
  obtain ⟨dev1, vma1, h1, h2, h3, h4, -⟩ := C4_init_defaults sample_platform sample_raw_dev _ rfl
  exact ⟨rfl, dev1, vma1, h1, h2, h3, h4⟩

/-! ## Parameter ids outside the generic path -/

/-- Claim C5, counterexample: on the initialised sample device
`intel_slpc_set_param` with the task id 1 (disable GTPERF) and
`intel_slpc_unset_param` with the task id 0 (enable GTPERF) are carried out:
the store changes and an event is sent. -/
theorem C5_task_id_counterexample :
    (SLPC_PARAM_TASK_ENABLE_GTPERF ≤ 1 ∧ 1 ≤ SLPC_PARAM_TASK_DISABLE_DCC) ∧
    (intel_slpc_get_param sample_dev 1).2 = some (0, 0) ∧
    (intel_slpc_get_param (intel_slpc_set_param sample_platform sample_dev 1 9) 1).2 =
      some (1, 9) ∧
    (intel_slpc_set_param sample_platform sample_dev 1 9).guc_sent =
      [[INTEL_GUC_ACTION_SLPC_REQUEST, SLPC_EVENT SLPC_EVENT_PARAMETER_SET 2, 1, 9]] ∧
    (intel_slpc_get_param sample_dev 0).2 = some (1, 1) ∧
    (intel_slpc_get_param (intel_slpc_unset_param sample_platform sample_dev 0) 0).2 =
      some (0, 0) ∧
    (intel_slpc_unset_param sample_platform sample_dev 0).guc_sent =
      [[INTEL_GUC_ACTION_SLPC_REQUEST, SLPC_EVENT SLPC_EVENT_PARAMETER_UNSET 1, 0]] := by
  refine ⟨by decide, rfl, rfl, rfl, rfl, rfl, rfl⟩

/-- Claim C5, amended: for every id in the task enable/disable range, the
`write` and `revert` commands of the control surface (`slpc_param_ctl_write`)
return `-EINVAL` and leave the device as it was: the shared store is
unchanged and no event is sent. -/
theorem C5_ctl_write_rejects_task_ids (ext : slpc_platform) (dev : drm_i915_private)
    (len offp : Nat) (parsed : slpc_param_ctl_parsed) (hlen : 0 < len) (hlen2 : len ≤ 40)
    (hop : parsed.op = some "write" ∨ parsed.op = some "revert")
    (hlo : SLPC_PARAM_TASK_ENABLE_GTPERF ≤ parsed.id)
    (hhi : parsed.id ≤ SLPC_PARAM_TASK_DISABLE_DCC) :
    slpc_param_ctl_write ext dev len parsed offp = some (dev, offp, -EINVAL) := by
  have h0 : ¬ len = 0 := by omega
  have h40 : ¬ len > 40 := by omega
  have hmax : ¬ parsed.id ≥ SLPC_MAX_PARAM := by
    unfold SLPC_PARAM_TASK_DISABLE_DCC at hhi; unfold SLPC_MAX_PARAM; omega
  have hneg : (-EINVAL : Int) < 0 := by decide
  unfold slpc_param_ctl_write
  rcases hop with h | h
  · simp [h0, h40, hmax, h, hlo, hhi, hneg]
  · simp [h0, h40, hmax, h, hlo, hhi, hneg]

theorem C5_ctl_write_rejects_task_ids_witness :
    slpc_param_ctl_write sample_platform sample_dev 9
      { ret := 0, op := some "write", id := 4, value := 1 } 0 = some (sample_dev, 0, -EINVAL) :=
  C5_ctl_write_rejects_task_ids sample_platform sample_dev 9 0
    { ret := 0, op := some "write", id := 4, value := 1 } (by decide) (by decide)
    (Or.inl rfl) (by decide) (by decide)

/-- Claim C6, counterexample: with id 20 = `SLPC_MAX_PARAM`,
`intel_slpc_set_param` sets bit 20 of the override bitmap of the initialised
sample device, and `intel_slpc_unset_param` clears bit 20 of a bitmap that had
it set. -/
theorem C6_out_of_range_counterexample :
    20 ≥ SLPC_MAX_PARAM ∧
    sample_dev.slpc.vma.map (fun v => v.page.override_parameters_set_bits) = some [988517] ∧
    (intel_slpc_set_param sample_platform sample_dev 20 1).slpc.vma.map
      (fun v => v.page.override_parameters_set_bits) = some [2037093] ∧
    sample_raw_dev.slpc.vma.map (fun v => v.page.override_parameters_set_bits) =
      some [0xFFFFFFFF] ∧
    (intel_slpc_unset_param sample_platform sample_raw_dev 20).slpc.vma.map
      (fun v => v.page.override_parameters_set_bits) = some [0xFFEFFFFF] := by
  refine ⟨by decide, rfl, rfl, rfl, rfl⟩

theorem warn_count_set_param (ext : slpc_platform) (dev : drm_i915_private) (id v : Nat) :
    (intel_slpc_set_param ext dev id v).warn_count =
      dev.warn_count + if id ≥ SLPC_MAX_PARAM then 1 else 0 := by
  unfold intel_slpc_set_param
  dsimp only
  split
  · rw [WARN_ON_warn_count]; simp
  · rw [host2guc_slpc_set_param, host2guc_slpc_warn_count]
    show (WARN_ON _ dev).warn_count = _
    rw [WARN_ON_warn_count]; simp

theorem warn_count_unset_param (ext : slpc_platform) (dev : drm_i915_private) (id : Nat) :
    (intel_slpc_unset_param ext dev id).warn_count =
      dev.warn_count + if id ≥ SLPC_MAX_PARAM then 1 else 0 := by
  unfold intel_slpc_unset_param
  dsimp only
  split
  · rw [WARN_ON_warn_count]; simp
  · rw [host2guc_slpc_unset_param, host2guc_slpc_warn_count]
    show (WARN_ON _ dev).warn_count = _
    rw [WARN_ON_warn_count]; simp

/-- Claim C6, amended: for every id at or above `SLPC_MAX_PARAM`, the control
surface (`slpc_param_ctl_write`) fails with `-EINVAL` whatever the operation
and leaves the device, hence the override bitmap and values, as they were;
`intel_slpc_set_param` and `intel_slpc_unset_param` return no status and
record a warning (`WARN_ON`) for such an id. -/
theorem C6_out_of_range_rejected_or_warned (ext : slpc_platform) (dev : drm_i915_private)
    (len offp id v : Nat) (parsed : slpc_param_ctl_parsed) (hlen : 0 < len)
    (hlen2 : len ≤ 40) (hpid : parsed.id = id) (hid : id ≥ SLPC_MAX_PARAM) :
    slpc_param_ctl_write ext dev len parsed offp = some (dev, offp, -EINVAL) ∧
    (intel_slpc_set_param ext dev id v).warn_count = dev.warn_count + 1 ∧
    (intel_slpc_unset_param ext dev id).warn_count = dev.warn_count + 1 := by
  refine ⟨?_, ?_, ?_⟩
  · have h0 : ¬ len = 0 := by omega
    have h40 : ¬ len > 40 := by omega
    have hneg : (-EINVAL : Int) < 0 := by decide
    subst hpid
    unfold slpc_param_ctl_write
    simp [h0, h40, hid, hneg]
  · rw [warn_count_set_param, if_pos hid]
  · rw [warn_count_unset_param, if_pos hid]

theorem C6_out_of_range_rejected_or_warned_witness :
    slpc_param_ctl_write sample_platform sample_dev 9
      { ret := 0, op := some "write", id := 20, value := 1 } 0 =
        some (sample_dev, 0, -EINVAL) ∧
    (intel_slpc_set_param sample_platform sample_dev 20 1).warn_count =
      sample_dev.warn_count + 1 ∧
    (intel_slpc_unset_param sample_platform sample_dev 20).warn_count =
      sample_dev.warn_count + 1 :=
  C6_out_of_range_rejected_or_warned sample_platform sample_dev 9 0 20 1
    { ret := 0, op := some "write", id := 20, value := 1 } (by decide) (by decide) rfl
    (by decide)


/-! ## Frequency bounds -/

theorem page_view_isSome_of_vma (dev : drm_i915_private) (h : dev.slpc.vma ≠ none) :
    ∃ p, page_view dev = some p := by
  cases hv : dev.slpc.vma with
  | none => exact absurd hv h
  | some vma => exact ⟨_, page_view_of_vma dev vma hv⟩

/-- Claim C7: `intel_slpc_max_freq_set(v)` returns `-EINVAL` when
`v < rps.min_freq`, `v > rps.max_freq` or `v <` the cached `min_unslice_freq`,
and otherwise (on a device with a shared store) returns 0;
`intel_slpc_min_freq_set(v)` returns `-EINVAL` when `v < rps.min_freq`,
`v > rps.max_freq` or `v >` the cached `max_unslice_freq`, and otherwise
returns 0. On the failing branch the device is exactly as before: shared
store, cached bounds and active flag unchanged, no event sent. -/
theorem C7_freq_set_validation (ext : slpc_platform) (dev : drm_i915_private) (v : Nat) :
    ((v < dev.rps.min_freq ∨ v > dev.rps.max_freq ∨ v < dev.slpc.min_unslice_freq) →
      intel_slpc_max_freq_set ext dev v = some (dev, -EINVAL)) ∧
    (¬ (v < dev.rps.min_freq ∨ v > dev.rps.max_freq ∨ v < dev.slpc.min_unslice_freq) →
      dev.slpc.vma ≠ none → ∃ dev1, intel_slpc_max_freq_set ext dev v = some (dev1, 0)) ∧
    ((v < dev.rps.min_freq ∨ v > dev.rps.max_freq ∨ v > dev.slpc.max_unslice_freq) →
      intel_slpc_min_freq_set ext dev v = some (dev, -EINVAL)) ∧
    (¬ (v < dev.rps.min_freq ∨ v > dev.rps.max_freq ∨ v > dev.slpc.max_unslice_freq) →
      dev.slpc.vma ≠ none → ∃ dev1, intel_slpc_min_freq_set ext dev v = some (dev1, 0)) := by
  refine ⟨?_, ?_, ?_, ?_⟩
  · intro h
    unfold intel_slpc_max_freq_set
    rw [if_pos h]
  · intro h hv
    obtain ⟨p, hp⟩ := page_view_isSome_of_vma dev hv
    unfold intel_slpc_max_freq_set
    rw [if_neg h]
    obtain ⟨dev1, h1, _, _⟩ := enable_some ext
      (intel_slpc_set_param ext
        (intel_slpc_set_param ext dev SLPC_PARAM_GLOBAL_MAX_GT_UNSLICE_FREQ_MHZ
          (ext.intel_gpu_freq v))
        SLPC_PARAM_GLOBAL_MAX_GT_SLICE_FREQ_MHZ (ext.intel_gpu_freq v)) _
      (by rw [page_view_set_param, page_view_set_param, hp]; rfl)
    dsimp only
    rw [h1]
    exact ⟨_, rfl⟩
  · intro h
    unfold intel_slpc_min_freq_set
    rw [if_pos h]
  · intro h hv
    obtain ⟨p, hp⟩ := page_view_isSome_of_vma dev hv
    unfold intel_slpc_min_freq_set
    rw [if_neg h]
    obtain ⟨dev1, h1, _, _⟩ := enable_some ext
      (intel_slpc_set_param ext
        (intel_slpc_set_param ext dev SLPC_PARAM_GLOBAL_MIN_GT_UNSLICE_FREQ_MHZ
          (ext.intel_gpu_freq v))
        SLPC_PARAM_GLOBAL_MIN_GT_SLICE_FREQ_MHZ (ext.intel_gpu_freq v)) _
      (by rw [page_view_set_param, page_view_set_param, hp]; rfl)
    dsimp only
    rw [h1]
    exact ⟨_, rfl⟩

theorem C7_freq_set_validation_witness :
    intel_slpc_max_freq_set sample_platform sample_dev 5 = some (sample_dev, -EINVAL) ∧
    (∃ dev1, intel_slpc_max_freq_set sample_platform sample_dev 20 = some (dev1, 0)) ∧
    intel_slpc_min_freq_set sample_platform sample_dev 40 = some (sample_dev, -EINVAL) ∧
    (∃ dev1, intel_slpc_min_freq_set sample_platform sample_dev 20 = some (dev1, 0)) :=
  ⟨(C7_freq_set_validation sample_platform sample_dev 5).1 (by decide),
   (C7_freq_set_validation sample_platform sample_dev 20).2.1 (by decide) (by decide),
   (C7_freq_set_validation sample_platform sample_dev 40).2.2.1 (by decide),
   (C7_freq_set_validation sample_platform sample_dev 20).2.2.2 (by decide) (by decide)⟩

/-! ## Task control and status -/

/-- Claim C8, the code at the failing input: on the active sample device (the
firmware reporting `Running`, `GEN6_RP_CONTROL` = 5, saved baseline 9, nothing
sent yet) `intel_slpc_task_control` with the tri-state value 3 returns
`-EINVAL`, and yet has run `intel_slpc_enable`: the baseline is written to the
register, `global_state` is overwritten with NotRunning and a Reset event is
sent. -/
theorem C8_invalid_tristate_still_resets :
    sample_active_dev.slpc.active = true ∧
    sample_active_dev.GEN6_RP_CONTROL = 5 ∧
    sample_active_dev.guc_sent = [] ∧
    sample_active_dev.slpc.vma.map (fun v => v.page.global_state) =
      some SLPC_GLOBAL_STATE_RUNNING ∧
    ∃ dev1, intel_slpc_task_control sample_platform sample_active_dev 3
        SLPC_PARAM_TASK_ENABLE_GTPERF SLPC_PARAM_TASK_DISABLE_GTPERF = some (dev1, -EINVAL) ∧
      dev1.GEN6_RP_CONTROL = 9 ∧
      dev1.guc_sent =
        [[INTEL_GUC_ACTION_SLPC_REQUEST, SLPC_EVENT SLPC_EVENT_RESET 2, 0x2000, 0]] ∧
      dev1.slpc.vma.map (fun v => v.page.global_state) =
        some SLPC_GLOBAL_STATE_NOT_RUNNING :=
  ⟨rfl, rfl, rfl, rfl, _, rfl, rfl, rfl, rfl⟩

theorem task_status_value_eq_spec (data : slpc_shared_data) (enable_id disable_id : Nat) :
    task_status_value (slpc_mem_get_param data enable_id).1 (slpc_mem_get_param data enable_id).2
      (slpc_mem_get_param data disable_id).1 (slpc_mem_get_param data disable_id).2 =
      spec_task_status data enable_id disable_id := by
  rw [mem_get_param_eq, mem_get_param_eq]
  unfold task_status_value spec_task_status
  cases spec_override_set data enable_id <;> cases spec_override_set data disable_id <;> simp

theorem spec_task_status_host_part (data : slpc_shared_data) (enable_id disable_id : Nat) :
    spec_task_status data.host_part enable_id disable_id =
      spec_task_status data enable_id disable_id := rfl

/-- Claim C9: `intel_slpc_task_status(enable_id, disable_id)` fails with
`-ENODEV` and leaves the output location as it was when the active flag is
false; when SLPC is active (there being a shared store and an output
location) it returns 0 and the classification of the store: Disabled if the
disable override is set with value 1, otherwise Enabled if the enable override
is set with value 1, otherwise Default if neither override is set, otherwise
Unknown. -/
theorem C9_task_status (dev : drm_i915_private) (val : Option Nat)
    (enable_id disable_id : Nat) :
    (dev.slpc.active = false →
      intel_slpc_task_status dev val enable_id disable_id = some (dev, val, -ENODEV)) ∧
    (∀ vma out, dev.slpc.active = true → dev.slpc.vma = some vma →
      ∃ dev1, intel_slpc_task_status dev (some out) enable_id disable_id =
        some (dev1, some (spec_task_status vma.page enable_id disable_id), 0)) := by
  constructor
  · intro h
    unfold intel_slpc_task_status
    simp [h]
  · intro vma out hact hv
    obtain ⟨dev1, h1⟩ := task_status_active dev _ hact (page_view_of_vma dev vma hv) out
      enable_id disable_id
    rw [task_status_value_eq_spec, spec_task_status_host_part] at h1
    exact ⟨dev1, h1⟩

theorem C9_task_status_witness :
    intel_slpc_task_status sample_dev (some 77) 4 5 = some (sample_dev, some 77, -ENODEV) ∧
    ∃ dev1, intel_slpc_task_status sample_active_dev (some 77) 4 5 =
      some (dev1, some SLPC_PARAM_TASK_DISABLED, 0) :=
  ⟨(C9_task_status sample_dev (some 77) 4 5).1 rfl,
   (C9_task_status sample_active_dev (some 77) 4 5).2 _ 77 rfl rfl⟩


/-! ## Status read -/

theorem read_shared_data_some (ext : slpc_platform) (dev : drm_i915_private) (vma : i915_vma)
    (hv : dev.slpc.vma = some vma) :
    ∃ dev1 vma1, intel_slpc_read_shared_data ext dev = some (dev1, vma1.page) ∧
      dev1.slpc.vma = some vma1 ∧
      dev1.slpc.max_unslice_freq = dev.slpc.max_unslice_freq ∧
      dev1.slpc.min_unslice_freq = dev.slpc.min_unslice_freq := by
  unfold intel_slpc_read_shared_data intel_slpc_query_task_state
  cases hact : dev.slpc.active with
  | false =>
    simp only [Bool.false_eq_true, if_false, hv]
    exact ⟨dev, vma, rfl, hv, rfl, rfl⟩
  | true =>
    simp only [if_true, host2guc_slpc_query_task_state, host2guc_slpc_offset_event, hv]
    have hs := host2guc_slpc_slpc ext dev
      { slpc_event_input.zero with
        header := SLPC_EVENT SLPC_EVENT_QUERY_TASK_STATE 2
        args := (slpc_event_input.zero.args.set 0 vma.ggtt_offset).set 1 0 } 4
    simp only [intel_guc_send_mmio, set_page, hv, Option.map_some'] at hs
    generalize host2guc_slpc ext dev
      { slpc_event_input.zero with
        header := SLPC_EVENT SLPC_EVENT_QUERY_TASK_STATE 2
        args := (slpc_event_input.zero.args.set 0 vma.ggtt_offset).set 1 0 } 4 = d1 at hs ⊢
    have hvma := congrArg intel_slpc.vma hs
    have hmax := congrArg intel_slpc.max_unslice_freq hs
    have hmin := congrArg intel_slpc.min_unslice_freq hs
    dsimp only at hvma hmax hmin
    rw [hvma]
    exact ⟨d1, _, rfl, hvma, hmax, hmin⟩

/-- Claim C10: `intel_slpc_get_status` (on a device with a shared store) reads
the shared data and interprets the `global_state` it copied out, whatever its
value: Running returns true and stores the reported min/max unslice
frequencies (scaled by `GEN9_FREQ_SCALER`) in the host-visible fields;
Resetting returns true and leaves the device as the read left it; every other
value (Error, NotRunning, Initializing, ShuttingDown, or a value outside the
enumeration) returns false and leaves the device as the read left it. The read
itself does not touch the host-visible min/max unslice frequency fields. -/
theorem C10_get_status (ext : slpc_platform) (dev : drm_i915_private) (vma : i915_vma)
    (hv : dev.slpc.vma = some vma) :
    ∃ dev1 data, intel_slpc_read_shared_data ext dev = some (dev1, data) ∧
      dev1.slpc.vma.map (fun v => v.page) = some data ∧
      dev1.slpc.max_unslice_freq = dev.slpc.max_unslice_freq ∧
      dev1.slpc.min_unslice_freq = dev.slpc.min_unslice_freq ∧
      (data.global_state = SLPC_GLOBAL_STATE_RUNNING →
        intel_slpc_get_status ext dev =
          some ({ dev1 with slpc := { dev1.slpc with
                    max_unslice_freq :=
                      (data.task_state_data.max_unslice_freq * ext.GEN9_FREQ_SCALER) % 2 ^ 32
                    min_unslice_freq :=
                      (data.task_state_data.min_unslice_freq * ext.GEN9_FREQ_SCALER) % 2 ^ 32 } },
                true)) ∧
      (data.global_state = SLPC_GLOBAL_STATE_RESETTING →
        intel_slpc_get_status ext dev = some (dev1, true)) ∧
      (data.global_state ≠ SLPC_GLOBAL_STATE_RUNNING →
        data.global_state ≠ SLPC_GLOBAL_STATE_RESETTING →
        intel_slpc_get_status ext dev = some (dev1, false)) := by
  obtain ⟨dev1, vma1, h1, h2, h3, h4⟩ := read_shared_data_some ext dev vma hv
  refine ⟨dev1, vma1.page, h1, by rw [h2]; rfl, h3, h4, ?_, ?_, ?_⟩
  · intro hg
    unfold intel_slpc_get_status
    rw [h1]
    simp only [hg, if_true]
  · intro hg
    have hne1 : ¬ SLPC_GLOBAL_STATE_RESETTING = SLPC_GLOBAL_STATE_RUNNING := by decide
    have hne2 : ¬ SLPC_GLOBAL_STATE_RESETTING = SLPC_GLOBAL_STATE_ERROR := by decide
    unfold intel_slpc_get_status
    rw [h1]
    simp only [hg, hne1, hne2, if_true, if_false]
  · intro hg1 hg2
    unfold intel_slpc_get_status
    rw [h1]
    simp only [hg1, hg2, if_false]
    split <;> rfl

theorem C10_get_status_witness :
    ∃ dev1, intel_slpc_get_status sample_platform sample_active_dev = some (dev1, true) ∧
      dev1.slpc.max_unslice_freq = 0 ∧
      intel_slpc_get_status sample_platform sample_dev = some (sample_dev, false) := by
  obtain ⟨dev1, data, h1, -, -, -, hrun, -, -⟩ :=
    C10_get_status sample_platform sample_active_dev _ rfl
  obtain ⟨dev2, data2, h2, -, -, -, -, -, hother⟩ :=
    C10_get_status sample_platform sample_dev _ rfl
  have e1 : intel_slpc_read_shared_data sample_platform sample_active_dev = some (_, _) := rfl
  have e2 : intel_slpc_read_shared_data sample_platform sample_dev = some (sample_dev, _) := rfl
  rw [e1] at h1
  rw [e2] at h2
  cases h1
  cases h2
  exact ⟨_, hrun rfl, rfl, hother (by decide) (by decide)⟩


/-! ## The device after one request -/

/-- The device after `host2guc_slpc`, field by field: the request is appended
to the log, the firmware's reply (computed from the log and the store as the
host left it) replaces the two firmware-owned parts of the store, and nothing
else changes but the error log. -/
theorem host2guc_slpc_eq (ext : slpc_platform) (dev : drm_i915_private)
    (input : slpc_event_input) (len : Nat) :
    host2guc_slpc ext dev input len =
      { dev with
        guc_sent := dev.guc_sent ++
          [(INTEL_GUC_ACTION_SLPC_REQUEST :: input.header :: input.args).take len]
        drm_error_log := host2guc_slpc_errors ext dev input len
        slpc := { dev.slpc with
          vma := dev.slpc.vma.map fun v => { v with page := { v.page with
            global_state :=
              (ext.firmware
                (dev.guc_sent ++
                  [(INTEL_GUC_ACTION_SLPC_REQUEST :: input.header :: input.args).take len])
                (dev.slpc.vma.map fun v => v.page)).global_state
            task_state_data :=
              (ext.firmware
                (dev.guc_sent ++
                  [(INTEL_GUC_ACTION_SLPC_REQUEST :: input.header :: input.args).take len])
                (dev.slpc.vma.map fun v => v.page)).task_state_data } } } } := by
  unfold host2guc_slpc_errors host2guc_slpc
  dsimp only
  split <;> rfl

theorem take_parameter_set (id value : Nat) :
    (INTEL_GUC_ACTION_SLPC_REQUEST :: SLPC_EVENT SLPC_EVENT_PARAMETER_SET 2 ::
      (slpc_event_input.zero.args.set 0 id).set 1 value).take 4 =
      parameter_set_request id value := by
  simp [slpc_event_input.zero, SLPC_EVENT_MAX_INPUT_ARGS, List.replicate, parameter_set_request]

theorem take_parameter_unset (id : Nat) :
    (INTEL_GUC_ACTION_SLPC_REQUEST :: SLPC_EVENT SLPC_EVENT_PARAMETER_UNSET 1 ::
      slpc_event_input.zero.args.set 0 id).take 3 = parameter_unset_request id := by
  simp [slpc_event_input.zero, SLPC_EVENT_MAX_INPUT_ARGS, List.replicate,
    parameter_unset_request]

theorem take_offset_request (event offset : Nat) :
    (INTEL_GUC_ACTION_SLPC_REQUEST :: SLPC_EVENT event 2 ::
      (slpc_event_input.zero.args.set 0 offset).set 1 0).take 4 =
      offset_request event offset := by
  simp [slpc_event_input.zero, SLPC_EVENT_MAX_INPUT_ARGS, List.replicate, offset_request]

/-- The device after `intel_slpc_set_param` when there is a store. -/
theorem set_param_eq (ext : slpc_platform) (dev : drm_i915_private) (vma : i915_vma)
    (id value : Nat) (hv : dev.slpc.vma = some vma) :
    ∃ errors,
      intel_slpc_set_param ext dev id value =
        { dev with
          warn_count := dev.warn_count + if id ≥ SLPC_MAX_PARAM then 1 else 0
          guc_sent := dev.guc_sent ++ [parameter_set_request id value]
          drm_error_log := errors
          slpc := { dev.slpc with
            vma := some { vma with page := { slpc_mem_set_param vma.page id value with
              global_state :=
                (ext.firmware (dev.guc_sent ++ [parameter_set_request id value])
                  (some (slpc_mem_set_param vma.page id value))).global_state
              task_state_data :=
                (ext.firmware (dev.guc_sent ++ [parameter_set_request id value])
                  (some (slpc_mem_set_param vma.page id value))).task_state_data } } } } := by
  unfold intel_slpc_set_param
  simp only [WARN_ON_slpc, hv, host2guc_slpc_set_param]
  rw [host2guc_slpc_eq]
  by_cases hid : id ≥ SLPC_MAX_PARAM
  · simp only [take_parameter_set, set_page, WARN_ON, hid, decide_True, if_true, hv,
      Option.map_some']
    exact ⟨_, rfl⟩
  · simp only [take_parameter_set, set_page, WARN_ON, hid, decide_False, if_false, hv,
      Option.map_some', Bool.false_eq_true, Nat.add_zero]
    exact ⟨_, rfl⟩

/-- The device after `intel_slpc_unset_param` when there is a store. -/
theorem unset_param_eq (ext : slpc_platform) (dev : drm_i915_private) (vma : i915_vma)
    (id : Nat) (hv : dev.slpc.vma = some vma) :
    ∃ errors,
      intel_slpc_unset_param ext dev id =
        { dev with
          warn_count := dev.warn_count + if id ≥ SLPC_MAX_PARAM then 1 else 0
          guc_sent := dev.guc_sent ++ [parameter_unset_request id]
          drm_error_log := errors
          slpc := { dev.slpc with
            vma := some { vma with page := { slpc_mem_unset_param vma.page id with
              global_state :=
                (ext.firmware (dev.guc_sent ++ [parameter_unset_request id])
                  (some (slpc_mem_unset_param vma.page id))).global_state
              task_state_data :=
                (ext.firmware (dev.guc_sent ++ [parameter_unset_request id])
                  (some (slpc_mem_unset_param vma.page id))).task_state_data } } } } := by
  unfold intel_slpc_unset_param
  simp only [WARN_ON_slpc, hv, host2guc_slpc_unset_param]
  rw [host2guc_slpc_eq]
  by_cases hid : id ≥ SLPC_MAX_PARAM
  · simp only [take_parameter_unset, set_page, WARN_ON, hid, decide_True, if_true, hv,
      Option.map_some']
    exact ⟨_, rfl⟩
  · simp only [take_parameter_unset, set_page, WARN_ON, hid, decide_False, if_false, hv,
      Option.map_some', Bool.false_eq_true, Nat.add_zero]
    exact ⟨_, rfl⟩

/-- The device after one of the three events that carry the shared-data
offset. -/
theorem offset_event_eq (ext : slpc_platform) (dev : drm_i915_private) (vma : i915_vma)
    (event : Nat) (hv : dev.slpc.vma = some vma) :
    ∃ errors,
      host2guc_slpc_offset_event ext dev event =
        some { dev with
          guc_sent := dev.guc_sent ++ [offset_request event vma.ggtt_offset]
          drm_error_log := errors
          slpc := { dev.slpc with
            vma := some { vma with page := { vma.page with
              global_state :=
                (ext.firmware (dev.guc_sent ++ [offset_request event vma.ggtt_offset])
                  (some vma.page)).global_state
              task_state_data :=
                (ext.firmware (dev.guc_sent ++ [offset_request event vma.ggtt_offset])
                  (some vma.page)).task_state_data } } } } := by
  unfold host2guc_slpc_offset_event
  simp only [hv]
  rw [host2guc_slpc_eq]
  simp only [take_offset_request, hv, Option.map_some']
  exact ⟨_, rfl⟩

/-- The device after `intel_slpc_enable` when there is a store. -/
theorem enable_eq (ext : slpc_platform) (dev : drm_i915_private) (vma : i915_vma)
    (hv : dev.slpc.vma = some vma) :
    ∃ errors,
      intel_slpc_enable ext dev =
        some { dev with
          GEN6_RP_CONTROL := dev.slpc.rp_control
          guc_sent := dev.guc_sent ++ [offset_request SLPC_EVENT_RESET vma.ggtt_offset]
          drm_error_log := errors
          slpc := { dev.slpc with
            active := true
            vma := some { vma with page := { vma.page with
              global_state :=
                (ext.firmware
                  (dev.guc_sent ++ [offset_request SLPC_EVENT_RESET vma.ggtt_offset])
                  (some { vma.page with
                    global_state := SLPC_GLOBAL_STATE_NOT_RUNNING })).global_state
              task_state_data :=
                (ext.firmware
                  (dev.guc_sent ++ [offset_request SLPC_EVENT_RESET vma.ggtt_offset])
                  (some { vma.page with
                    global_state := SLPC_GLOBAL_STATE_NOT_RUNNING })).task_state_data } } } } := by
  unfold intel_slpc_enable host2guc_slpc_reset
  simp only [intel_slpc_restore_default_rps, hv]
  obtain ⟨errors, h⟩ := offset_event_eq ext
    (set_page { dev with GEN6_RP_CONTROL := dev.slpc.rp_control }
      fun p => { p with global_state := SLPC_GLOBAL_STATE_NOT_RUNNING })
    { vma with page := { vma.page with global_state := SLPC_GLOBAL_STATE_NOT_RUNNING } }
    SLPC_EVENT_RESET (by simp [set_page, hv])
  rw [h]
  exact ⟨errors, rfl⟩


/-- What `intel_slpc_set_param` changes and what it leaves alone, when there is
a store. -/
theorem set_param_step (ext : slpc_platform) (dev : drm_i915_private) (vma : i915_vma)
    (id value : Nat) (hv : dev.slpc.vma = some vma) :
    ∃ vma1, (intel_slpc_set_param ext dev id value).slpc.vma = some vma1 ∧
      vma1.ggtt_offset = vma.ggtt_offset ∧
      vma1.page.host_part = slpc_mem_set_param vma.page.host_part id value ∧
      (intel_slpc_set_param ext dev id value).guc_sent =
        dev.guc_sent ++ [parameter_set_request id value] ∧
      (intel_slpc_set_param ext dev id value).slpc.active = dev.slpc.active ∧
      (intel_slpc_set_param ext dev id value).slpc.max_unslice_freq =
        dev.slpc.max_unslice_freq ∧
      (intel_slpc_set_param ext dev id value).slpc.min_unslice_freq =
        dev.slpc.min_unslice_freq ∧
      (intel_slpc_set_param ext dev id value).slpc.rp_control = dev.slpc.rp_control ∧
      (intel_slpc_set_param ext dev id value).GEN6_RP_CONTROL = dev.GEN6_RP_CONTROL ∧
      (intel_slpc_set_param ext dev id value).runtime_pm_count = dev.runtime_pm_count := by
  obtain ⟨errors, h⟩ := set_param_eq ext dev vma id value hv
  rw [h]
  exact ⟨_, rfl, rfl, rfl, rfl, rfl, rfl, rfl, rfl, rfl, rfl⟩

/-- What `intel_slpc_unset_param` changes and what it leaves alone, when there
is a store. -/
theorem unset_param_step (ext : slpc_platform) (dev : drm_i915_private) (vma : i915_vma)
    (id : Nat) (hv : dev.slpc.vma = some vma) :
    ∃ vma1, (intel_slpc_unset_param ext dev id).slpc.vma = some vma1 ∧
      vma1.ggtt_offset = vma.ggtt_offset ∧
      vma1.page.host_part = slpc_mem_unset_param vma.page.host_part id ∧
      (intel_slpc_unset_param ext dev id).guc_sent =
        dev.guc_sent ++ [parameter_unset_request id] ∧
      (intel_slpc_unset_param ext dev id).slpc.active = dev.slpc.active ∧
      (intel_slpc_unset_param ext dev id).slpc.max_unslice_freq = dev.slpc.max_unslice_freq ∧
      (intel_slpc_unset_param ext dev id).slpc.min_unslice_freq = dev.slpc.min_unslice_freq ∧
      (intel_slpc_unset_param ext dev id).slpc.rp_control = dev.slpc.rp_control ∧
      (intel_slpc_unset_param ext dev id).GEN6_RP_CONTROL = dev.GEN6_RP_CONTROL ∧
      (intel_slpc_unset_param ext dev id).runtime_pm_count = dev.runtime_pm_count := by
  obtain ⟨errors, h⟩ := unset_param_eq ext dev vma id hv
  rw [h]
  exact ⟨_, rfl, rfl, rfl, rfl, rfl, rfl, rfl, rfl, rfl, rfl⟩

/-- What `intel_slpc_enable` changes and what it leaves alone, when there is a
store. -/
theorem enable_step (ext : slpc_platform) (dev : drm_i915_private) (vma : i915_vma)
    (hv : dev.slpc.vma = some vma) :
    ∃ dev1 vma1, intel_slpc_enable ext dev = some dev1 ∧ dev1.slpc.vma = some vma1 ∧
      vma1.ggtt_offset = vma.ggtt_offset ∧
      vma1.page.host_part = vma.page.host_part ∧
      dev1.guc_sent = dev.guc_sent ++ [offset_request SLPC_EVENT_RESET vma.ggtt_offset] ∧
      dev1.slpc.active = true ∧
      dev1.slpc.max_unslice_freq = dev.slpc.max_unslice_freq ∧
      dev1.slpc.min_unslice_freq = dev.slpc.min_unslice_freq ∧
      dev1.slpc.rp_control = dev.slpc.rp_control ∧
      dev1.GEN6_RP_CONTROL = dev.slpc.rp_control ∧
      dev1.runtime_pm_count = dev.runtime_pm_count := by
  obtain ⟨errors, h⟩ := enable_eq ext dev vma hv
  rw [h]
  exact ⟨_, _, rfl, rfl, rfl, rfl, rfl, rfl, rfl, rfl, rfl, rfl, rfl⟩

theorem mem_get_set_other (data : slpc_shared_data) (i j v : Nat) (h : i ≠ j) :
    slpc_mem_get_param (slpc_mem_set_param data i v) j = slpc_mem_get_param data j := by
  rw [mem_get_param_eq, mem_get_param_eq, override_set_set_param, override_value_set_param]
  simp [h]

theorem mem_get_unset_other (data : slpc_shared_data) (i j : Nat) (h : i ≠ j) :
    slpc_mem_get_param (slpc_mem_unset_param data i) j = slpc_mem_get_param data j := by
  rw [mem_get_param_eq, mem_get_param_eq, override_set_unset_param,
    override_value_unset_param]
  simp [h]

theorem provisioned_set_param (data : slpc_shared_data) (i v : Nat) (h : data.provisioned) :
    (slpc_mem_set_param data i v).provisioned := by
  unfold slpc_shared_data.provisioned at h ⊢
  rw [length_bits_set_param, length_values_set_param]
  exact h

theorem provisioned_unset_param (data : slpc_shared_data) (i : Nat) (h : data.provisioned) :
    (slpc_mem_unset_param data i).provisioned := by
  unfold slpc_shared_data.provisioned at h ⊢
  rw [length_bits_unset_param, length_values_unset_param]
  exact h

theorem get_param_of_vma (dev : drm_i915_private) (vma : i915_vma) (id : Nat)
    (hv : dev.slpc.vma = some vma) :
    (intel_slpc_get_param dev id).2 = some (slpc_mem_get_param vma.page.host_part id) := by
  rw [get_param_result, page_view_of_vma dev vma hv]
  rfl


/-! ## Captured frequencies -/

/-- Claim C11, counterexample: with a firmware that reports `Running` and a
maximum unslice frequency of 900 (minimum 300), on a platform whose
`GEN9_FREQ_SCALER` is 3, `intel_slpc_get_status` captures 2700 (and 900), not
900 (and 300). -/
theorem C11_captured_counterexample :
    sample_running_platform.GEN9_FREQ_SCALER = 3 ∧
    ∃ dev1, intel_slpc_get_status sample_running_platform sample_active_dev =
        some (dev1, true) ∧
      dev1.slpc.vma.map (fun v => v.page.task_state_data) =
        some { max_unslice_freq := 900, min_unslice_freq := 300 } ∧
      dev1.slpc.max_unslice_freq = 2700 ∧ dev1.slpc.min_unslice_freq = 900 :=
  ⟨rfl, _, rfl, rfl, rfl, rfl⟩

/-- Claim C11, amended: when the shared data read by `intel_slpc_get_status`
has `global_state` Running, the call succeeds and the max (resp. min) unslice
frequency it captures is the one reported in `task_state_data` multiplied by
`GEN9_FREQ_SCALER`, as a 32-bit value. -/
theorem C11_captured_is_scaled (ext : slpc_platform) (dev : drm_i915_private) (vma : i915_vma)
    (hv : dev.slpc.vma = some vma) :
    ∃ dev1 data, intel_slpc_read_shared_data ext dev = some (dev1, data) ∧
      (data.global_state = SLPC_GLOBAL_STATE_RUNNING →
        ∃ dev2, intel_slpc_get_status ext dev = some (dev2, true) ∧
          dev2.slpc.max_unslice_freq =
            (data.task_state_data.max_unslice_freq * ext.GEN9_FREQ_SCALER) % 2 ^ 32 ∧
          dev2.slpc.min_unslice_freq =
            (data.task_state_data.min_unslice_freq * ext.GEN9_FREQ_SCALER) % 2 ^ 32) := by
  obtain ⟨dev1, vma1, h1, -, -, -⟩ := read_shared_data_some ext dev vma hv
  refine ⟨dev1, vma1.page, h1, ?_⟩
  intro hg
  unfold intel_slpc_get_status
  rw [h1]
  simp only [hg, if_true]
  exact ⟨_, rfl, rfl, rfl⟩

theorem C11_captured_is_scaled_witness :
    sample_active_dev.slpc.vma ≠ none ∧
    ∃ dev2, intel_slpc_get_status sample_running_platform sample_active_dev =
        some (dev2, true) ∧
      dev2.slpc.max_unslice_freq = (900 * 3) % 2 ^ 32 := by
  obtain ⟨dev1, data, h1, h2⟩ :=
    C11_captured_is_scaled sample_running_platform sample_active_dev _ rfl
  have e1 : intel_slpc_read_shared_data sample_running_platform sample_active_dev =
      some (_, _) := rfl
  rw [e1] at h1
  cases h1
  obtain ⟨dev2, h3, h4, -⟩ := h2 rfl
  exact ⟨by decide, dev2, h3, h4⟩

/-! ## Frequency bounds, the successful branch -/

/-- Claim C12: when `intel_slpc_max_freq_set(v)` succeeds (valid `v`, provisioned
store), afterwards both maximum-frequency parameters are overridden with the
same value `intel_gpu_freq(v)`, the two ParameterSet events are followed by one
Reset event, the cached `max_unslice_freq` is `v`, and the minimum-frequency
parameters and the cached minimum are as before; symmetrically for
`intel_slpc_min_freq_set(v)`. -/
theorem C12_freq_set_effect (ext : slpc_platform) (dev : drm_i915_private) (vma : i915_vma)
    (v : Nat) (hv : dev.slpc.vma = some vma) (hp : vma.page.provisioned) :
    (¬ (v < dev.rps.min_freq ∨ v > dev.rps.max_freq ∨ v < dev.slpc.min_unslice_freq) →
      ∃ dev1, intel_slpc_max_freq_set ext dev v = some (dev1, 0) ∧
        (intel_slpc_get_param dev1 SLPC_PARAM_GLOBAL_MAX_GT_UNSLICE_FREQ_MHZ).2 =
          some (1, ext.intel_gpu_freq v) ∧
        (intel_slpc_get_param dev1 SLPC_PARAM_GLOBAL_MAX_GT_SLICE_FREQ_MHZ).2 =
          some (1, ext.intel_gpu_freq v) ∧
        dev1.guc_sent = dev.guc_sent ++
          [parameter_set_request SLPC_PARAM_GLOBAL_MAX_GT_UNSLICE_FREQ_MHZ (ext.intel_gpu_freq v),
           parameter_set_request SLPC_PARAM_GLOBAL_MAX_GT_SLICE_FREQ_MHZ (ext.intel_gpu_freq v),
           offset_request SLPC_EVENT_RESET vma.ggtt_offset] ∧
        dev1.slpc.max_unslice_freq = v ∧
        dev1.slpc.min_unslice_freq = dev.slpc.min_unslice_freq ∧
        (intel_slpc_get_param dev1 SLPC_PARAM_GLOBAL_MIN_GT_UNSLICE_FREQ_MHZ).2 =
          (intel_slpc_get_param dev SLPC_PARAM_GLOBAL_MIN_GT_UNSLICE_FREQ_MHZ).2 ∧
        (intel_slpc_get_param dev1 SLPC_PARAM_GLOBAL_MIN_GT_SLICE_FREQ_MHZ).2 =
          (intel_slpc_get_param dev SLPC_PARAM_GLOBAL_MIN_GT_SLICE_FREQ_MHZ).2) ∧
    (¬ (v < dev.rps.min_freq ∨ v > dev.rps.max_freq ∨ v > dev.slpc.max_unslice_freq) →
      ∃ dev1, intel_slpc_min_freq_set ext dev v = some (dev1, 0) ∧
        (intel_slpc_get_param dev1 SLPC_PARAM_GLOBAL_MIN_GT_UNSLICE_FREQ_MHZ).2 =
          some (1, ext.intel_gpu_freq v) ∧
        (intel_slpc_get_param dev1 SLPC_PARAM_GLOBAL_MIN_GT_SLICE_FREQ_MHZ).2 =
          some (1, ext.intel_gpu_freq v) ∧
        dev1.guc_sent = dev.guc_sent ++
          [parameter_set_request SLPC_PARAM_GLOBAL_MIN_GT_UNSLICE_FREQ_MHZ (ext.intel_gpu_freq v),
           parameter_set_request SLPC_PARAM_GLOBAL_MIN_GT_SLICE_FREQ_MHZ (ext.intel_gpu_freq v),
           offset_request SLPC_EVENT_RESET vma.ggtt_offset] ∧
        dev1.slpc.min_unslice_freq = v ∧
        dev1.slpc.max_unslice_freq = dev.slpc.max_unslice_freq ∧
        (intel_slpc_get_param dev1 SLPC_PARAM_GLOBAL_MAX_GT_UNSLICE_FREQ_MHZ).2 =
          (intel_slpc_get_param dev SLPC_PARAM_GLOBAL_MAX_GT_UNSLICE_FREQ_MHZ).2 ∧
        (intel_slpc_get_param dev1 SLPC_PARAM_GLOBAL_MAX_GT_SLICE_FREQ_MHZ).2 =
          (intel_slpc_get_param dev SLPC_PARAM_GLOBAL_MAX_GT_SLICE_FREQ_MHZ).2) := by
  have hp0 := provisioned_host_part _ hp
  constructor
  · intro hok
    obtain ⟨vma1, a1, a2, a3, a4, -, a6, a7, -, -, -⟩ := set_param_step ext dev vma
      SLPC_PARAM_GLOBAL_MAX_GT_UNSLICE_FREQ_MHZ (ext.intel_gpu_freq v) hv
    obtain ⟨vma2, b1, b2, b3, b4, -, b6, b7, -, -, -⟩ := set_param_step ext _ vma1
      SLPC_PARAM_GLOBAL_MAX_GT_SLICE_FREQ_MHZ (ext.intel_gpu_freq v) a1
    obtain ⟨dev3, vma3, c0, c1, c2, c3, c4, -, c6, c7, -, -, -⟩ := enable_step ext _ vma2 b1
    unfold intel_slpc_max_freq_set
    rw [if_neg hok]
    dsimp only
    rw [c0]
    have hD : ({ dev3 with slpc := { dev3.slpc with max_unslice_freq := v } } :
        drm_i915_private).slpc.vma = some vma3 := c1
    refine ⟨_, rfl, ?_, ?_, ?_, rfl, ?_, ?_, ?_⟩
    · rw [get_param_of_vma _ vma3 _ hD, c3, b3, a3,
        mem_get_set_other _ _ _ _ (by decide), mem_get_set_self _ hp0 _ _ (by decide)]
    · rw [get_param_of_vma _ vma3 _ hD, c3, b3, a3,
        mem_get_set_self _ (provisioned_set_param _ _ _ hp0) _ _ (by decide)]
    · show dev3.guc_sent = _
      rw [c4, b4, a4, b2, a2]; simp
    · show dev3.slpc.min_unslice_freq = _
      rw [c7, b7, a7]
    · rw [get_param_of_vma _ vma3 _ hD, get_param_of_vma _ vma _ hv, c3, b3, a3,
        mem_get_set_other _ _ _ _ (by decide), mem_get_set_other _ _ _ _ (by decide)]
    · rw [get_param_of_vma _ vma3 _ hD, get_param_of_vma _ vma _ hv, c3, b3, a3,
        mem_get_set_other _ _ _ _ (by decide), mem_get_set_other _ _ _ _ (by decide)]
  · intro hok
    obtain ⟨vma1, a1, a2, a3, a4, -, a6, a7, -, -, -⟩ := set_param_step ext dev vma
      SLPC_PARAM_GLOBAL_MIN_GT_UNSLICE_FREQ_MHZ (ext.intel_gpu_freq v) hv
    obtain ⟨vma2, b1, b2, b3, b4, -, b6, b7, -, -, -⟩ := set_param_step ext _ vma1
      SLPC_PARAM_GLOBAL_MIN_GT_SLICE_FREQ_MHZ (ext.intel_gpu_freq v) a1
    obtain ⟨dev3, vma3, c0, c1, c2, c3, c4, -, c6, c7, -, -, -⟩ := enable_step ext _ vma2 b1
    unfold intel_slpc_min_freq_set
    rw [if_neg hok]
    dsimp only
    rw [c0]
    have hD : ({ dev3 with slpc := { dev3.slpc with min_unslice_freq := v } } :
        drm_i915_private).slpc.vma = some vma3 := c1
    refine ⟨_, rfl, ?_, ?_, ?_, rfl, ?_, ?_, ?_⟩
    · rw [get_param_of_vma _ vma3 _ hD, c3, b3, a3,
        mem_get_set_other _ _ _ _ (by decide), mem_get_set_self _ hp0 _ _ (by decide)]
    · rw [get_param_of_vma _ vma3 _ hD, c3, b3, a3,
        mem_get_set_self _ (provisioned_set_param _ _ _ hp0) _ _ (by decide)]
    · show dev3.guc_sent = _
      rw [c4, b4, a4, b2, a2]; simp
    · show dev3.slpc.max_unslice_freq = _
      rw [c6, b6, a6]
    · rw [get_param_of_vma _ vma3 _ hD, get_param_of_vma _ vma _ hv, c3, b3, a3,
        mem_get_set_other _ _ _ _ (by decide), mem_get_set_other _ _ _ _ (by decide)]
    · rw [get_param_of_vma _ vma3 _ hD, get_param_of_vma _ vma _ hv, c3, b3, a3,
        mem_get_set_other _ _ _ _ (by decide), mem_get_set_other _ _ _ _ (by decide)]

theorem C12_freq_set_effect_witness :
    sample_dev.slpc.vma = some sample_vma ∧ sample_vma.page.provisioned ∧
    ∃ dev1, intel_slpc_max_freq_set sample_platform sample_dev 20 = some (dev1, 0) ∧
      (intel_slpc_get_param dev1 SLPC_PARAM_GLOBAL_MAX_GT_UNSLICE_FREQ_MHZ).2 =
        some (1, 333) ∧
      (intel_slpc_get_param dev1 SLPC_PARAM_GLOBAL_MAX_GT_SLICE_FREQ_MHZ).2 = some (1, 333) ∧
      dev1.slpc.max_unslice_freq = 20 := by
  obtain ⟨dev1, h0, h1, h2, -, h4, -⟩ :=
    (C12_freq_set_effect sample_platform sample_dev sample_vma 20 rfl (by decide)).1 (by decide)
  exact ⟨rfl, by decide, dev1, h0, h1, h2, h4⟩


/-! ## Teardown -/

/-- What `intel_slpc_read_shared_data` does to the device when there is a
store: a query event when SLPC is active, nothing otherwise; the copy is the
store afterwards. -/
theorem read_shared_data_step (ext : slpc_platform) (dev : drm_i915_private) (vma : i915_vma)
    (hv : dev.slpc.vma = some vma) :
    ∃ dev1 vma1, intel_slpc_read_shared_data ext dev = some (dev1, vma1.page) ∧
      dev1.slpc.vma = some vma1 ∧ vma1.page.host_part = vma.page.host_part ∧
      dev1.warn_count = dev.warn_count ∧ dev1.slpc.active = dev.slpc.active ∧
      dev1.guc_sent = dev.guc_sent ++
        (if dev.slpc.active then [offset_request SLPC_EVENT_QUERY_TASK_STATE vma.ggtt_offset]
         else []) := by
  unfold intel_slpc_read_shared_data intel_slpc_query_task_state
  cases hact : dev.slpc.active with
  | false =>
    simp only [Bool.false_eq_true, if_false, hv]
    exact ⟨dev, vma, rfl, hv, rfl, rfl, hact, by simp⟩
  | true =>
    obtain ⟨errors, h⟩ := offset_event_eq ext dev vma SLPC_EVENT_QUERY_TASK_STATE hv
    simp only [eq_self_iff_true, if_true, host2guc_slpc_query_task_state, h]
    exact ⟨_, ⟨vma.ggtt_offset, _⟩, rfl, rfl, rfl, rfl, hact, rfl⟩

/-- Claim C13, counterexample: on the active sample device, whose store reports
`Running`, `intel_slpc_cleanup` records a warning and releases the buffer all
the same. -/
theorem C13_cleanup_counterexample :
    sample_active_dev.slpc.vma.map (fun v => v.page.global_state) =
      some SLPC_GLOBAL_STATE_RUNNING ∧
    SLPC_GLOBAL_STATE_RUNNING ≠ SLPC_GLOBAL_STATE_NOT_RUNNING ∧
    ∃ dev1, intel_slpc_cleanup sample_platform sample_active_dev = some dev1 ∧
      dev1.slpc.vma = none ∧ dev1.warn_count = sample_active_dev.warn_count + 1 :=
  ⟨rfl, by decide, _, rfl, rfl, rfl⟩

/-- Claim C13, amended: `intel_slpc_cleanup` (on a device with a shared store)
releases the backing memory whatever `global_state` it observes; when the
observed state is not NotRunning it records a warning (`WARN_ON`) before
releasing, and when it is NotRunning it releases without a warning. -/
theorem C13_cleanup_releases (ext : slpc_platform) (dev : drm_i915_private) (vma : i915_vma)
    (hv : dev.slpc.vma = some vma) :
    ∃ dev0 data dev1, intel_slpc_read_shared_data ext dev = some (dev0, data) ∧
      intel_slpc_cleanup ext dev = some dev1 ∧ dev1.slpc.vma = none ∧
      dev1.warn_count =
        dev.warn_count + if data.global_state = SLPC_GLOBAL_STATE_NOT_RUNNING then 0 else 1 := by
  obtain ⟨dev0, vma0, h0, -, -, hw, -, -⟩ := read_shared_data_step ext dev vma hv
  have hc : intel_slpc_cleanup ext dev =
      some { WARN_ON (decide (vma0.page.global_state ≠ SLPC_GLOBAL_STATE_NOT_RUNNING)) dev0 with
        slpc := { (WARN_ON (decide (vma0.page.global_state ≠ SLPC_GLOBAL_STATE_NOT_RUNNING))
          dev0).slpc with vma := none } } := by
    unfold intel_slpc_cleanup
    rw [h0]
  refine ⟨dev0, vma0.page, _, h0, hc, rfl, ?_⟩
  · show (WARN_ON _ dev0).warn_count = _
    rw [WARN_ON_warn_count, hw]
    by_cases hg : vma0.page.global_state = SLPC_GLOBAL_STATE_NOT_RUNNING <;> simp [hg]

theorem C13_cleanup_releases_witness :
    sample_dev.slpc.vma = some sample_vma ∧
    ∃ dev1, intel_slpc_cleanup sample_platform sample_dev = some dev1 ∧
      dev1.slpc.vma = none ∧ dev1.warn_count = sample_dev.warn_count + 0 := by
  obtain ⟨dev0, data, dev1, h0, h1, h2, h3⟩ :=
    C13_cleanup_releases sample_platform sample_dev sample_vma rfl
  have e0 : intel_slpc_read_shared_data sample_platform sample_dev =
      some (sample_dev, sample_vma.page) := rfl
  rw [e0] at h0
  cases h0
  exact ⟨rfl, dev1, h1, h2, h3⟩

/-! ## Events of the parameter coordinator -/

/-- Claim C14, counterexample: on the initialised (inactive) sample device
`intel_slpc_set_param` and `intel_slpc_unset_param` send their one event and
nothing else: no Reset follows and SLPC is not enabled. -/
theorem C14_no_reset_counterexample :
    sample_dev.guc_sent = [] ∧ sample_dev.slpc.active = false ∧
    (intel_slpc_set_param sample_platform sample_dev 7 900).guc_sent =
      [parameter_set_request 7 900] ∧
    (intel_slpc_set_param sample_platform sample_dev 7 900).slpc.active = false ∧
    (intel_slpc_unset_param sample_platform sample_dev 6).guc_sent =
      [parameter_unset_request 6] ∧
    (intel_slpc_unset_param sample_platform sample_dev 6).slpc.active = false :=
  ⟨rfl, rfl, rfl, rfl, rfl, rfl⟩

theorem ctl_write_out_sent (dev : drm_i915_private) (offp len : Nat) (ret : Int) :
    ∃ r, (if ret < 0 then some (dev, offp, ret) else some (dev, offp + len, (len : Int))) =
      some (dev, r) := by
  split <;> exact ⟨_, rfl⟩

/-- Claim C14, amended: on a device with a shared store, for every id and value
and whatever the transport answers, `intel_slpc_set_param(id, value)` mutates
the store and then emits exactly one ParameterSet event with arguments
`[id, value]` (the firmware answers on the mutated store), and
`intel_slpc_unset_param(id)` likewise exactly one ParameterUnset event with
argument `[id]`; neither touches the active flag. The Reset event follows when
the caller runs `intel_slpc_enable`: for an id outside the task range and below
`SLPC_MAX_PARAM`, the `write` and `revert` commands of `slpc_param_ctl_write`
send the parameter event and then one Reset event. -/
theorem C14_param_events (ext : slpc_platform) (dev : drm_i915_private) (vma : i915_vma)
    (id value : Nat) (hv : dev.slpc.vma = some vma) :
    ((intel_slpc_set_param ext dev id value).guc_sent =
        dev.guc_sent ++ [parameter_set_request id value] ∧
      (intel_slpc_set_param ext dev id value).slpc.active = dev.slpc.active ∧
      (intel_slpc_set_param ext dev id value).slpc.vma =
        some { vma with page := { slpc_mem_set_param vma.page id value with
          global_state :=
            (ext.firmware (dev.guc_sent ++ [parameter_set_request id value])
              (some (slpc_mem_set_param vma.page id value))).global_state
          task_state_data :=
            (ext.firmware (dev.guc_sent ++ [parameter_set_request id value])
              (some (slpc_mem_set_param vma.page id value))).task_state_data } }) ∧
    ((intel_slpc_unset_param ext dev id).guc_sent =
        dev.guc_sent ++ [parameter_unset_request id] ∧
      (intel_slpc_unset_param ext dev id).slpc.active = dev.slpc.active ∧
      (intel_slpc_unset_param ext dev id).slpc.vma =
        some { vma with page := { slpc_mem_unset_param vma.page id with
          global_state :=
            (ext.firmware (dev.guc_sent ++ [parameter_unset_request id])
              (some (slpc_mem_unset_param vma.page id))).global_state
          task_state_data :=
            (ext.firmware (dev.guc_sent ++ [parameter_unset_request id])
              (some (slpc_mem_unset_param vma.page id))).task_state_data } }) ∧
    (∀ (len offp : Nat) (ret : Int), 0 < len → len ≤ 40 →
      SLPC_PARAM_TASK_DISABLE_DCC < id → id < SLPC_MAX_PARAM →
      ∃ dev1 r, slpc_param_ctl_write ext dev len
          { ret := ret, op := some "write", id := id, value := value } offp = some (dev1, r) ∧
        dev1.guc_sent = dev.guc_sent ++
          [parameter_set_request id value, offset_request SLPC_EVENT_RESET vma.ggtt_offset]) ∧
    (∀ (len offp : Nat) (ret : Int), 0 < len → len ≤ 40 →
      SLPC_PARAM_TASK_DISABLE_DCC < id → id < SLPC_MAX_PARAM →
      ∃ dev1 r, slpc_param_ctl_write ext dev len
          { ret := ret, op := some "revert", id := id, value := value } offp = some (dev1, r) ∧
        dev1.guc_sent = dev.guc_sent ++
          [parameter_unset_request id, offset_request SLPC_EVENT_RESET vma.ggtt_offset]) := by
  refine ⟨?_, ?_, ?_, ?_⟩
  · obtain ⟨errors, h⟩ := set_param_eq ext dev vma id value hv
    rw [h]
    exact ⟨rfl, rfl, rfl⟩
  · obtain ⟨errors, h⟩ := unset_param_eq ext dev vma id hv
    rw [h]
    exact ⟨rfl, rfl, rfl⟩
  · intro len offp ret hlen hlen2 hlo hhi
    have h0 : ¬ len = 0 := by omega
    have h40 : ¬ len > 40 := by omega
    have hmax : ¬ id ≥ SLPC_MAX_PARAM := by omega
    have htask : ¬ (id ≥ SLPC_PARAM_TASK_ENABLE_GTPERF ∧ id ≤ SLPC_PARAM_TASK_DISABLE_DCC) := by
      omega
    obtain ⟨vma1, a1, a2, -, a4, -⟩ :=
      set_param_step ext (intel_runtime_pm_get dev) vma id value hv
    obtain ⟨dev2, vma2, c0, -, -, -, c4, -⟩ := enable_step ext _ vma1 a1
    unfold slpc_param_ctl_write
    simp only [h0, h40, hmax, htask, if_false]
    simp only [show ¬ ("write" = "read") by decide, if_false, true_or, if_true, c0]
    obtain ⟨r, hr⟩ := ctl_write_out_sent (intel_runtime_pm_put dev2) offp len ret
    refine ⟨intel_runtime_pm_put dev2, r, hr, ?_⟩
    show dev2.guc_sent = _
    rw [c4, a4, a2]
    show dev.guc_sent ++ _ ++ _ = _
    simp
  · intro len offp ret hlen hlen2 hlo hhi
    have h0 : ¬ len = 0 := by omega
    have h40 : ¬ len > 40 := by omega
    have hmax : ¬ id ≥ SLPC_MAX_PARAM := by omega
    have htask : ¬ (id ≥ SLPC_PARAM_TASK_ENABLE_GTPERF ∧ id ≤ SLPC_PARAM_TASK_DISABLE_DCC) := by
      omega
    obtain ⟨vma1, a1, a2, -, a4, -⟩ :=
      unset_param_step ext (intel_runtime_pm_get dev) vma id hv
    obtain ⟨dev2, vma2, c0, -, -, -, c4, -⟩ := enable_step ext _ vma1 a1
    unfold slpc_param_ctl_write
    simp only [h0, h40, hmax, htask, if_false]
    simp only [show ¬ ("revert" = "read") by decide, show ¬ ("revert" = "write") by decide,
      if_false, or_true, if_true, c0]
    obtain ⟨r, hr⟩ := ctl_write_out_sent (intel_runtime_pm_put dev2) offp len ret
    refine ⟨intel_runtime_pm_put dev2, r, hr, ?_⟩
    show dev2.guc_sent = _
    rw [c4, a4, a2]
    show dev.guc_sent ++ _ ++ _ = _
    simp

theorem C14_param_events_witness :
    sample_dev.slpc.vma = some sample_vma ∧
    (intel_slpc_set_param sample_failing_platform sample_dev 1 1).guc_sent =
      sample_dev.guc_sent ++ [parameter_set_request 1 1] ∧
    (intel_slpc_set_param sample_failing_platform sample_dev 1 1).drm_error_log = [(7, -5)] ∧
    (intel_slpc_unset_param sample_failing_platform sample_dev 0).guc_sent =
      sample_dev.guc_sent ++ [parameter_unset_request 0] ∧
    (0 < 11 ∧ 11 ≤ 40 ∧ SLPC_PARAM_TASK_DISABLE_DCC < 7 ∧ 7 < SLPC_MAX_PARAM) ∧
    ∃ dev1 r, slpc_param_ctl_write sample_platform sample_dev 11
        { ret := 0, op := some "write", id := 7, value := 900 } 0 = some (dev1, r) ∧
      dev1.guc_sent = sample_dev.guc_sent ++
        [parameter_set_request 7 900, offset_request SLPC_EVENT_RESET sample_vma.ggtt_offset] :=
  ⟨rfl,
   (C14_param_events sample_failing_platform sample_dev sample_vma 1 1 rfl).1.1,
   rfl,
   (C14_param_events sample_failing_platform sample_dev sample_vma 0 0 rfl).2.1.1,
   by decide,
   (C14_param_events sample_platform sample_dev sample_vma 7 900 rfl).2.2.1 11 0 0
     (by decide) (by decide) (by decide) (by decide)⟩

/-! ## Enable and disable -/

/-- Claim C15: from any device state with a shared store, `intel_slpc_enable`
writes the saved RP_CONTROL baseline to the hardware register, writes
NotRunning into the store's `global_state` before the request goes out (the
firmware answers on the store with `global_state` NotRunning), issues exactly
one Reset event carrying the shared-data offset, and sets the active flag,
leaving the override bitmap, the override values, `shared_data_size` and
`platform_info` unchanged. -/
theorem C15_enable (ext : slpc_platform) (dev : drm_i915_private) (vma : i915_vma)
    (hv : dev.slpc.vma = some vma) :
    ∃ dev1 vma1, intel_slpc_enable ext dev = some dev1 ∧
      dev1.GEN6_RP_CONTROL = dev.slpc.rp_control ∧
      dev1.guc_sent = dev.guc_sent ++ [offset_request SLPC_EVENT_RESET vma.ggtt_offset] ∧
      dev1.slpc.active = true ∧
      dev1.slpc.vma = some vma1 ∧
      vma1.page.override_parameters_set_bits = vma.page.override_parameters_set_bits ∧
      vma1.page.override_parameters_values = vma.page.override_parameters_values ∧
      vma1.page.platform_info = vma.page.platform_info ∧
      vma1.page.shared_data_size = vma.page.shared_data_size ∧
      vma1.page.global_state =
        (ext.firmware (dev.guc_sent ++ [offset_request SLPC_EVENT_RESET vma.ggtt_offset])
          (some { vma.page with global_state := SLPC_GLOBAL_STATE_NOT_RUNNING })).global_state := by
  obtain ⟨errors, h⟩ := enable_eq ext dev vma hv
  rw [h]
  exact ⟨_, ⟨vma.ggtt_offset, _⟩, rfl, rfl, rfl, rfl, rfl, rfl, rfl, rfl, rfl, rfl⟩

theorem C15_enable_witness :
    sample_active_dev.slpc.vma ≠ none ∧
    ∃ dev1, intel_slpc_enable sample_platform sample_active_dev = some dev1 ∧
      dev1.GEN6_RP_CONTROL = 9 ∧
      dev1.guc_sent = [offset_request SLPC_EVENT_RESET 0x2000] ∧
      dev1.slpc.active = true ∧
      dev1.slpc.vma.map (fun v => v.page.global_state) = some SLPC_GLOBAL_STATE_NOT_RUNNING := by
  obtain ⟨dev1, vma1, h0, h1, h2, h3, h4, -, -, -, -, h9⟩ :=
    C15_enable sample_platform sample_active_dev _ rfl
  refine ⟨by decide, dev1, h0, h1, h2, h3, ?_⟩
  rw [h4]
  exact congrArg some h9

/-- Claim C16: from any device state with a shared store, whatever the firmware
answers (a failing Shutdown included), `intel_slpc_disable` issues exactly one
Shutdown event carrying the shared-data offset and leaves the active flag
false; the host writes nothing to the store (the firmware answers on the store
as it was, and the host-written part is unchanged); a following
`intel_slpc_task_status` or `intel_slpc_task_control` fails with `-ENODEV`. -/
theorem C16_disable (ext : slpc_platform) (dev : drm_i915_private) (vma : i915_vma)
    (hv : dev.slpc.vma = some vma) :
    ∃ dev1 vma1, intel_slpc_disable ext dev = some dev1 ∧
      dev1.guc_sent = dev.guc_sent ++ [offset_request SLPC_EVENT_SHUTDOWN vma.ggtt_offset] ∧
      dev1.slpc.active = false ∧
      dev1.slpc.vma = some vma1 ∧
      vma1.page.host_part = vma.page.host_part ∧
      vma1.page.global_state =
        (ext.firmware (dev.guc_sent ++ [offset_request SLPC_EVENT_SHUTDOWN vma.ggtt_offset])
          (some vma.page)).global_state ∧
      vma1.page.task_state_data =
        (ext.firmware (dev.guc_sent ++ [offset_request SLPC_EVENT_SHUTDOWN vma.ggtt_offset])
          (some vma.page)).task_state_data ∧
      (∀ val enable_id disable_id,
        intel_slpc_task_status dev1 val enable_id disable_id = some (dev1, val, -ENODEV)) ∧
      (∀ ext2 t enable_id disable_id,
        intel_slpc_task_control ext2 dev1 t enable_id disable_id = some (dev1, -ENODEV)) := by
  obtain ⟨errors, h⟩ := offset_event_eq ext dev vma SLPC_EVENT_SHUTDOWN hv
  unfold intel_slpc_disable host2guc_slpc_shutdown
  rw [h]
  refine ⟨_, ⟨vma.ggtt_offset, _⟩, rfl, rfl, rfl, rfl, rfl, rfl, rfl, ?_, ?_⟩
  · intro val enable_id disable_id
    unfold intel_slpc_task_status
    simp
  · intro ext2 t enable_id disable_id
    unfold intel_slpc_task_control
    simp

theorem C16_disable_witness :
    sample_active_dev.slpc.vma ≠ none ∧
    ∃ dev1, intel_slpc_disable sample_failing_platform sample_active_dev = some dev1 ∧
      dev1.guc_sent = [offset_request SLPC_EVENT_SHUTDOWN 0x2000] ∧
      dev1.slpc.active = false ∧
      intel_slpc_task_status dev1 (some 77) 0 1 = some (dev1, some 77, -ENODEV) := by
  obtain ⟨dev1, vma1, h0, h1, h2, -, -, -, -, h7, -⟩ :=
    C16_disable sample_failing_platform sample_active_dev _ rfl
  exact ⟨by decide, dev1, h0, h1, h2, h7 _ _ _⟩


/-! ## No stale values -/

theorem no_stale_set_param (data : slpc_shared_data) (hp : data.provisioned) (i v : Nat)
    (hi : i < SLPC_MAX_PARAM) (h : no_stale_value data) :
    no_stale_value (slpc_mem_set_param data i v) := by
  obtain ⟨h1, h2⟩ := provisioned_bound data hp i hi
  intro j hj hclear
  rw [override_set_set_param] at hclear
  rw [override_value_set_param]
  by_cases hij : i = j
  · subst hij
    simp [h1] at hclear
  · simp only [hij, false_and, if_false] at hclear ⊢
    exact h j hj hclear

theorem no_stale_unset_param (data : slpc_shared_data) (hp : data.provisioned) (i : Nat)
    (hi : i < SLPC_MAX_PARAM) (h : no_stale_value data) :
    no_stale_value (slpc_mem_unset_param data i) := by
  obtain ⟨h1, h2⟩ := provisioned_bound data hp i hi
  intro j hj hclear
  rw [override_set_unset_param] at hclear
  rw [override_value_unset_param]
  by_cases hij : i = j
  · subst hij
    simp [h2]
  · simp only [hij, false_and, if_false] at hclear ⊢
    exact h j hj hclear

theorem mem_task_control_invalid (data : slpc_shared_data) (val e d : Nat)
    (h0 : ¬ val = SLPC_PARAM_TASK_DEFAULT) (h1 : ¬ val = SLPC_PARAM_TASK_ENABLED)
    (h2 : ¬ val = SLPC_PARAM_TASK_DISABLED) :
    slpc_mem_task_control data val e d = (data, -EINVAL) := by
  simp [slpc_mem_task_control, h0, h1, h2]

theorem no_stale_apply (data : slpc_shared_data) (op : slpc_mem_op) (hp : data.provisioned)
    (hr : op.in_range = true) (h : no_stale_value data) :
    (op.apply data).provisioned ∧ no_stale_value (op.apply data) := by
  cases op with
  | set_param id value =>
    simp only [slpc_mem_op.in_range, decide_eq_true_eq] at hr
    exact ⟨provisioned_set_param _ _ _ hp, no_stale_set_param _ hp _ _ hr h⟩
  | unset_param id =>
    simp only [slpc_mem_op.in_range, decide_eq_true_eq] at hr
    exact ⟨provisioned_unset_param _ _ hp, no_stale_unset_param _ hp _ hr h⟩
  | task_control val enable_id disable_id =>
    simp only [slpc_mem_op.in_range, Bool.and_eq_true, decide_eq_true_eq] at hr
    obtain ⟨he, hd⟩ := hr
    show (slpc_mem_task_control data val enable_id disable_id).1.provisioned ∧
      no_stale_value (slpc_mem_task_control data val enable_id disable_id).1
    by_cases h0 : val = SLPC_PARAM_TASK_DEFAULT
    · subst h0
      rw [mem_task_control_default]
      exact ⟨provisioned_unset_param _ _ (provisioned_unset_param _ _ hp),
        no_stale_unset_param _ (provisioned_unset_param _ _ hp) _ hd
          (no_stale_unset_param _ hp _ he h)⟩
    · by_cases h1 : val = SLPC_PARAM_TASK_ENABLED
      · subst h1
        rw [mem_task_control_enabled]
        exact ⟨provisioned_unset_param _ _ (provisioned_set_param _ _ _ hp),
          no_stale_unset_param _ (provisioned_set_param _ _ _ hp) _ hd
            (no_stale_set_param _ hp _ _ he h)⟩
      · by_cases h2 : val = SLPC_PARAM_TASK_DISABLED
        · subst h2
          rw [mem_task_control_disabled]
          exact ⟨provisioned_unset_param _ _ (provisioned_set_param _ _ _ hp),
            no_stale_unset_param _ (provisioned_set_param _ _ _ hp) _ he
              (no_stale_set_param _ hp _ _ hd h)⟩
        · rw [mem_task_control_invalid data val enable_id disable_id h0 h1 h2]
          exact ⟨hp, h⟩

theorem no_stale_run (ops : List slpc_mem_op) :
    ∀ data : slpc_shared_data, data.provisioned → no_stale_value data →
      (∀ op ∈ ops, op.in_range = true) →
      (slpc_mem_run data ops).provisioned ∧ no_stale_value (slpc_mem_run data ops) := by
  induction ops with
  | nil => intro data hp h _; exact ⟨hp, h⟩
  | cons op ops ih =>
    intro data hp h hr
    obtain ⟨hp1, h1⟩ := no_stale_apply data op hp (hr op (List.mem_cons_self _ _)) h
    exact ih (op.apply data) hp1 h1 (fun o ho => hr o (List.mem_cons_of_mem _ ho))

theorem init_page_provisioned (ext : slpc_platform) (dev : drm_i915_private) (sku : Nat) :
    (slpc_shared_data_init_page ext dev sku).provisioned := by
  unfold slpc_shared_data.provisioned
  rw [init_page_bits, init_page_values]
  simp [SLPC_MAX_PARAM]

theorem init_page_no_stale (ext : slpc_platform) (dev : drm_i915_private) (sku : Nat) :
    no_stale_value (slpc_shared_data_init_page ext dev sku) := by
  intro id hid hclear
  unfold spec_override_set at hclear
  unfold spec_override_value
  rw [init_page_bits] at hclear
  rw [init_page_values]
  unfold SLPC_MAX_PARAM at hid
  interval_cases id <;> first | rfl | exact absurd hclear (by decide)

/-- Claim C17: in every store reached from the store written by
`slpc_shared_data_init` through any finite sequence of `slpc_mem_set_param`,
`slpc_mem_unset_param` and `slpc_mem_task_control` calls with ids below
`SLPC_MAX_PARAM`, every id below `SLPC_MAX_PARAM` whose override bit is clear
has override value 0. -/
theorem C17_no_stale_value (ext : slpc_platform) (dev : drm_i915_private) (sku : Nat)
    (ops : List slpc_mem_op) (hr : ∀ op ∈ ops, op.in_range = true) (id : Nat)
    (hid : id < SLPC_MAX_PARAM)
    (hclear : spec_override_set (slpc_mem_run (slpc_shared_data_init_page ext dev sku) ops) id
      = false) :
    spec_override_value (slpc_mem_run (slpc_shared_data_init_page ext dev sku) ops) id = 0 :=
  (no_stale_run ops _ (init_page_provisioned ext dev sku) (init_page_no_stale ext dev sku)
    hr).2 id hid hclear

theorem C17_no_stale_value_witness :
    spec_override_set (slpc_mem_run (slpc_shared_data_init_page sample_platform sample_raw_dev 5)
      [.set_param 7 900, .task_control SLPC_PARAM_TASK_DISABLED 0 1, .unset_param 7]) 7 = false ∧
    spec_override_value (slpc_mem_run (slpc_shared_data_init_page sample_platform sample_raw_dev 5)
      [.set_param 7 900, .task_control SLPC_PARAM_TASK_DISABLED 0 1, .unset_param 7]) 7 = 0 :=
  ⟨rfl, C17_no_stale_value sample_platform sample_raw_dev 5
    [.set_param 7 900, .task_control SLPC_PARAM_TASK_DISABLED 0 1, .unset_param 7]
    (by decide) 7 (by decide) rfl⟩

/-! ## The store-level tri-state write -/

/-- Claim C18: `slpc_mem_task_control(val, enable_id, disable_id)` returns 0
exactly when `val` is Default, Enabled or Disabled; for every other `val` it
returns `-EINVAL` and leaves the store unchanged; on success, on a provisioned
store with distinct ids below `SLPC_MAX_PARAM`, the pair ends in the shape of
`val`: both clear for Default, enable set to 1 and disable clear for Enabled,
disable set to 1 and enable clear for Disabled, so never with both set. -/
theorem C18_mem_task_control (data : slpc_shared_data) (val enable_id disable_id : Nat)
    (hp : data.provisioned) (he : enable_id < SLPC_MAX_PARAM)
    (hd : disable_id < SLPC_MAX_PARAM) (hne : enable_id ≠ disable_id) :
    ((slpc_mem_task_control data val enable_id disable_id).2 = 0 ↔
      (val = SLPC_PARAM_TASK_DEFAULT ∨ val = SLPC_PARAM_TASK_ENABLED ∨
        val = SLPC_PARAM_TASK_DISABLED)) ∧
    (¬ (val = SLPC_PARAM_TASK_DEFAULT ∨ val = SLPC_PARAM_TASK_ENABLED ∨
        val = SLPC_PARAM_TASK_DISABLED) →
      slpc_mem_task_control data val enable_id disable_id = (data, -EINVAL)) ∧
    (val = SLPC_PARAM_TASK_DEFAULT →
      slpc_mem_get_param (slpc_mem_task_control data val enable_id disable_id).1 enable_id =
        (0, 0) ∧
      slpc_mem_get_param (slpc_mem_task_control data val enable_id disable_id).1 disable_id =
        (0, 0)) ∧
    (val = SLPC_PARAM_TASK_ENABLED →
      slpc_mem_get_param (slpc_mem_task_control data val enable_id disable_id).1 enable_id =
        (1, 1) ∧
      slpc_mem_get_param (slpc_mem_task_control data val enable_id disable_id).1 disable_id =
        (0, 0)) ∧
    (val = SLPC_PARAM_TASK_DISABLED →
      slpc_mem_get_param (slpc_mem_task_control data val enable_id disable_id).1 enable_id =
        (0, 0) ∧
      slpc_mem_get_param (slpc_mem_task_control data val enable_id disable_id).1 disable_id =
        (1, 1)) := by
  have hne2 : disable_id ≠ enable_id := fun h => hne h.symm
  refine ⟨?_, ?_, ?_, ?_, ?_⟩
  · by_cases h0 : val = SLPC_PARAM_TASK_DEFAULT
    · subst h0
      rw [mem_task_control_default]
      simp
    · by_cases h1 : val = SLPC_PARAM_TASK_ENABLED
      · subst h1
        rw [mem_task_control_enabled]
        simp
      · by_cases h2 : val = SLPC_PARAM_TASK_DISABLED
        · subst h2
          rw [mem_task_control_disabled]
          simp
        · rw [mem_task_control_invalid data val enable_id disable_id h0 h1 h2]
          simp [h0, h1, h2, EINVAL]
  · intro h
    simp only [not_or] at h
    exact mem_task_control_invalid data val enable_id disable_id h.1 h.2.1 h.2.2
  · intro h
    subst h
    rw [mem_task_control_default]
    exact ⟨by rw [mem_get_unset_other _ _ _ hne2,
                mem_get_unset_self _ hp _ he],
           mem_get_unset_self _ (provisioned_unset_param _ _ hp) _ hd⟩
  · intro h
    subst h
    rw [mem_task_control_enabled]
    exact ⟨by rw [mem_get_unset_other _ _ _ hne2, mem_get_set_self _ hp _ _ he],
           mem_get_unset_self _ (provisioned_set_param _ _ _ hp) _ hd⟩
  · intro h
    subst h
    rw [mem_task_control_disabled]
    exact ⟨mem_get_unset_self _ (provisioned_set_param _ _ _ hp) _ he,
           by rw [mem_get_unset_other _ _ _ hne, mem_get_set_self _ hp _ _ hd]⟩

theorem C18_mem_task_control_witness :
    sample_vma.page.provisioned ∧ 4 ≠ 5 ∧
    slpc_mem_task_control sample_vma.page 7 4 5 = (sample_vma.page, -EINVAL) ∧
    slpc_mem_get_param (slpc_mem_task_control sample_vma.page SLPC_PARAM_TASK_ENABLED 4 5).1 4 =
      (1, 1) :=
  ⟨by decide, by decide,
   (C18_mem_task_control sample_vma.page 7 4 5 (by decide) (by decide) (by decide)
      (by decide)).2.1 (by decide),
   ((C18_mem_task_control sample_vma.page SLPC_PARAM_TASK_ENABLED 4 5 (by decide) (by decide)
      (by decide) (by decide)).2.2.2.1 rfl).1⟩


/-! ## Malformed text commands -/

/-- Claim C19, the code at failing inputs, on the initialised sample device with
the local `value` holding 12345 before the parse.
The command `write 7` (no value) parses without error and is carried out:
parameter 7 is overridden with the stale 12345, a ParameterSet and a Reset
event are sent, and the write returns its length as for a success.
The command `write 7 abc` makes the parse fail with `-EINVAL`, which is
returned, but only after the same override and the same two events.
The command `write abc 5`, the local `id` holding 9, makes the parse fail
before `id` and `value` are stored: parameter 9 is overridden with the stale
12345 and `-EINVAL` is returned.
The one-word command `bogus` leaves `op` `NULL` and, the local `id` holding 3
(below `SLPC_MAX_PARAM`), the comparison of `op` dereferences it. -/
theorem C19_malformed_commands_act :
    (∃ dev1, slpc_param_ctl_write_words sample_platform sample_dev 7 decimal_kstrtou32 2
        ["write", "7"] 3 12345 0 = some (dev1, 7, 7) ∧
      (intel_slpc_get_param sample_dev 7).2 = some (0, 0) ∧
      (intel_slpc_get_param dev1 7).2 = some (1, 12345) ∧
      dev1.guc_sent =
        [parameter_set_request 7 12345, offset_request SLPC_EVENT_RESET 0x2000]) ∧
    (∃ dev1, slpc_param_ctl_write_words sample_platform sample_dev 11 decimal_kstrtou32 3
        ["write", "7", "abc"] 3 12345 0 = some (dev1, 0, -EINVAL) ∧
      (intel_slpc_get_param dev1 7).2 = some (1, 12345) ∧
      dev1.guc_sent =
        [parameter_set_request 7 12345, offset_request SLPC_EVENT_RESET 0x2000]) ∧
    (∃ dev1, slpc_param_ctl_write_words sample_platform sample_dev 11 decimal_kstrtou32 3
        ["write", "abc", "5"] 9 12345 0 = some (dev1, 0, -EINVAL) ∧
      (intel_slpc_get_param sample_dev 9).2 = some (0, 0) ∧
      (intel_slpc_get_param dev1 9).2 = some (1, 12345) ∧
      dev1.guc_sent =
        [parameter_set_request 9 12345, offset_request SLPC_EVENT_RESET 0x2000]) ∧
    slpc_param_ctl_write_words sample_platform sample_dev 5 decimal_kstrtou32 1
      ["bogus"] 3 12345 0 = none :=
  ⟨⟨_, rfl, rfl, rfl, rfl⟩, ⟨_, rfl, rfl, rfl⟩, ⟨_, rfl, rfl, rfl, rfl⟩, rfl⟩

/-! ## The Unknown classification -/

/-- Claim C20, counterexample, on the active sample device (GTPERF enabled).
After `intel_slpc_set_param` of the enable id with the value 5 only the enable
override is set, and the status is Unknown; after `intel_slpc_set_param` of the
disable id with the value 1 both overrides are set, and the status is
Disabled. -/
theorem C20_unknown_counterexample :
    ((intel_slpc_get_param (intel_slpc_set_param sample_platform sample_active_dev 0 5) 0).2 =
        some (1, 5) ∧
      (intel_slpc_get_param (intel_slpc_set_param sample_platform sample_active_dev 0 5) 1).2 =
        some (0, 0) ∧
      ∃ dev1, intel_slpc_task_status (intel_slpc_set_param sample_platform sample_active_dev 0 5)
        (some 77) 0 1 = some (dev1, some SLPC_PARAM_TASK_UNKNOWN, 0)) ∧
    ((intel_slpc_get_param (intel_slpc_set_param sample_platform sample_active_dev 1 1) 0).2 =
        some (1, 1) ∧
      (intel_slpc_get_param (intel_slpc_set_param sample_platform sample_active_dev 1 1) 1).2 =
        some (1, 1) ∧
      ∃ dev1, intel_slpc_task_status (intel_slpc_set_param sample_platform sample_active_dev 1 1)
        (some 77) 0 1 = some (dev1, some SLPC_PARAM_TASK_DISABLED, 0)) :=
  ⟨⟨rfl, rfl, _, rfl⟩, ⟨rfl, rfl, _, rfl⟩⟩

/-- Claim C20, amended: on an active device with a shared store,
`intel_slpc_task_status(enable_id, disable_id)` returns 0 with a value that is
Unknown exactly when at least one of the two overrides is set and neither the
disable override is set with value 1 nor the enable override is set with
value 1. -/
theorem C20_unknown_iff (dev : drm_i915_private) (vma : i915_vma)
    (out enable_id disable_id : Nat) (hact : dev.slpc.active = true)
    (hv : dev.slpc.vma = some vma) :
    ∃ dev1 x, intel_slpc_task_status dev (some out) enable_id disable_id =
        some (dev1, some x, 0) ∧
      (x = SLPC_PARAM_TASK_UNKNOWN ↔
        ((spec_override_set vma.page enable_id = true ∨
            spec_override_set vma.page disable_id = true) ∧
          ¬ (spec_override_set vma.page disable_id = true ∧
            spec_override_value vma.page disable_id = 1) ∧
          ¬ (spec_override_set vma.page enable_id = true ∧
            spec_override_value vma.page enable_id = 1))) := by
  obtain ⟨dev1, h1⟩ := task_status_active dev _ hact (page_view_of_vma dev vma hv) out
    enable_id disable_id
  rw [task_status_value_eq_spec, spec_task_status_host_part] at h1
  refine ⟨dev1, _, h1, ?_⟩
  unfold spec_task_status
  by_cases hd : spec_override_set vma.page disable_id = true ∧
      spec_override_value vma.page disable_id = 1
  · rw [if_pos hd]
    simp [hd, SLPC_PARAM_TASK_DISABLED, SLPC_PARAM_TASK_UNKNOWN]
  · rw [if_neg hd]
    by_cases he : spec_override_set vma.page enable_id = true ∧
        spec_override_value vma.page enable_id = 1
    · rw [if_pos he]
      simp [he, SLPC_PARAM_TASK_ENABLED, SLPC_PARAM_TASK_UNKNOWN]
    · rw [if_neg he]
      by_cases hn : spec_override_set vma.page enable_id = false ∧
          spec_override_set vma.page disable_id = false
      · rw [if_pos hn]
        simp [hn.1, hn.2, SLPC_PARAM_TASK_DEFAULT, SLPC_PARAM_TASK_UNKNOWN]
      · rw [if_neg hn]
        refine ⟨fun _ => ⟨?_, hd, he⟩, fun _ => rfl⟩
        by_contra hc
        simp only [not_or, Bool.not_eq_true] at hc
        exact hn hc

theorem C20_unknown_iff_witness :
    sample_active_dev.slpc.active = true ∧
    ∃ dev1 x, intel_slpc_task_status sample_active_dev (some 77) 0 1 =
        some (dev1, some x, 0) ∧ x ≠ SLPC_PARAM_TASK_UNKNOWN := by
  obtain ⟨dev1, x, h1, h2⟩ := C20_unknown_iff sample_active_dev _ 77 0 1 rfl rfl
  refine ⟨rfl, dev1, x, h1, ?_⟩
  intro hx
  have h3 := (h2.mp hx).2.2
  exact h3 (by decide)


/-! ## Task pairs stay consistent -/

theorem pair_consistent_host_part (data : slpc_shared_data) (e d : Nat) :
    pair_consistent data.host_part e d ↔ pair_consistent data e d := Iff.rfl

theorem mem_pairs (e d : Nat) (h : (e, d) ∈ task_pairs) :
    (e = 0 ∧ d = 1) ∨ (e = 2 ∧ d = 3) ∨ (e = 4 ∧ d = 5) := by
  simpa [task_pairs, SLPC_PARAM_TASK_ENABLE_GTPERF, SLPC_PARAM_TASK_DISABLE_GTPERF,
    SLPC_PARAM_TASK_ENABLE_BALANCER, SLPC_PARAM_TASK_DISABLE_BALANCER,
    SLPC_PARAM_TASK_ENABLE_DCC, SLPC_PARAM_TASK_DISABLE_DCC] using h

/-- The store-level tri-state write on one of the three pairs keeps every one
of the three pairs consistent. -/
theorem pair_consistent_task_control (data : slpc_shared_data) (hp : data.provisioned)
    (val e d e1 d1 : Nat) (h : (e, d) ∈ task_pairs) (h1 : (e1, d1) ∈ task_pairs)
    (hc : pair_consistent data e1 d1) :
    pair_consistent (slpc_mem_task_control data val e d).1 e1 d1 := by
  obtain ⟨hb, hvl⟩ := hp
  unfold SLPC_MAX_PARAM at hb hvl
  have hb0 : 0 < data.override_parameters_set_bits.length := by omega
  have l0 : 0 < data.override_parameters_values.length := by omega
  have l1 : 1 < data.override_parameters_values.length := by omega
  have l2 : 2 < data.override_parameters_values.length := by omega
  have l3 : 3 < data.override_parameters_values.length := by omega
  have l4 : 4 < data.override_parameters_values.length := by omega
  have l5 : 5 < data.override_parameters_values.length := by omega
  unfold pair_consistent at hc ⊢
  by_cases v0 : val = SLPC_PARAM_TASK_DEFAULT
  · subst v0
    rw [mem_task_control_default]
    rcases mem_pairs e d h with ⟨rfl, rfl⟩ | ⟨rfl, rfl⟩ | ⟨rfl, rfl⟩ <;>
    rcases mem_pairs e1 d1 h1 with ⟨rfl, rfl⟩ | ⟨rfl, rfl⟩ | ⟨rfl, rfl⟩ <;>
    first
    | (simp [override_set_unset_param, override_set_set_param, override_value_unset_param,
      override_value_set_param, length_bits_set_param, length_bits_unset_param,
      length_values_set_param, length_values_unset_param, hb0, l0, l1, l2, l3, l4, l5]; done)
    | simpa [override_set_unset_param, override_set_set_param, override_value_unset_param,
      override_value_set_param, length_bits_set_param, length_bits_unset_param,
      length_values_set_param, length_values_unset_param, hb0, l0, l1, l2, l3, l4, l5] using hc
  · by_cases v1 : val = SLPC_PARAM_TASK_ENABLED
    · subst v1
      rw [mem_task_control_enabled]
      rcases mem_pairs e d h with ⟨rfl, rfl⟩ | ⟨rfl, rfl⟩ | ⟨rfl, rfl⟩ <;>
      rcases mem_pairs e1 d1 h1 with ⟨rfl, rfl⟩ | ⟨rfl, rfl⟩ | ⟨rfl, rfl⟩ <;>
      first
      | (simp [override_set_unset_param, override_set_set_param, override_value_unset_param,
        override_value_set_param, length_bits_set_param, length_bits_unset_param,
        length_values_set_param, length_values_unset_param, hb0, l0, l1, l2, l3, l4, l5]; done)
      | simpa [override_set_unset_param, override_set_set_param, override_value_unset_param,
        override_value_set_param, length_bits_set_param, length_bits_unset_param,
        length_values_set_param, length_values_unset_param, hb0, l0, l1, l2, l3, l4, l5] using hc
    · by_cases v2 : val = SLPC_PARAM_TASK_DISABLED
      · subst v2
        rw [mem_task_control_disabled]
        rcases mem_pairs e d h with ⟨rfl, rfl⟩ | ⟨rfl, rfl⟩ | ⟨rfl, rfl⟩ <;>
        rcases mem_pairs e1 d1 h1 with ⟨rfl, rfl⟩ | ⟨rfl, rfl⟩ | ⟨rfl, rfl⟩ <;>
        first
        | (simp [override_set_unset_param, override_set_set_param, override_value_unset_param,
          override_value_set_param, length_bits_set_param, length_bits_unset_param,
          length_values_set_param, length_values_unset_param, hb0, l0, l1, l2, l3, l4, l5]; done)
        | simpa [override_set_unset_param, override_set_set_param, override_value_unset_param,
          override_value_set_param, length_bits_set_param, length_bits_unset_param,
          length_values_set_param, length_values_unset_param, hb0, l0, l1, l2, l3, l4, l5] using hc
      · rw [mem_task_control_invalid data val e d v0 v1 v2]
        exact hc

/-- One `intel_slpc_task_control` call on a device with a store returns, and the
host-written store afterwards is either the one before (SLPC inactive) or the
one the store-level tri-state write gives. -/
theorem task_control_page (ext : slpc_platform) (dev : drm_i915_private) (p : slpc_shared_data)
    (hp : page_view dev = some p) (val enable_id disable_id : Nat) :
    ∃ dev1 r, intel_slpc_task_control ext dev val enable_id disable_id = some (dev1, r) ∧
      (page_view dev1 = some p ∨
        page_view dev1 = some (slpc_mem_task_control p val enable_id disable_id).1) := by
  cases hact : dev.slpc.active with
  | false =>
    refine ⟨dev, -ENODEV, ?_, Or.inl hp⟩
    unfold intel_slpc_task_control
    simp [hact]
  | true =>
    obtain ⟨dev1, h1, -, h3⟩ := task_control_refines ext dev p hact hp val enable_id disable_id
    exact ⟨dev1, _, h1, Or.inr h3⟩

theorem provisioned_mem_task_control (data : slpc_shared_data) (hp : data.provisioned)
    (val e d : Nat) : (slpc_mem_task_control data val e d).1.provisioned := by
  by_cases v0 : val = SLPC_PARAM_TASK_DEFAULT
  · subst v0; rw [mem_task_control_default]
    exact provisioned_unset_param _ _ (provisioned_unset_param _ _ hp)
  · by_cases v1 : val = SLPC_PARAM_TASK_ENABLED
    · subst v1; rw [mem_task_control_enabled]
      exact provisioned_unset_param _ _ (provisioned_set_param _ _ _ hp)
    · by_cases v2 : val = SLPC_PARAM_TASK_DISABLED
      · subst v2; rw [mem_task_control_disabled]
        exact provisioned_unset_param _ _ (provisioned_set_param _ _ _ hp)
      · rw [mem_task_control_invalid data val e d v0 v1 v2]
        exact hp

/-- A run of task control calls on the three pairs returns and keeps the store
provisioned and the three pairs consistent. -/
theorem task_control_run_consistent (ext : slpc_platform) (calls : List (Nat × Nat × Nat)) :
    ∀ (dev : drm_i915_private) (p : slpc_shared_data), page_view dev = some p →
      p.provisioned → (∀ pair ∈ task_pairs, pair_consistent p pair.1 pair.2) →
      (∀ c ∈ calls, (c.2.1, c.2.2) ∈ task_pairs) →
      ∃ dev1 q, task_control_run ext dev calls = some dev1 ∧ page_view dev1 = some q ∧
        q.provisioned ∧ ∀ pair ∈ task_pairs, pair_consistent q pair.1 pair.2 := by
  induction calls with
  | nil =>
    intro dev p hp hprov hc _
    exact ⟨dev, p, rfl, hp, hprov, hc⟩
  | cons c calls ih =>
    intro dev p hp hprov hc hcalls
    obtain ⟨val, e, d⟩ := c
    have hpair : (e, d) ∈ task_pairs := hcalls (val, e, d) (List.mem_cons_self _ _)
    obtain ⟨dev1, r, h1, h2⟩ := task_control_page ext dev p hp val e d
    have hrest : ∀ c ∈ calls, (c.2.1, c.2.2) ∈ task_pairs :=
      fun c hc => hcalls c (List.mem_cons_of_mem _ hc)
    have hrun : task_control_run ext dev ((val, e, d) :: calls) =
        task_control_run ext dev1 calls := by
      simp only [task_control_run, h1]
    rw [hrun]
    rcases h2 with h2 | h2
    · exact ih dev1 p h2 hprov hc hrest
    · exact ih dev1 _ h2 (provisioned_mem_task_control p hprov val e d)
        (fun pair hmem => pair_consistent_task_control p hprov val e d pair.1 pair.2 hpair
          hmem (hc pair hmem)) hrest

theorem init_page_pairs_consistent (ext : slpc_platform) (dev : drm_i915_private) (sku : Nat) :
    ∀ pair ∈ task_pairs, pair_consistent (slpc_shared_data_init_page ext dev sku) pair.1 pair.2 := by
  intro pair hmem
  obtain ⟨e, d⟩ := pair
  unfold pair_consistent spec_override_set spec_override_value
  rw [init_page_bits, init_page_values]
  rcases mem_pairs e d hmem with ⟨rfl, rfl⟩ | ⟨rfl, rfl⟩ | ⟨rfl, rfl⟩ <;>
  (dsimp only
   refine ⟨by decide, ?_, ?_⟩ <;> intro h <;> first | rfl | exact absurd h (by decide))

theorem spec_task_status_ne_unknown (data : slpc_shared_data) (e d : Nat)
    (hc : pair_consistent data e d) : spec_task_status data e d ≠ SLPC_PARAM_TASK_UNKNOWN := by
  obtain ⟨h1, h2, h3⟩ := hc
  unfold spec_task_status
  cases he : spec_override_set data e <;> cases hd : spec_override_set data d
  · simp [SLPC_PARAM_TASK_DEFAULT, SLPC_PARAM_TASK_UNKNOWN]
  · simp [h3 hd, SLPC_PARAM_TASK_DISABLED, SLPC_PARAM_TASK_UNKNOWN]
  · simp [h2 he, SLPC_PARAM_TASK_ENABLED, SLPC_PARAM_TASK_UNKNOWN]
  · exact absurd ⟨he, hd⟩ h1

/-- Claim C21: start from any device whose shared store has just been written by
`slpc_shared_data_init` (SLPC active or not) and run any finite sequence of
`intel_slpc_task_control` calls on the three task pairs, with any tri-state
value, valid or not. Every call returns, and in the state reached each of the
three pairs has at most one of its overrides set, a set override having value
1; `intel_slpc_task_status` on the pair then returns 0 with a value other than
Unknown when SLPC is active, and `-ENODEV` with the output untouched when it is
not. -/
theorem C21_pairs_never_unknown (ext : slpc_platform) (dev0 : drm_i915_private)
    (vma0 : i915_vma) (calls : List (Nat × Nat × Nat)) (hv : dev0.slpc.vma = some vma0)
    (hcalls : ∀ c ∈ calls, (c.2.1, c.2.2) ∈ task_pairs) :
    ∃ dev dev1 vma1, slpc_shared_data_init ext dev0 = some dev ∧
      task_control_run ext dev calls = some dev1 ∧ dev1.slpc.vma = some vma1 ∧
      ∀ pair ∈ task_pairs,
        pair_consistent vma1.page pair.1 pair.2 ∧
        (dev1.slpc.active = true → ∀ out, ∃ dev2 x,
          intel_slpc_task_status dev1 (some out) pair.1 pair.2 = some (dev2, some x, 0) ∧
          x ≠ SLPC_PARAM_TASK_UNKNOWN) ∧
        (dev1.slpc.active = false → ∀ out,
          intel_slpc_task_status dev1 (some out) pair.1 pair.2 =
            some (dev1, some out, -ENODEV)) := by
  have hinit : ∃ dev, slpc_shared_data_init ext dev0 = some dev ∧
      page_view dev = some
        (slpc_shared_data_init_page ext dev0 (slpc_get_platform_sku ext dev0).2).host_part := by
    unfold slpc_shared_data_init
    rw [hv]
    refine ⟨_, rfl, ?_⟩
    simp [page_view, set_page, slpc_get_platform_sku, WARN_ON_slpc, hv]
  obtain ⟨dev, hd0, hd1⟩ := hinit
  obtain ⟨dev1, q, hrun, hq, -, hcons⟩ := task_control_run_consistent ext calls dev _ hd1
    (provisioned_host_part _ (init_page_provisioned ext dev0 _))
    (fun pair hmem => (pair_consistent_host_part _ _ _).mpr
      (init_page_pairs_consistent ext dev0 _ pair hmem)) hcalls
  obtain ⟨vma1, hv1⟩ : ∃ vma1, dev1.slpc.vma = some vma1 := by
    cases h : dev1.slpc.vma with
    | none => rw [(vma_eq_none_iff dev1).mp h] at hq; cases hq
    | some vma1 => exact ⟨vma1, rfl⟩
  have hq1 : q = vma1.page.host_part := by
    rw [page_view_of_vma dev1 vma1 hv1] at hq
    exact (Option.some.inj hq).symm
  refine ⟨dev, dev1, vma1, hd0, hrun, hv1, ?_⟩
  intro pair hmem
  have hc : pair_consistent vma1.page pair.1 pair.2 := by
    have := hcons pair hmem
    rw [hq1] at this
    exact (pair_consistent_host_part _ _ _).mp this
  refine ⟨hc, ?_, ?_⟩
  · intro hact out
    obtain ⟨dev2, h2⟩ := task_status_active dev1 _ hact (page_view_of_vma dev1 vma1 hv1) out
      pair.1 pair.2
    rw [task_status_value_eq_spec, spec_task_status_host_part] at h2
    exact ⟨dev2, _, h2, spec_task_status_ne_unknown _ _ _ hc⟩
  · intro hact out
    unfold intel_slpc_task_status
    simp [hact]

theorem C21_pairs_never_unknown_witness :
    sample_raw_active_dev.slpc.vma ≠ none ∧
    ∃ dev dev1 vma1,
      slpc_shared_data_init sample_platform sample_raw_active_dev = some dev ∧
      dev.slpc.active = true ∧
      (intel_slpc_get_param dev 0).2 = some (1, 1) ∧
      (intel_slpc_get_param dev 1).2 = some (0, 0) ∧
      (intel_slpc_get_param dev 4).2 = some (0, 0) ∧
      (intel_slpc_get_param dev 5).2 = some (1, 1) ∧
      task_control_run sample_platform dev sample_calls = some dev1 ∧
      dev1.slpc.active = true ∧
      dev1.slpc.vma = some vma1 ∧
      (intel_slpc_get_param dev1 0).2 = some (0, 0) ∧
      (intel_slpc_get_param dev1 1).2 = some (1, 1) ∧
      (intel_slpc_get_param dev1 4).2 = some (1, 1) ∧
      (intel_slpc_get_param dev1 5).2 = some (0, 0) ∧
      dev1.guc_sent.length = 7 ∧
      ∀ pair ∈ task_pairs,
        pair_consistent vma1.page pair.1 pair.2 ∧
        ∀ out, ∃ dev2 x,
          intel_slpc_task_status dev1 (some out) pair.1 pair.2 = some (dev2, some x, 0) ∧
          x ≠ SLPC_PARAM_TASK_UNKNOWN := by
  obtain ⟨dev, dev1, vma1, h0, h1, h2, h3⟩ :=
    C21_pairs_never_unknown sample_platform sample_raw_active_dev _ sample_calls rfl
      (by decide)
  have e0 : slpc_shared_data_init sample_platform sample_raw_active_dev =
      some sample_init_active_dev := rfl
  rw [e0] at h0
  cases h0
  have e1 : task_control_run sample_platform sample_init_active_dev sample_calls =
      some sample_after_run_dev := rfl
  rw [e1] at h1
  cases h1
  exact ⟨by decide, sample_init_active_dev, sample_after_run_dev, vma1, rfl, rfl, rfl, rfl, rfl,
    rfl, rfl, rfl, h2, rfl, rfl, rfl, rfl, rfl,
    fun pair hmem => ⟨(h3 pair hmem).1, (h3 pair hmem).2.1 rfl⟩⟩

/-! ## Frame of the store operations -/

theorem set_param_other_bits (data : slpc_shared_data) (i v w b : Nat)
    (h : ¬ (w = i >>> 5 ∧ b = i % 32)) :
    ((slpc_mem_set_param data i v).override_parameters_set_bits.getD w 0).testBit b =
      (data.override_parameters_set_bits.getD w 0).testBit b := by
  unfold slpc_mem_set_param
  simp only [getD_set]
  by_cases hw : i >>> 5 = w ∧ i >>> 5 < data.override_parameters_set_bits.length
  · rw [if_pos hw, Nat.testBit_or, testBit_one_shiftLeft, hw.1]
    have hb : ¬ i % 32 = b := fun hb => h ⟨hw.1.symm, hb.symm⟩
    simp [hb]
  · rw [if_neg hw]

theorem unset_param_other_bits (data : slpc_shared_data) (i w b : Nat) (hb32 : b < 32)
    (h : ¬ (w = i >>> 5 ∧ b = i % 32)) :
    ((slpc_mem_unset_param data i).override_parameters_set_bits.getD w 0).testBit b =
      (data.override_parameters_set_bits.getD w 0).testBit b := by
  unfold slpc_mem_unset_param
  simp only [getD_set]
  by_cases hw : i >>> 5 = w ∧ i >>> 5 < data.override_parameters_set_bits.length
  · rw [if_pos hw, Nat.testBit_and, testBit_u32_not_one_shiftLeft _ _ hb32, hw.1]
    have hb : i % 32 ≠ b := fun hb => h ⟨hw.1.symm, hb.symm⟩
    simp [hb]
  · rw [if_neg hw]

/-- Claim C22: for all ids `i ≠ j` (below `SLPC_MAX_PARAM` in particular; the
bound is not needed) and every value `v`, `slpc_mem_set_param(i, v)` and
`slpc_mem_unset_param(i)` leave what is read for parameter `j` (override bit
and override value) unchanged, leave `shared_data_size`, `global_state`,
`platform_info` and `task_state_data` unchanged, and change no bit of the
bitmap other than bit `i % 32` of word `i >> 5`. -/
theorem C22_frame (data : slpc_shared_data) (i j v : Nat) (hij : i ≠ j) :
    (slpc_mem_get_param (slpc_mem_set_param data i v) j = slpc_mem_get_param data j ∧
      spec_override_set (slpc_mem_set_param data i v) j = spec_override_set data j ∧
      spec_override_value (slpc_mem_set_param data i v) j = spec_override_value data j ∧
      (slpc_mem_set_param data i v).shared_data_size = data.shared_data_size ∧
      (slpc_mem_set_param data i v).global_state = data.global_state ∧
      (slpc_mem_set_param data i v).platform_info = data.platform_info ∧
      (slpc_mem_set_param data i v).task_state_data = data.task_state_data ∧
      ∀ w b, b < 32 → ¬ (w = i >>> 5 ∧ b = i % 32) →
        ((slpc_mem_set_param data i v).override_parameters_set_bits.getD w 0).testBit b =
          (data.override_parameters_set_bits.getD w 0).testBit b) ∧
    (slpc_mem_get_param (slpc_mem_unset_param data i) j = slpc_mem_get_param data j ∧
      spec_override_set (slpc_mem_unset_param data i) j = spec_override_set data j ∧
      spec_override_value (slpc_mem_unset_param data i) j = spec_override_value data j ∧
      (slpc_mem_unset_param data i).shared_data_size = data.shared_data_size ∧
      (slpc_mem_unset_param data i).global_state = data.global_state ∧
      (slpc_mem_unset_param data i).platform_info = data.platform_info ∧
      (slpc_mem_unset_param data i).task_state_data = data.task_state_data ∧
      ∀ w b, b < 32 → ¬ (w = i >>> 5 ∧ b = i % 32) →
        ((slpc_mem_unset_param data i).override_parameters_set_bits.getD w 0).testBit b =
          (data.override_parameters_set_bits.getD w 0).testBit b) := by
  refine ⟨⟨mem_get_set_other data i j v hij, ?_, ?_, rfl, rfl, rfl, rfl, ?_⟩,
    ⟨mem_get_unset_other data i j hij, ?_, ?_, rfl, rfl, rfl, rfl, ?_⟩⟩
  · rw [override_set_set_param]; simp [hij]
  · rw [override_value_set_param]; simp [hij]
  · intro w b _ h
    exact set_param_other_bits data i v w b h
  · rw [override_set_unset_param]; simp [hij]
  · rw [override_value_unset_param]; simp [hij]
  · intro w b hb h
    exact unset_param_other_bits data i w b hb h

theorem C22_frame_witness :
    7 ≠ 6 ∧
    slpc_mem_get_param (slpc_mem_set_param sample_vma.page 7 900) 6 = (1, 150) ∧
    slpc_mem_get_param (slpc_mem_unset_param sample_vma.page 7) 6 = (1, 150) := by
  have h := C22_frame sample_vma.page 7 6 900 (by decide)
  have e : slpc_mem_get_param sample_vma.page 6 = (1, 150) := rfl
  exact ⟨by decide, h.1.1.trans e, h.2.1.trans e⟩

/-! ## The cached bounds stay ordered -/

theorem set_param_rps (ext : slpc_platform) (dev : drm_i915_private) (vma : i915_vma)
    (id value : Nat) (hv : dev.slpc.vma = some vma) :
    (intel_slpc_set_param ext dev id value).rps = dev.rps := by
  obtain ⟨errors, h⟩ := set_param_eq ext dev vma id value hv
  rw [h]

theorem enable_rps (ext : slpc_platform) (dev dev1 : drm_i915_private) (vma : i915_vma)
    (hv : dev.slpc.vma = some vma) (h1 : intel_slpc_enable ext dev = some dev1) :
    dev1.rps = dev.rps := by
  obtain ⟨errors, h⟩ := enable_eq ext dev vma hv
  rw [h] at h1
  cases h1
  rfl

/-- Claim C23: on a device with a shared store whose cached bounds satisfy
`min_unslice_freq ≤ max_unslice_freq`, every call of
`intel_slpc_max_freq_set(v)` or `intel_slpc_min_freq_set(v)` returns, with the
cached bounds still ordered, whether it fails or succeeds; and after a
successful call (return value 0) the updated cached bound lies between
`rps.min_freq` and `rps.max_freq`. -/
theorem C23_bounds_ordered (ext : slpc_platform) (dev : drm_i915_private) (vma : i915_vma)
    (v : Nat) (hv : dev.slpc.vma = some vma)
    (hinv : dev.slpc.min_unslice_freq ≤ dev.slpc.max_unslice_freq) :
    (∃ dev1 r, intel_slpc_max_freq_set ext dev v = some (dev1, r) ∧
      dev1.slpc.min_unslice_freq ≤ dev1.slpc.max_unslice_freq ∧
      (r = 0 → dev1.rps.min_freq ≤ dev1.slpc.max_unslice_freq ∧
        dev1.slpc.max_unslice_freq ≤ dev1.rps.max_freq)) ∧
    (∃ dev1 r, intel_slpc_min_freq_set ext dev v = some (dev1, r) ∧
      dev1.slpc.min_unslice_freq ≤ dev1.slpc.max_unslice_freq ∧
      (r = 0 → dev1.rps.min_freq ≤ dev1.slpc.min_unslice_freq ∧
        dev1.slpc.min_unslice_freq ≤ dev1.rps.max_freq)) := by
  have hne : (-EINVAL : Int) ≠ 0 := by decide
  constructor
  · by_cases hbad : v < dev.rps.min_freq ∨ v > dev.rps.max_freq ∨
        v < dev.slpc.min_unslice_freq
    · refine ⟨dev, -EINVAL, ?_, hinv, fun h => absurd h hne⟩
      unfold intel_slpc_max_freq_set
      rw [if_pos hbad]
    · obtain ⟨vma1, a1, -, -, -, -, -, a7, -, -, -⟩ := set_param_step ext dev vma
        SLPC_PARAM_GLOBAL_MAX_GT_UNSLICE_FREQ_MHZ (ext.intel_gpu_freq v) hv
      obtain ⟨vma2, b1, -, -, -, -, -, b7, -, -, -⟩ := set_param_step ext _ vma1
        SLPC_PARAM_GLOBAL_MAX_GT_SLICE_FREQ_MHZ (ext.intel_gpu_freq v) a1
      obtain ⟨dev3, vma3, c0, -, -, -, -, -, -, c7, -, -, -⟩ := enable_step ext _ vma2 b1
      have hrps : dev3.rps = dev.rps := by
        rw [enable_rps ext _ dev3 vma2 b1 c0, set_param_rps ext _ vma1 _ _ a1,
          set_param_rps ext dev vma _ _ hv]
      have hmin : dev3.slpc.min_unslice_freq = dev.slpc.min_unslice_freq := by
        rw [c7, b7, a7]
      refine ⟨{ dev3 with slpc := { dev3.slpc with max_unslice_freq := v } }, 0, ?_, ?_, ?_⟩
      · unfold intel_slpc_max_freq_set
        rw [if_neg hbad]
        dsimp only
        rw [c0]
      · show dev3.slpc.min_unslice_freq ≤ v
        rw [hmin]; omega
      · intro _
        show dev3.rps.min_freq ≤ v ∧ v ≤ dev3.rps.max_freq
        rw [hrps]; omega
  · by_cases hbad : v < dev.rps.min_freq ∨ v > dev.rps.max_freq ∨
        v > dev.slpc.max_unslice_freq
    · refine ⟨dev, -EINVAL, ?_, hinv, fun h => absurd h hne⟩
      unfold intel_slpc_min_freq_set
      rw [if_pos hbad]
    · obtain ⟨vma1, a1, -, -, -, -, a6, -, -, -, -⟩ := set_param_step ext dev vma
        SLPC_PARAM_GLOBAL_MIN_GT_UNSLICE_FREQ_MHZ (ext.intel_gpu_freq v) hv
      obtain ⟨vma2, b1, -, -, -, -, b6, -, -, -, -⟩ := set_param_step ext _ vma1
        SLPC_PARAM_GLOBAL_MIN_GT_SLICE_FREQ_MHZ (ext.intel_gpu_freq v) a1
      obtain ⟨dev3, vma3, c0, -, -, -, -, -, c6, -, -, -, -⟩ := enable_step ext _ vma2 b1
      have hrps : dev3.rps = dev.rps := by
        rw [enable_rps ext _ dev3 vma2 b1 c0, set_param_rps ext _ vma1 _ _ a1,
          set_param_rps ext dev vma _ _ hv]
      have hmax : dev3.slpc.max_unslice_freq = dev.slpc.max_unslice_freq := by
        rw [c6, b6, a6]
      refine ⟨{ dev3 with slpc := { dev3.slpc with min_unslice_freq := v } }, 0, ?_, ?_, ?_⟩
      · unfold intel_slpc_min_freq_set
        rw [if_neg hbad]
        dsimp only
        rw [c0]
      · show v ≤ dev3.slpc.max_unslice_freq
        rw [hmax]; omega
      · intro _
        show dev3.rps.min_freq ≤ v ∧ v ≤ dev3.rps.max_freq
        rw [hrps]; omega

theorem C23_bounds_ordered_witness :
    sample_dev.slpc.vma = some sample_vma ∧
    sample_dev.slpc.min_unslice_freq ≤ sample_dev.slpc.max_unslice_freq ∧
    ∃ dev1 r, intel_slpc_max_freq_set sample_platform sample_dev 20 = some (dev1, r) ∧
      dev1.slpc.min_unslice_freq ≤ dev1.slpc.max_unslice_freq := by
  obtain ⟨dev1, r, h1, h2, -⟩ :=
    (C23_bounds_ordered sample_platform sample_dev sample_vma 20 rfl (by decide)).1
  exact ⟨rfl, by decide, dev1, r, h1, h2⟩

/-! ## Task control on an inactive device -/

/-- Claim C24: when the active flag is false, `intel_slpc_task_control` returns
`-ENODEV` for every tri-state argument and every id pair and leaves the device
exactly as it was: the shared store and the active flag are unchanged, no event
is sent, and SLPC is not re-enabled. -/
theorem C24_task_control_inactive (ext : slpc_platform) (dev : drm_i915_private)
    (val enable_id disable_id : Nat) (hact : dev.slpc.active = false) :
    intel_slpc_task_control ext dev val enable_id disable_id = some (dev, -ENODEV) := by
  unfold intel_slpc_task_control
  simp [hact]

theorem C24_task_control_inactive_witness :
    sample_dev.slpc.active = false ∧
    intel_slpc_task_control sample_platform sample_dev SLPC_PARAM_TASK_ENABLED 4 5 =
      some (sample_dev, -ENODEV) :=
  ⟨rfl, C24_task_control_inactive sample_platform sample_dev SLPC_PARAM_TASK_ENABLED 4 5 rfl⟩

end Slpc
